import Mathlib

/-!
# Wacom tablet emulation: event ingestion, liveness scheduling, report encoding

Shallow embedding of `dev-wacom-bamboo.c` (the simple variant, a Bamboo CTL-460)
and `dev-wacom-intuos-5.c` (the advanced variant, an Intuos 5).

Conventions of the embedding.

* A C `int` is an `Int`.  The arithmetic of the event callback (the product of a raw
  coordinate and the tablet resolution, the sum into the wheel accumulator, the
  product `dz * 128` and the pressure difference) is wrapped to 32 bits by `wrap32`.
* Timestamps are the millisecond readings of the virtual clock (`int64_t`); their
  differences are far from the 64-bit range and are kept as plain integers.
* `e >> k` on an `int` is the arithmetic shift `e >>> (k : Nat)`.
* A byte buffer `uint8_t *buf` is a `List Nat`; `store` is the assignment
  `buf[i] = v`, which keeps the low eight bits of `v`.
* `s->field = v` is a record update; a function that mutates the state returns
  the new state.
-/

namespace Wacom

/-! ## Machine arithmetic -/

/-- Value of a C `int` expression after two's-complement wrap-around to 32 bits. -/
def wrap32 (v : Int) : Int := (v + 2147483648) % 4294967296 - 2147483648

/-- Bit pattern of a C `int` read as an unsigned 32-bit number; `e & mask` with a
non-negative mask is `bits32 e &&& mask`. -/
def bits32 (v : Int) : Nat := (v % 4294967296).toNat

/-- Conversion to `uint8_t`: the low eight bits. -/
def toUInt8 (v : Nat) : Nat := v % 256

/-- Conversion of a C `int` to `uint16_t`: the low sixteen bits. -/
def toUInt16 (v : Int) : Nat := (v % 65536).toNat

/-- The assignment `buf[i] = v` on a `uint8_t` buffer. -/
def store (buf : List Nat) (i : Nat) (v : Nat) : List Nat := buf.set i (toUInt8 v)

/-- The helper `int_clamp(val, vmin, vmax)` of both source files. -/
def int_clamp (val vmin vmax : Int) : Int :=
  if val < vmin then vmin
  else if val > vmax then vmax
  else val

/-! ## Declarations the sources take from the host emulator -/

/-- Modelled from the spec: the button masks `MOUSE_EVENT_LBUTTON`, `MOUSE_EVENT_RBUTTON`
and `MOUSE_EVENT_MBUTTON` are declared in the host header `ui/console.h`, which is not
among the sources; the spec describes `buttons` as a bitmask of primary, secondary,
tertiary, with primary at bit 0.  This is the primary (left) button. -/
def MOUSE_EVENT_LBUTTON : Nat := 0x01

/-- Modelled from the spec: the secondary (right) button mask, see `MOUSE_EVENT_LBUTTON`. -/
def MOUSE_EVENT_RBUTTON : Nat := 0x02

/-- Modelled from the spec: the tertiary (middle) button mask, see `MOUSE_EVENT_LBUTTON`. -/
def MOUSE_EVENT_MBUTTON : Nat := 0x04

/-- The test `s->buttons_state & mask` of the encoders, as a condition. -/
def buttonDown (buttons_state : Int) (mask : Nat) : Bool :=
  bits32 buttons_state &&& mask != 0

/-- Packet identifier `p->pid` of a data transfer. -/
inductive USBToken where
  | IN
  | OUT
  | SETUP
  deriving DecidableEq

/-- Transfer status `p->status`: the initial `USB_RET_SUCCESS`, or `USB_RET_NAK` (no data
this poll), or `USB_RET_STALL` (request not understood). -/
inductive USBRet where
  | SUCCESS
  | NAK
  | STALL
  deriving DecidableEq

/-- The part of a `USBPacket` the device code reads and writes: token, endpoint number
`p->ep->nr`, status, and the bytes handed over by `usb_packet_copy`. -/
structure USBPacket where
  pid : USBToken
  ep : Nat
  status : USBRet
  data : List Nat
  deriving DecidableEq

/-- The host call `usb_packet_copy(p, buf, len)`: the first `len` bytes of `buf` are
transferred. -/
def usb_packet_copy (p : USBPacket) (buf : List Nat) (len : Int) : USBPacket :=
  { p with data := p.data ++ buf.take len.toNat }

/-- The host call `memcpy(dst, src, n)` on byte buffers: the first `n` bytes of `src`
replace those of `dst`. -/
def memcpy (dst src : List Nat) (n : Nat) : List Nat := src.take n ++ dst.drop n

/-- The part of a control transfer the device code reads and writes: the status
`p->status`, the length `p->actual_length`, and the transfer buffer `data`.  Reading
`data[i]` past the end of the list yields 0. -/
structure ControlTransfer where
  status : USBRet
  actual_length : Int
  data : List Nat
  deriving DecidableEq

/-- Modelled from the spec: the request-code bases `DeviceRequest`, `InterfaceRequest`,
`EndpointOutRequest`, `ClassInterfaceRequest`, `ClassInterfaceOutRequest` and the standard
request numbers are declared in the host header `hw/usb.h`, which is not among the
sources; the spec names them as the decoded standard and class requests of the control
surface.  The value is `(direction | type | recipient) << 8`. -/
def DeviceRequest : Nat := 0x8000

/-- Modelled from the spec: see `DeviceRequest`. -/
def InterfaceRequest : Nat := 0x8100

/-- Modelled from the spec: see `DeviceRequest`. -/
def EndpointOutRequest : Nat := 0x0200

/-- Modelled from the spec: see `DeviceRequest`. -/
def ClassInterfaceRequest : Nat := 0xA100

/-- Modelled from the spec: see `DeviceRequest`. -/
def ClassInterfaceOutRequest : Nat := 0x2100

/-- Modelled from the spec: see `DeviceRequest`. -/
def USB_REQ_CLEAR_FEATURE : Nat := 0x01

/-- Modelled from the spec: see `DeviceRequest`. -/
def USB_REQ_GET_DESCRIPTOR : Nat := 0x06

/-- Modelled from the spec: see `DeviceRequest`. -/
def USB_DT_DEVICE_QUALIFIER : Nat := 0x06

/-! ## Simple variant: `dev-wacom-bamboo.c` -/

namespace Bamboo

def TABLET_RESOLUTION_X : Int := 14720
def TABLET_RESOLUTION_Y : Int := 9200

def WACOM_MODE_HID : Int := 1
def WACOM_MODE_WACOM : Int := 2

def WACOM_REPORT_PENABLED : Nat := 2

def WACOM_STATUS_RANGE : Nat := 0x80
def WACOM_STATUS_PROXIMITY : Nat := 0x40
def WACOM_STATUS_READY : Nat := 0x20

def WACOM_BUTTON_PEN : Nat := 0x01
def WACOM_BUTTON_1 : Nat := 0x02
def WACOM_BUTTON_2 : Nat := 0x04
def WACOM_BUTTON_RUBBER : Nat := 0x08

/-- The record `USBWacomState` of the simple variant.  `eh_entry` records whether the
pointer-event handler handle is non-null, that is, whether the state is subscribed. -/
structure USBWacomState where
  eh_entry : Bool
  dx : Int
  dy : Int
  dz : Int
  buttons_state : Int
  x : Int
  y : Int
  mode : Int
  idle : Nat
  lastPacketTime : Int
  changedPen : Bool
  deriving DecidableEq

/-- The pointer-event callback `usb_wacom_event`.  The fields and the arguments are C
`int`s, so the product of the scaling and the sum `s->dz += dz` are reduced to 32 bits.
The closing `usb_wakeup` only signals the transport and touches no field. -/
def usb_wacom_event (s : USBWacomState) (x y dz buttons_state : Int) : USBWacomState :=
  { s with
    x := Int.tdiv (wrap32 (x * TABLET_RESOLUTION_X)) 0x7FFF
    y := Int.tdiv (wrap32 (y * TABLET_RESOLUTION_Y)) 0x7FFF
    dz := wrap32 (s.dz + dz)
    buttons_state := buttons_state
    changedPen := true }

/-- The status byte `b` built at the top of `usb_wacom_poll`. -/
def statusBits (buttons_state : Int) : Nat :=
  let b := WACOM_STATUS_READY ||| WACOM_STATUS_PROXIMITY ||| WACOM_STATUS_RANGE
  let b := if buttonDown buttons_state MOUSE_EVENT_LBUTTON then b ||| WACOM_BUTTON_PEN else b
  let b := if buttonDown buttons_state MOUSE_EVENT_MBUTTON then b ||| WACOM_BUTTON_1 else b
  let b := if buttonDown buttons_state MOUSE_EVENT_RBUTTON then b ||| WACOM_BUTTON_2 else b
  b

/-- The pen report encoder `usb_wacom_poll(s, buf, len)`: the buffer after the call and
the returned length. -/
def usb_wacom_poll (s : USBWacomState) (buf : List Nat) (len : Int) : List Nat × Int :=
  let b := statusBits s.buttons_state
  if len < 9 then (buf, 0)
  else
    let buf := store buf 0 WACOM_REPORT_PENABLED
    let buf := store buf 1 b
    let buf := store buf 2 (bits32 s.x &&& 0xff)
    let buf := store buf 3 (bits32 (s.x >>> (8 : Nat)))
    let buf := store buf 4 (bits32 s.y &&& 0xff)
    let buf := store buf 5 (bits32 (s.y >>> (8 : Nat)))
    let pressure : Nat :=
      if b &&& (WACOM_BUTTON_PEN ||| WACOM_BUTTON_RUBBER) != 0 then 512 else 0
    let buf := store buf 6 (pressure &&& 0xff)
    let buf := store buf 7 (pressure >>> 8)
    let buf := store buf 8 0
    (buf, len)

/-- The data-transfer handler `usb_wacom_handle_data`.  `buf` is the local array
`uint8_t buf[p->iov.size]` (its length is `p->iov.size`, its prior contents are
whatever the stack held) and `currentTime` is the reading of the virtual clock. -/
def usb_wacom_handle_data (s : USBWacomState) (p : USBPacket) (buf : List Nat)
    (currentTime : Int) : USBWacomState × USBPacket :=
  match p.pid with
  | USBToken.IN =>
    if p.ep = 2 then (s, { p with status := USBRet.NAK })
    else if p.ep = 1 then
      if s.mode ≠ WACOM_MODE_WACOM then (s, { p with status := USBRet.NAK })
      else
        let s := if currentTime - s.lastPacketTime > 100 then { s with changedPen := true } else s
        if !s.changedPen then (s, { p with status := USBRet.NAK })
        else
          let s := { s with lastPacketTime := currentTime }
          let s := { s with changedPen := false }
          let r := usb_wacom_poll s buf buf.length
          (s, usb_packet_copy p r.1 r.2)
    else (s, { p with status := USBRet.STALL })
  | _ => (s, { p with status := USBRet.STALL })

/-- The mode switch `usb_wacom_set_tablet_mode(s, mode)`.  Removing and activating the
handler act on the host's handler list; in the record, `eh_entry` ends non-null exactly
in the `WACOM_MODE_WACOM` case of the switch. -/
def usb_wacom_set_tablet_mode (s : USBWacomState) (mode : Int) : USBWacomState :=
  let s := { s with mode := mode }
  let s := if mode = WACOM_MODE_WACOM then { s with eh_entry := true }
    else { s with eh_entry := false }
  { s with changedPen := true }

/-- The zero-filled record a device object starts from. -/
def zeroState : USBWacomState :=
  { eh_entry := false, dx := 0, dy := 0, dz := 0, buttons_state := 0, x := 0, y := 0,
    mode := 0, idle := 0, lastPacketTime := 0, changedPen := false }

/-- The device creation `usb_wacom_realize`. -/
def usb_wacom_realize (s : USBWacomState) : USBWacomState :=
  let s := { s with eh_entry := false }
  let s := { s with lastPacketTime := 0 }
  usb_wacom_set_tablet_mode s WACOM_MODE_HID

end Bamboo

/-! ## Advanced variant: `dev-wacom-intuos-5.c` -/

namespace Intuos5

def WACOM_REPORT_PENABLED : Nat := 2

def PEN_LEAVE_TIMEOUT : Int := 5000
def PEN_PING_INTERVAL : Int := 200

def TABLET_CLICK_PRESSURE : Int := 890
def TABLET_POINTER_DOWN_MIN_PRESSURE : Int := 128
def TABLET_MAX_PRESSURE : Int := (1 <<< 11) - 1

def TABLET_RESOLUTION_X : Int := 44704
def TABLET_RESOLUTION_Y : Int := 27940

def WACOM_MODE_HID : Int := 1
def WACOM_MODE_WACOM : Int := 2

def WACOM_BUTTON_STYLUS_BUTTON_1 : Nat := 0x02
def WACOM_BUTTON_STYLUS_BUTTON_2 : Nat := 0x04

def WACOM_STYLUS_PROXIMITY : Nat := 0x80
def WACOM_STYLUS_READY : Nat := 0x40
def WACOM_STYLUS_IN_RANGE : Nat := 0x20

def WACOM_STYLUS_HAS_SERIAL : Nat := 0x02
def WACOM_STYLUS_NO_SERIAL : Nat := 0x00

/-- The record `USBWacomState` of the advanced variant.  `eh_entry` records whether the
pointer-event handler handle is non-null, that is, whether the state is subscribed. -/
structure USBWacomState where
  eh_entry : Bool
  dx : Int
  dy : Int
  dz : Int
  buttons_state : Int
  x : Int
  y : Int
  pressure : Int
  mode : Int
  idle : Nat
  product_id : Nat
  vendor_id : Nat
  lastPacketTime : Int
  lastInputEventTime : Int
  penInProx : Bool
  changedPen : Bool
  changedProximity : Bool
  deriving DecidableEq

/-- The pointer-event callback `usb_wacom_event`; `now` is the value read from
`qemu_clock_get_ms(QEMU_CLOCK_VIRTUAL)`.  The fields and the arguments are C `int`s, so
the products of the scaling, the sum `s->dz += dz`, the product `dz * 128` and the
difference `s->pressure - dz * 128` are each reduced to 32 bits.  The closing
`usb_wakeup` only signals the transport and touches no field. -/
def usb_wacom_event (s : USBWacomState) (x y dz buttons_state : Int) (now : Int) :
    USBWacomState :=
  let s := { s with x := Int.tdiv (wrap32 (x * TABLET_RESOLUTION_X)) 0x7FFF }
  let s := { s with y := Int.tdiv (wrap32 (y * TABLET_RESOLUTION_Y)) 0x7FFF }
  let s := { s with dz := wrap32 (s.dz + dz) }
  let s := { s with
    pressure := int_clamp (wrap32 (s.pressure - wrap32 (dz * 128)))
      TABLET_POINTER_DOWN_MIN_PRESSURE TABLET_MAX_PRESSURE }
  let s := { s with buttons_state := buttons_state }
  let s := { s with changedPen := true }
  let s := { s with lastInputEventTime := now }
  if !s.penInProx then { s with penInProx := true, changedProximity := true }
  else s

/-- The pen report encoder `usb_wacom_poll(s, buf, len)`: the buffer after the call and
the returned length. -/
def usb_wacom_poll (s : USBWacomState) (buf : List Nat) (len : Int) : List Nat × Int :=
  let tiltX : Nat := toUInt8 (0 + 64)
  let tiltY : Nat := toUInt8 (0 + 64)
  if len < 10 then (buf, 0)
  else
    let b : Nat := 0
    let b := if buttonDown s.buttons_state MOUSE_EVENT_RBUTTON
      then b ||| WACOM_BUTTON_STYLUS_BUTTON_1 else b
    let b := if buttonDown s.buttons_state MOUSE_EVENT_MBUTTON
      then b ||| WACOM_BUTTON_STYLUS_BUTTON_2 else b
    let pd : Nat × Nat :=
      if buttonDown s.buttons_state MOUSE_EVENT_LBUTTON then (toUInt16 s.pressure, 0)
      else (0, 10)
    let pressure := pd.1
    let distance := pd.2
    let buf := store buf 0 WACOM_REPORT_PENABLED
    let buf := store buf 1
      (WACOM_STYLUS_PROXIMITY ||| WACOM_STYLUS_READY ||| WACOM_STYLUS_IN_RANGE ||| b
        ||| (pressure &&& 0x01))
    let buf := store buf 2 (bits32 (s.x >>> (9 : Nat)) &&& 0xFF)
    let buf := store buf 3 (bits32 (s.x >>> (1 : Nat)) &&& 0xFF)
    let buf := store buf 4 (bits32 (s.y >>> (9 : Nat)) &&& 0xFF)
    let buf := store buf 5 (bits32 (s.y >>> (1 : Nat)) &&& 0xFF)
    let buf := store buf 6 (pressure >>> 3)
    let buf := store buf 7 (((pressure &&& 0x6) <<< 5) ||| ((tiltX >>> 1) &&& 0x7F))
    let buf := store buf 8 ((tiltX <<< 7) ||| (tiltY &&& 0x7F))
    let buf := store buf 9
      ((distance <<< 2) ||| ((bits32 s.x &&& 0x01) <<< 1) ||| (bits32 s.y &&& 0x01))
    (buf, 10)

/-- The proximity/tool report encoder `usb_wacom_prox_event(s, buf, len, inProx)`: the
buffer after the call and the returned length.  `toolID` and `toolSerial` are
`uint32_t`, so their left shifts are reduced modulo `2^32`. -/
def usb_wacom_prox_event (_s : USBWacomState) (buf : List Nat) (len : Int) (inProx : Bool) :
    List Nat × Int :=
  let toolIndex : Nat := 0
  let toolID : Nat := 0x802
  let toolSerial : Nat := 0xFEEDC0DE
  if len < 9 then (buf, 0)
  else
    let buf := store buf 0 WACOM_REPORT_PENABLED
    let buf := store buf 1
      (WACOM_STYLUS_PROXIMITY
        ||| (if inProx then WACOM_STYLUS_READY ||| WACOM_STYLUS_HAS_SERIAL else 0)
        ||| (toolIndex &&& 0x01))
    let buf := store buf 2 (toolID >>> 4)
    let buf := store buf 3 (((toolID <<< 4) % 4294967296) ||| (toolSerial >>> 28))
    let buf := store buf 4 (toolSerial >>> 20)
    let buf := store buf 5 (toolSerial >>> 12)
    let buf := store buf 6 (toolSerial >>> 4)
    let buf := store buf 7 (((toolSerial <<< 4) % 4294967296) ||| ((toolID >>> 16) &&& 0x0F))
    let buf := store buf 8 ((toolID >>> 8) &&& 0xF0)
    (buf, len)

/-- The data-transfer handler `usb_wacom_handle_data`.  `buf` is the local array
`uint8_t buf[p->iov.size]` (its length is `p->iov.size`, its prior contents are
whatever the stack held) and `currentTime` is the reading of the virtual clock. -/
def usb_wacom_handle_data (s : USBWacomState) (p : USBPacket) (buf : List Nat)
    (currentTime : Int) : USBWacomState × USBPacket :=
  match p.pid with
  | USBToken.IN =>
    if p.ep = 2 then (s, { p with status := USBRet.NAK })
    else if p.ep = 3 then
      if s.mode ≠ WACOM_MODE_WACOM then (s, { p with status := USBRet.NAK })
      else
        let s :=
          if s.penInProx && !s.changedPen
              && decide (currentTime - s.lastInputEventTime > PEN_LEAVE_TIMEOUT) then
            { s with penInProx := false, changedProximity := true }
          else s
        let s :=
          if currentTime - s.lastPacketTime > PEN_PING_INTERVAL then
            if s.penInProx then { s with changedPen := true }
            else { s with changedProximity := true }
          else s
        if !(s.changedPen || s.changedProximity) then (s, { p with status := USBRet.NAK })
        else
          let s := { s with lastPacketTime := currentTime }
          if s.changedProximity then
            let s := { s with changedProximity := false }
            let r := usb_wacom_prox_event s buf buf.length s.penInProx
            (s, usb_packet_copy p r.1 r.2)
          else if s.changedPen then
            let s := { s with changedPen := false }
            let r := usb_wacom_poll s buf buf.length
            (s, usb_packet_copy p r.1 r.2)
          else (s, p)
    else (s, { p with status := USBRet.STALL })
  | _ => (s, { p with status := USBRet.STALL })

/-- The mode switch `usb_wacom_set_tablet_mode(s, mode)`.  Removing and activating the
handler act on the host's handler list; in the record, `eh_entry` ends non-null exactly
in the `WACOM_MODE_WACOM` case of the switch. -/
def usb_wacom_set_tablet_mode (s : USBWacomState) (mode : Int) : USBWacomState :=
  let s := { s with mode := mode }
  let s := if mode = WACOM_MODE_WACOM then { s with eh_entry := true }
    else { s with eh_entry := false }
  let s := { s with penInProx := false }
  let s := { s with changedPen := false }
  { s with changedProximity := true }

/-- The zero-filled record a device object starts from. -/
def zeroState : USBWacomState :=
  { eh_entry := false, dx := 0, dy := 0, dz := 0, buttons_state := 0, x := 0, y := 0,
    pressure := 0, mode := 0, idle := 0, product_id := 0, vendor_id := 0,
    lastPacketTime := 0, lastInputEventTime := 0, penInProx := false,
    changedPen := false, changedProximity := false }

/-- The device creation `usb_wacom_realize` (the descriptor selection by product and
vendor id touches no field of the record). -/
def usb_wacom_realize (s : USBWacomState) : USBWacomState :=
  let s := { s with eh_entry := false }
  let s := { s with pressure := TABLET_CLICK_PRESSURE }
  let s := { s with lastPacketTime := 0 }
  let s := { s with lastInputEventTime := 0 }
  usb_wacom_set_tablet_mode s WACOM_MODE_HID

/-! ### Control requests, reset, and runs of the advanced variant -/

def WACOM_GET_REPORT : Nat := 0x01
def WACOM_SET_REPORT : Nat := 0x09

def WAC_CMD_LED_CONTROL : Nat := 0x20
def WAC_CMD_SET_DATARATE : Nat := 0x04
def WAC_CMD_SET_SCANMODE_PENTOUCH : Nat := 0x0d

def WACOM_REPORT_VERSIONS : Nat := 10

def WACOM_REQUEST_GET_MODE : Nat := 2
def WACOM_REQUEST_GET_FIRST_TOOL_ID : Nat := 5
def WACOM_REQUEST_GET_VERSIONS : Nat := 7

def HID_GET_REPORT : Nat := 0x01
def HID_GET_IDLE : Nat := 0x02
def HID_SET_IDLE : Nat := 0x0a
def HID_SET_PROTOCOL : Nat := 0x0b

def USB_DT_HID : Nat := 0x21
def USB_DT_REPORT : Nat := 0x22
def USB_DT_PHY : Nat := 0x23

/-- The table `interface_1_hid_report_descriptor`, byte for byte (243 bytes). -/
def interface_1_hid_report_descriptor : List Nat :=
  [
    0x05, 0x01, 0x09, 0x02, 0xA1, 0x01, 0x85, 0x01, 0x09, 0x01, 0xA1, 0x00, 0x05, 0x09, 0x19, 0x01,
    0x29, 0x03, 0x15, 0x00, 0x25, 0x01, 0x95, 0x03, 0x75, 0x01, 0x81, 0x02, 0x95, 0x05, 0x81, 0x03,
    0x05, 0x01, 0x09, 0x30, 0x09, 0x31, 0x09, 0x38, 0x15, 0x81, 0x25, 0x7F, 0x75, 0x08, 0x95, 0x03,
    0x81, 0x06, 0xC0, 0xC0, 0x05, 0x0D, 0x09, 0x01, 0xA1, 0x01, 0x85, 0x02, 0x09, 0x00, 0x75, 0x08,
    0x96, 0x09, 0x00, 0x15, 0x00, 0x26, 0xFF, 0x00, 0x81, 0x02, 0x85, 0x03, 0x09, 0x00, 0x75, 0x08,
    0x96, 0x09, 0x00, 0x15, 0x00, 0x26, 0xFF, 0x00, 0x81, 0x02, 0x85, 0xC0, 0x09, 0x00, 0x75, 0x08,
    0x96, 0x09, 0x00, 0x15, 0x00, 0x26, 0xFF, 0x00, 0x81, 0x02, 0x85, 0x02, 0x09, 0x00, 0x95, 0x01,
    0xB1, 0x02, 0x85, 0x03, 0x09, 0x00, 0x95, 0x09, 0xB1, 0x02, 0x85, 0x05, 0x09, 0x00, 0x95, 0x08,
    0xB1, 0x02, 0x85, 0x07, 0x09, 0x00, 0x95, 0x0F, 0xB1, 0x02, 0x85, 0x08, 0x09, 0x00, 0x95, 0x04,
    0xB1, 0x02, 0x85, 0x0A, 0x09, 0x00, 0x95, 0x02, 0xB1, 0x02, 0x85, 0x0B, 0x09, 0x00, 0x95, 0x01,
    0xB1, 0x02, 0x85, 0x20, 0x09, 0x00, 0x95, 0x08, 0xB1, 0x02, 0x85, 0x04, 0x09, 0x00, 0x95, 0x01,
    0xB1, 0x02, 0x85, 0x0D, 0x09, 0x00, 0x95, 0x01, 0xB1, 0x02, 0x85, 0xCC, 0x09, 0x00, 0x95, 0x02,
    0xB1, 0x02, 0x85, 0x30, 0x09, 0x00, 0x95, 0x1F, 0xB1, 0x02, 0x85, 0x31, 0x09, 0x00, 0x95, 0x04,
    0xB1, 0x02, 0x85, 0x15, 0x09, 0x00, 0x95, 0x0A, 0xB1, 0x02, 0x85, 0x14, 0x09, 0x00, 0x95, 0x0F,
    0xB1, 0x02, 0x85, 0x40, 0x09, 0x00, 0x95, 0x02, 0xB1, 0x02, 0x85, 0xDD, 0x09, 0x00, 0x95, 0x01,
    0xB1, 0x02, 0xC0 ]

/-- The table `interface_2_hid_report_descriptor`, byte for byte (23 bytes). -/
def interface_2_hid_report_descriptor : List Nat :=
  [
    0x06, 0x00, 0xFF, 0x09, 0x01, 0xA1, 0x01, 0x85, 0x02, 0x09, 0x01, 0x15, 0x00, 0x26, 0xFF, 0x00,
    0x75, 0x08, 0x95, 0x3F, 0x81, 0x02, 0xC0 ]

/-- The HID descriptor `wacom_ifaces[0].descs[0].data` (9 bytes). -/
def hid_descriptor_0 : List Nat :=
  [0x09, USB_DT_HID, 0x10, 0x01, 0x00, 0x01, USB_DT_REPORT, 0xF3, 0]

/-- The HID descriptor `wacom_ifaces[1].descs[0].data` (9 bytes). -/
def hid_descriptor_1 : List Nat :=
  [0x09, USB_DT_HID, 0x10, 0x01, 0x00, 0x01, USB_DT_REPORT, 0x17, 0x0]

/-- The version report encoder `usb_wacom_version_report(s, buf, len)`: the buffer after
the call and the returned length.  The stores to `buf[8]` and `buf[9]` follow the size
check `len < 8` as in the source; on a list they only land when the list is that long. -/
def usb_wacom_version_report (_s : USBWacomState) (buf : List Nat) (len : Int) :
    List Nat × Int :=
  if len < 8 then (buf, 0)
  else
    let penVersion : Nat := 0x121112
    let touchVersion : Nat := 0x1211
    let buf := store buf 0 WACOM_REPORT_VERSIONS
    let buf := store buf 1 0
    let buf := store buf 2 0
    let buf := store buf 3 ((penVersion >>> 16) &&& 0xFF)
    let buf := store buf 4 ((penVersion >>> 8) &&& 0xFF)
    let buf := store buf 5 (penVersion &&& 0xFF)
    let buf := store buf 6 ((touchVersion >>> 8) &&& 0xFF)
    let buf := store buf 7 (touchVersion &&& 0xFF)
    let buf := store buf 8 0
    let buf := store buf 9 0
    (buf, len)

/-- The device reset `usb_wacom_handle_reset`. -/
def usb_wacom_handle_reset (s : USBWacomState) : USBWacomState :=
  let s := { s with dx := 0 }
  let s := { s with dy := 0 }
  let s := { s with dz := 0 }
  let s := { s with x := 0 }
  let s := { s with y := 0 }
  let s := { s with buttons_state := 0 }
  usb_wacom_set_tablet_mode s WACOM_MODE_HID

/-- The `fail:` label of `usb_wacom_handle_control`: the transfer is stalled. -/
def stall (t : ControlTransfer) : ControlTransfer := { t with status := USBRet.STALL }

/-- The inner `switch (data[0])` of the `WACOM_SET_REPORT` case of
`usb_wacom_handle_control`; `d0` is the byte `data[0]`.  The case writes nothing to the
transfer. -/
def control_set_report (s : USBWacomState) (d0 : Nat) : USBWacomState :=
  if d0 = 1 ∨ d0 = 2 then usb_wacom_set_tablet_mode s d0
  else if d0 = WAC_CMD_LED_CONTROL then s
  else if d0 = 0x04 then
    let s := { s with changedPen := true }
    let s := { s with changedProximity := true }
    s
  else if d0 = WAC_CMD_SET_SCANMODE_PENTOUCH then
    let s := { s with changedPen := true }
    let s := { s with changedProximity := true }
    s
  else s

/-- The two-byte answer `data[0] = 0; data[1] = s->mode; p->actual_length = 2`. -/
def control_get_mode (s : USBWacomState) (t : ControlTransfer) : ControlTransfer :=
  let data := store t.data 0 0
  let data := store data 1 (bits32 s.mode)
  { t with data := data, actual_length := 2 }

/-- The inner switches of the `InterfaceRequest | USB_REQ_GET_DESCRIPTOR` case. -/
def control_get_report_descriptor (t : ControlTransfer) (value index : Int) : ControlTransfer :=
  if value >>> (8 : Nat) = (USB_DT_REPORT : Int) then
    if index = 0 then
      { t with
        data := memcpy t.data interface_1_hid_report_descriptor
          interface_1_hid_report_descriptor.length
        actual_length := interface_1_hid_report_descriptor.length }
    else if index = 1 then
      { t with
        data := memcpy t.data interface_2_hid_report_descriptor
          interface_2_hid_report_descriptor.length
        actual_length := interface_2_hid_report_descriptor.length }
    else stall t
  else stall t

/-- The inner switch of the `DeviceRequest | USB_REQ_GET_DESCRIPTOR` case. -/
def control_get_hid_descriptor (t : ControlTransfer) (value : Int) : ControlTransfer :=
  if value >>> (8 : Nat) = (USB_DT_HID : Int) then
    let src := if bits32 value &&& 0xFF ≥ 1 then hid_descriptor_1 else hid_descriptor_0
    { t with data := memcpy t.data src 9, actual_length := 9 }
  else if value >>> (8 : Nat) = (USB_DT_DEVICE_QUALIFIER : Int) then stall t
  else stall t

/-- The inner `switch (value & 0xFF)` of the `ClassInterfaceRequest | HID_GET_REPORT`
case; it reads the state and writes only the transfer. -/
def control_get_report (s : USBWacomState) (t : ControlTransfer) (value length : Int) :
    ControlTransfer :=
  let sel := bits32 value &&& 0xFF
  if sel = WACOM_REQUEST_GET_MODE then control_get_mode s t
  else if sel = WACOM_REQUEST_GET_FIRST_TOOL_ID then
    if s.penInProx then
      let r := usb_wacom_prox_event s t.data length s.penInProx
      { t with data := r.1, actual_length := r.2 }
    else { t with actual_length := 0 }
  else if sel = WACOM_REQUEST_GET_VERSIONS then
    let r := usb_wacom_version_report s t.data length
    { t with data := r.1, actual_length := r.2 }
  else if s.mode = WACOM_MODE_WACOM then
    let r := usb_wacom_poll s t.data length
    { t with data := r.1, actual_length := r.2 }
  else t

/-- The label `case base | code:` of `switch (request)`: whether `request` is that
request code. -/
def isCase (request : Int) (base code : Nat) : Bool :=
  request == ((base ||| code : Nat) : Int)

/-- The control-request handler `usb_wacom_handle_control`, one branch per `case` of its
`switch (request)`; the inner switches are the `control_*` functions above.  `desc_ret`
is the value returned by the host's generic descriptor handler
`usb_desc_handle_control`, called first; when it is non-negative the request was served
there and the device code returns at once.  `t` is the transfer as that call left it. -/
def usb_wacom_handle_control (s : USBWacomState) (t : ControlTransfer)
    (request value index length : Int) (desc_ret : Int) : USBWacomState × ControlTransfer :=
  if desc_ret ≥ 0 then (s, t)
  else if isCase request ClassInterfaceOutRequest WACOM_SET_REPORT then
    (control_set_report s (t.data.getD 0 0), t)
  else if isCase request ClassInterfaceOutRequest WACOM_GET_REPORT then
    (s, control_get_mode s t)
  else if isCase request ClassInterfaceOutRequest HID_SET_PROTOCOL then (s, t)
  else if isCase request InterfaceRequest USB_REQ_GET_DESCRIPTOR then
    (s, control_get_report_descriptor t value index)
  else if isCase request DeviceRequest USB_REQ_GET_DESCRIPTOR then
    (s, control_get_hid_descriptor t value)
  else if isCase request EndpointOutRequest USB_REQ_CLEAR_FEATURE then
    (s, { t with actual_length := 0 })
  else if isCase request ClassInterfaceRequest HID_GET_REPORT then
    (s, control_get_report s t value length)
  else if isCase request ClassInterfaceRequest HID_GET_IDLE then
    (s, { t with data := store t.data 0 s.idle, actual_length := 1 })
  else if isCase request ClassInterfaceOutRequest HID_SET_IDLE then
    ({ s with idle := toUInt8 (bits32 (value >>> (8 : Nat))) }, t)
  else (s, stall t)

/-- One call into the device from outside: a reset, a mode switch, a pointer event, a
data transfer, or a control request. -/
inductive Action where
  | reset
  | setMode (mode : Int)
  | event (x y dz buttons_state now : Int)
  | poll (p : USBPacket) (buf : List Nat) (now : Int)
  | control (t : ControlTransfer) (request value index length desc_ret : Int)

/-- The state after one call. -/
def step (s : USBWacomState) : Action → USBWacomState
  | Action.reset => usb_wacom_handle_reset s
  | Action.setMode mode => usb_wacom_set_tablet_mode s mode
  | Action.event x y dz buttons_state now => usb_wacom_event s x y dz buttons_state now
  | Action.poll p buf now => (usb_wacom_handle_data s p buf now).1
  | Action.control t request value index length desc_ret =>
    (usb_wacom_handle_control s t request value index length desc_ret).1

/-- The state after a sequence of calls. -/
def run (s : USBWacomState) (acts : List Action) : USBWacomState := acts.foldl step s

/-- Whether the host can make the call in state `s`: a pointer event reaches
`usb_wacom_event` only while the handler is registered, that is, while subscribed. -/
def deliverable (s : USBWacomState) : Action → Prop
  | Action.event _ _ _ _ _ => s.eh_entry = true
  | _ => True

/-- The states reachable from a device reset by deliverable calls. -/
inductive ReachableFromReset : USBWacomState → Prop where
  | reset (s0 : USBWacomState) : ReachableFromReset (usb_wacom_handle_reset s0)
  | step {s : USBWacomState} (a : Action) :
      ReachableFromReset s → deliverable s a → ReachableFromReset (step s a)

/-! ### The liveness scheduler as the specification words it -/

/-- What a poll hands back, in the specification's words: no data, or one report. -/
inductive PollOutcome where
  | noData
  | proximityReport (bytes : List Nat)
  | penReport (bytes : List Nat)
  deriving DecidableEq

/-- Step 2 of the specified scheduler: the proximity-leave timeout. -/
def specLeaveStep (s : USBWacomState) (now : Int) : USBWacomState :=
  if s.penInProx = true ∧ s.changedPen = false ∧ now - s.lastInputEventTime > 5000 then
    { s with penInProx := false, changedProximity := true }
  else s

/-- Step 3 of the specified scheduler: the forced refresh after the ping interval. -/
def specPingStep (s : USBWacomState) (now : Int) : USBWacomState :=
  if now - s.lastPacketTime > 200 then
    if s.penInProx = true then { s with changedPen := true }
    else { s with changedProximity := true }
  else s

/-- The five-step procedure of the specification (section 4.3), advanced variant, with
`dirtyPen`, `dirtyProximity`, `proximity`, `lastEventTime`, `lastReportTime` read as the
fields `changedPen`, `changedProximity`, `penInProx`, `lastInputEventTime`,
`lastPacketTime`.  A produced report is the leading part of the buffer that the
encoder reports as its length. -/
def specScheduler (s : USBWacomState) (buf : List Nat) (now : Int) :
    USBWacomState × PollOutcome :=
  if s.mode ≠ 2 then (s, PollOutcome.noData)
  else
    let s2 := specLeaveStep s now
    let s3 := specPingStep s2 now
    if s3.changedProximity = false ∧ s3.changedPen = false then (s3, PollOutcome.noData)
    else
      let s5 := { s3 with lastPacketTime := now }
      if s5.changedProximity = true then
        let s6 := { s5 with changedProximity := false }
        let r := usb_wacom_prox_event s6 buf buf.length s6.penInProx
        (s6, PollOutcome.proximityReport (r.1.take r.2.toNat))
      else
        let s6 := { s5 with changedPen := false }
        let r := usb_wacom_poll s6 buf buf.length
        (s6, PollOutcome.penReport (r.1.take r.2.toNat))

/-- How a specified poll outcome shows on the packet: no data is the `USB_RET_NAK`
status, a report is its bytes handed to the transport. -/
def deliver (p : USBPacket) : PollOutcome → USBPacket
  | PollOutcome.noData => { p with status := USBRet.NAK }
  | PollOutcome.proximityReport bytes => { p with data := p.data ++ bytes }
  | PollOutcome.penReport bytes => { p with data := p.data ++ bytes }

end Intuos5

/-! ## Teardown of the advanced variant -/

namespace Intuos5

/-- The teardown `usb_wacom_unrealize`: a non-null handler handle is removed from the
host and set to null (the reset of `dev->usb_desc` touches no field of the record). -/
def usb_wacom_unrealize (s : USBWacomState) : USBWacomState :=
  if s.eh_entry then { s with eh_entry := false } else s

end Intuos5

/-! ## Control requests, reset, teardown and runs of the simple variant -/

namespace Bamboo

def WACOM_GET_REPORT : Nat := 0x01
def WACOM_SET_REPORT : Nat := 0x09

def WACOM_REQUEST_GET_MODE : Nat := 2

def HID_GET_REPORT : Nat := 0x01
def HID_GET_IDLE : Nat := 0x02
def HID_GET_PROTOCOL : Nat := 0x03
def HID_SET_IDLE : Nat := 0x0a
def HID_SET_PROTOCOL : Nat := 0x0b

def USB_DT_HID : Nat := 0x21
def USB_DT_REPORT : Nat := 0x22
def USB_DT_PHY : Nat := 0x23

/-- The table `interface_1_hid_report_descriptor`, byte for byte (176 bytes). -/
def interface_1_hid_report_descriptor : List Nat :=
  [
    0x05, 0x01, 0x09, 0x02, 0xA1, 0x01, 0x85, 0x01, 0x09, 0x01, 0xA1, 0x00, 0x05, 0x09, 0x19, 0x01,
    0x29, 0x05, 0x15, 0x00, 0x25, 0x01, 0x95, 0x05, 0x75, 0x01, 0x81, 0x02, 0x95, 0x01, 0x75, 0x03,
    0x81, 0x01, 0x05, 0x01, 0x09, 0x30, 0x09, 0x31, 0x15, 0x81, 0x25, 0x7F, 0x75, 0x08, 0x95, 0x02,
    0x81, 0x06, 0xC0, 0xC0, 0x05, 0x0D, 0x09, 0x01, 0xA1, 0x01, 0x85, 0x02, 0xA1, 0x00, 0x06, 0x00,
    0xFF, 0x09, 0x01, 0x15, 0x00, 0x26, 0xFF, 0x00, 0x75, 0x08, 0x95, 0x08, 0x81, 0x02, 0xC0, 0x09,
    0x01, 0x85, 0x02, 0x95, 0x01, 0xB1, 0x02, 0x09, 0x01, 0x85, 0x03, 0x95, 0x01, 0xB1, 0x02, 0x09,
    0x01, 0x85, 0x04, 0x95, 0x01, 0xB1, 0x02, 0x09, 0x01, 0x85, 0x05, 0x95, 0x01, 0xB1, 0x02, 0x09,
    0x01, 0x85, 0x10, 0x95, 0x02, 0xB1, 0x02, 0x09, 0x01, 0x85, 0x11, 0x95, 0x10, 0xB1, 0x02, 0x09,
    0x01, 0x85, 0x13, 0x95, 0x01, 0xB1, 0x02, 0x09, 0x01, 0x85, 0x20, 0x95, 0x01, 0xB1, 0x02, 0x09,
    0x01, 0x85, 0x21, 0x95, 0x01, 0xB1, 0x02, 0x09, 0x01, 0x85, 0x06, 0x95, 0x01, 0xB1, 0x02, 0x09,
    0x01, 0x85, 0x07, 0x95, 0x01, 0xB1, 0x02, 0x09, 0x01, 0x85, 0x14, 0x95, 0x01, 0xB1, 0x02, 0xC0 ]

/-- The table `interface_2_hid_report_descriptor`, byte for byte (75 bytes). -/
def interface_2_hid_report_descriptor : List Nat :=
  [
    0x06, 0x00, 0xFF, 0x09, 0x01, 0xA1, 0x01, 0x85, 0x02, 0x05, 0x0D, 0x09, 0x22, 0xA1, 0x00, 0x06,
    0x00, 0xFF, 0x09, 0x01, 0x15, 0x00, 0x26, 0xFF, 0x00, 0x75, 0x08, 0x95, 0x02, 0x81, 0x02, 0x05,
    0x01, 0x09, 0x30, 0x35, 0x00, 0x46, 0xE0, 0x2E, 0x26, 0xE0, 0x01, 0x75, 0x10, 0x95, 0x01, 0x81,
    0x02, 0x09, 0x31, 0x46, 0x40, 0x1F, 0x26, 0x40, 0x01, 0x81, 0x02, 0x06, 0x00, 0xFF, 0x09, 0x01,
    0x26, 0xFF, 0x00, 0x75, 0x08, 0x95, 0x0D, 0x81, 0x02, 0xC0, 0xC0 ]

/-- The HID descriptor `desc_device_wacom.confs[0].ifs[0].descs[0].data` (9 bytes). -/
def hid_descriptor_0 : List Nat :=
  [0x09, USB_DT_HID, 0x00, 0x01, 0x00, 0x01, USB_DT_REPORT, 0xb0, 0]

/-- The HID descriptor `desc_device_wacom.confs[0].ifs[1].descs[0].data` (9 bytes). -/
def hid_descriptor_1 : List Nat :=
  [0x09, USB_DT_HID, 0x00, 0x01, 0x00, 0x01, USB_DT_REPORT, 0x4B, 0]

/-- The device reset `usb_wacom_handle_reset`. -/
def usb_wacom_handle_reset (s : USBWacomState) : USBWacomState :=
  let s := { s with dx := 0 }
  let s := { s with dy := 0 }
  let s := { s with dz := 0 }
  let s := { s with x := 0 }
  let s := { s with y := 0 }
  let s := { s with buttons_state := 0 }
  usb_wacom_set_tablet_mode s WACOM_MODE_HID

/-- The teardown `usb_wacom_unrealize`: a non-null handler handle is removed from the
host and set to null. -/
def usb_wacom_unrealize (s : USBWacomState) : USBWacomState :=
  if s.eh_entry then { s with eh_entry := false } else s

/-- The `fail:` label of `usb_wacom_handle_control`: the transfer is stalled. -/
def stall (t : ControlTransfer) : ControlTransfer := { t with status := USBRet.STALL }

/-- The inner `switch (data[0])` of the `WACOM_SET_REPORT` case of
`usb_wacom_handle_control`; `d0` is the byte `data[0]`.  The case writes nothing to the
transfer. -/
def control_set_report (s : USBWacomState) (d0 : Nat) : USBWacomState :=
  if d0 = 1 ∨ d0 = 2 then usb_wacom_set_tablet_mode s d0
  else s

/-- The two-byte answer `data[0] = 0; data[1] = s->mode; p->actual_length = 2`. -/
def control_get_mode (s : USBWacomState) (t : ControlTransfer) : ControlTransfer :=
  let data := store t.data 0 0
  let data := store data 1 (bits32 s.mode)
  { t with data := data, actual_length := 2 }

/-- The inner switches of the `InterfaceRequest | USB_REQ_GET_DESCRIPTOR` case. -/
def control_get_report_descriptor (t : ControlTransfer) (value index : Int) : ControlTransfer :=
  if value >>> (8 : Nat) = (USB_DT_REPORT : Int) then
    if index = 0 then
      { t with
        data := memcpy t.data interface_1_hid_report_descriptor
          interface_1_hid_report_descriptor.length
        actual_length := interface_1_hid_report_descriptor.length }
    else if index = 1 then
      { t with
        data := memcpy t.data interface_2_hid_report_descriptor
          interface_2_hid_report_descriptor.length
        actual_length := interface_2_hid_report_descriptor.length }
    else stall t
  else stall t

/-- The inner switch of the `DeviceRequest | USB_REQ_GET_DESCRIPTOR` case. -/
def control_get_hid_descriptor (t : ControlTransfer) (value : Int) : ControlTransfer :=
  if value >>> (8 : Nat) = (USB_DT_HID : Int) then
    let src := if bits32 value &&& 0xFF ≥ 1 then hid_descriptor_1 else hid_descriptor_0
    { t with data := memcpy t.data src 9, actual_length := 9 }
  else if value >>> (8 : Nat) = (USB_DT_DEVICE_QUALIFIER : Int) then stall t
  else stall t

/-- The inner `switch (value & 0xFF)` of the `ClassInterfaceRequest | HID_GET_REPORT`
case; it reads the state and writes only the transfer. -/
def control_get_report (s : USBWacomState) (t : ControlTransfer) (value length : Int) :
    ControlTransfer :=
  let sel := bits32 value &&& 0xFF
  if sel = WACOM_REQUEST_GET_MODE then control_get_mode s t
  else if s.mode = WACOM_MODE_WACOM then
    let r := usb_wacom_poll s t.data length
    { t with data := r.1, actual_length := r.2 }
  else t

/-- The label `case base | code:` of `switch (request)`: whether `request` is that
request code. -/
def isCase (request : Int) (base code : Nat) : Bool :=
  request == ((base ||| code : Nat) : Int)

/-- The control-request handler `usb_wacom_handle_control`, one branch per `case` of its
`switch (request)`; the inner switches are the `control_*` functions above.  `desc_ret`
is the value returned by the host's generic descriptor handler
`usb_desc_handle_control`, called first; when it is non-negative the request was served
there and the device code returns at once.  `t` is the transfer as that call left it. -/
def usb_wacom_handle_control (s : USBWacomState) (t : ControlTransfer)
    (request value index length : Int) (desc_ret : Int) : USBWacomState × ControlTransfer :=
  if desc_ret ≥ 0 then (s, t)
  else if isCase request ClassInterfaceOutRequest WACOM_SET_REPORT then
    (control_set_report s (t.data.getD 0 0), t)
  else if isCase request ClassInterfaceOutRequest WACOM_GET_REPORT then
    (s, control_get_mode s t)
  else if isCase request ClassInterfaceOutRequest HID_SET_PROTOCOL then (s, t)
  else if isCase request InterfaceRequest USB_REQ_GET_DESCRIPTOR then
    (s, control_get_report_descriptor t value index)
  else if isCase request DeviceRequest USB_REQ_GET_DESCRIPTOR then
    (s, control_get_hid_descriptor t value)
  else if isCase request EndpointOutRequest USB_REQ_CLEAR_FEATURE then
    (s, { t with actual_length := 0 })
  else if isCase request ClassInterfaceRequest HID_GET_REPORT then
    (s, control_get_report s t value length)
  else if isCase request ClassInterfaceRequest HID_GET_IDLE then
    (s, { t with data := store t.data 0 s.idle, actual_length := 1 })
  else if isCase request ClassInterfaceOutRequest HID_SET_IDLE then
    ({ s with idle := toUInt8 (bits32 (value >>> (8 : Nat))) }, t)
  else (s, stall t)

/-- One call into the device from outside: a reset, a mode switch, a pointer event, a
data transfer, or a control request. -/
inductive Action where
  | reset
  | setMode (mode : Int)
  | event (x y dz buttons_state : Int)
  | poll (p : USBPacket) (buf : List Nat) (now : Int)
  | control (t : ControlTransfer) (request value index length desc_ret : Int)

/-- The state after one call. -/
def step (s : USBWacomState) : Action → USBWacomState
  | Action.reset => usb_wacom_handle_reset s
  | Action.setMode mode => usb_wacom_set_tablet_mode s mode
  | Action.event x y dz buttons_state => usb_wacom_event s x y dz buttons_state
  | Action.poll p buf now => (usb_wacom_handle_data s p buf now).1
  | Action.control t request value index length desc_ret =>
    (usb_wacom_handle_control s t request value index length desc_ret).1

/-- The state after a sequence of calls. -/
def run (s : USBWacomState) (acts : List Action) : USBWacomState := acts.foldl step s

/-- Whether the host can make the call in state `s`: a pointer event reaches
`usb_wacom_event` only while the handler is registered, that is, while subscribed. -/
def deliverable (s : USBWacomState) : Action → Prop
  | Action.event _ _ _ _ => s.eh_entry = true
  | _ => True

/-- The states reachable from a device reset by deliverable calls. -/
inductive ReachableFromReset : USBWacomState → Prop where
  | reset (s0 : USBWacomState) : ReachableFromReset (usb_wacom_handle_reset s0)
  | step {s : USBWacomState} (a : Action) :
      ReachableFromReset s → deliverable s a → ReachableFromReset (step s a)

end Bamboo

/-! ## Watching the reports of a run of the advanced variant -/

namespace Intuos5

/-- The bytes a data transfer hands to the transport: what the handler appended to the
data the packet already carried. -/
def emitted (s : USBWacomState) (p : USBPacket) (buf : List Nat) (currentTime : Int) :
    List Nat :=
  (usb_wacom_handle_data s p buf currentTime).2.data.drop p.data.length

/-- Whether emitted bytes are a proximity report carrying the ready and has-serial bits,
in the specification's words: tag byte 2 and `byte1 = 0xC2`. -/
def isToolReport (out : List Nat) : Bool := out.take 2 == [2, 0xC2]

/-- Whether emitted bytes are a pen report, in the specification's words: tag byte 2 and
the in-range bit `0x20` of byte 1 set. -/
def isPenReport (out : List Nat) : Bool :=
  match out with
  | tag :: byte1 :: _ => tag == 2 && (byte1 &&& 0x20 != 0)
  | _ => false

/-- What an observer of a run has counted since the last false-to-true transition of
proximity: whether there was such a transition at all, the tool reports and the pen
reports emitted since then, and whether so far every tool report was the first report of
its proximity period. -/
structure ToolMonitor where
  entered : Bool
  toolReports : Nat
  penReports : Nat
  ok : Bool
  deriving DecidableEq

/-- The observer before the run. -/
def ToolMonitor.start : ToolMonitor :=
  { entered := false, toolReports := 0, penReports := 0, ok := true }

/-- One call as the observer sees it: a false-to-true transition of `penInProx` opens a
new proximity period; the bytes of a data transfer are then counted as a tool report or a
pen report.  A tool report is in order when a period is open and it is the first report
of that period. -/
def observe (s : USBWacomState) (m : ToolMonitor) (a : Action) : ToolMonitor :=
  let m :=
    if !s.penInProx && (step s a).penInProx then
      { m with entered := true, toolReports := 0, penReports := 0 }
    else m
  match a with
  | Action.poll p buf now =>
    if isToolReport (emitted s p buf now) then
      { m with
        toolReports := m.toolReports + 1
        ok := m.ok && m.entered && m.toolReports == 0 && m.penReports == 0 }
    else if isPenReport (emitted s p buf now) then
      { m with penReports := m.penReports + 1 }
    else m
  | _ => m

/-- A run of calls together with its observer. -/
def observedRun (s : USBWacomState) (m : ToolMonitor) : List Action → USBWacomState × ToolMonitor
  | [] => (s, m)
  | a :: rest => observedRun (step s a) (observe s m a) rest

/-- Whether a call is a pointer event or a data transfer. -/
def isEventOrPoll : Action → Bool
  | Action.event _ _ _ _ _ => true
  | Action.poll _ _ _ => true
  | _ => false

end Intuos5

/-! ## The coordinate scaling as the specification states it -/

/-- The specified rescaling `clamp(x * RES / INPUT_MAX, 0, RES - 1)` with
`INPUT_MAX = 32767`. -/
def specScale (raw res : Int) : Int := int_clamp (Int.tdiv (raw * res) 32767) 0 (res - 1)

/-! ## Auxiliary facts -/

theorem wrap32_of_inRange (v : Int) (h1 : -2147483648 ≤ v) (h2 : v < 2147483648) :
    wrap32 v = v := by
  unfold wrap32
  omega

theorem tdiv_of_nonneg (v : Int) (hv : 0 ≤ v) : v.tdiv 32767 = v / 32767 :=
  Int.tdiv_eq_ediv hv (by norm_num)

theorem tdiv_of_neg (v : Int) (hv : v < 0) : v.tdiv 32767 = -((-v) / 32767) := by
  have h := Int.neg_tdiv (-v) 32767
  rw [neg_neg] at h
  rw [h, Int.tdiv_eq_ediv (by omega) (by norm_num)]

theorem tdiv_mono (a b : Int) (h : a ≤ b) : a.tdiv 32767 ≤ b.tdiv 32767 := by
  rcases lt_or_le a 0 with h1 | h1 <;> rcases lt_or_le b 0 with h2 | h2
  · rw [tdiv_of_neg a h1, tdiv_of_neg b h2]; omega
  · rw [tdiv_of_neg a h1, tdiv_of_nonneg b h2]; omega
  · omega
  · rw [tdiv_of_nonneg a h1, tdiv_of_nonneg b h2]; omega

/-- The stored coordinate for a raw input in the 16-bit range and a resolution below
`2^16`: the truncated quotient, the product not wrapping. -/
theorem scaled_eq (raw res : Int) (h1 : -32768 ≤ raw) (h2 : raw ≤ 32767)
    (hr0 : 0 < res) (hr : res < 65536) :
    Int.tdiv (wrap32 (raw * res)) 0x7FFF = Int.tdiv (raw * res) 32767 := by
  have hlo : -2147483648 ≤ raw * res := by nlinarith
  have hhi : raw * res < 2147483648 := by nlinarith
  rw [wrap32_of_inRange _ hlo hhi]

theorem bamboo_event_x (s : Bamboo.USBWacomState) (x y dz b : Int)
    (h1 : -32768 ≤ x) (h2 : x ≤ 32767) :
    (Bamboo.usb_wacom_event s x y dz b).x = Int.tdiv (x * 14720) 32767 :=
  scaled_eq x 14720 h1 h2 (by norm_num) (by norm_num)

theorem bamboo_event_y (s : Bamboo.USBWacomState) (x y dz b : Int)
    (h1 : -32768 ≤ y) (h2 : y ≤ 32767) :
    (Bamboo.usb_wacom_event s x y dz b).y = Int.tdiv (y * 9200) 32767 :=
  scaled_eq y 9200 h1 h2 (by norm_num) (by norm_num)

theorem intuos_event_x (s : Intuos5.USBWacomState) (x y dz b now : Int)
    (h1 : -32768 ≤ x) (h2 : x ≤ 32767) :
    (Intuos5.usb_wacom_event s x y dz b now).x = Int.tdiv (x * 44704) 32767 := by
  have h := scaled_eq x 44704 h1 h2 (by norm_num) (by norm_num)
  unfold Intuos5.usb_wacom_event
  simp only [Intuos5.TABLET_RESOLUTION_X]
  split <;> exact h

theorem intuos_event_y (s : Intuos5.USBWacomState) (x y dz b now : Int)
    (h1 : -32768 ≤ y) (h2 : y ≤ 32767) :
    (Intuos5.usb_wacom_event s x y dz b now).y = Int.tdiv (y * 27940) 32767 := by
  have h := scaled_eq y 27940 h1 h2 (by norm_num) (by norm_num)
  unfold Intuos5.usb_wacom_event
  simp only [Intuos5.TABLET_RESOLUTION_Y]
  split <;> exact h

/-- Below the top raw value the truncated quotient is already inside `[0, res)`, so
the specified clamp leaves it alone. -/
theorem scaled_range (raw res : Int) (h0 : 0 ≤ raw) (h1 : raw ≤ 32766) (hr : 0 < res) :
    Int.tdiv (raw * res) 32767 = specScale raw res
    ∧ 0 ≤ Int.tdiv (raw * res) 32767 ∧ Int.tdiv (raw * res) 32767 < res := by
  have hp : 0 ≤ raw * res := by positivity
  have hq : raw * res < 32767 * res := by nlinarith
  have e := tdiv_of_nonneg (raw * res) hp
  have lo : 0 ≤ raw * res / 32767 := by omega
  have hi : raw * res / 32767 < res := by omega
  refine ⟨?_, by rw [e]; exact lo, by rw [e]; exact hi⟩
  unfold specScale int_clamp
  rw [e]
  rw [if_neg (by omega), if_neg (by omega)]

theorem scaled_range_closed (raw res : Int) (h0 : 0 ≤ raw) (h1 : raw ≤ 32767)
    (hr : 0 < res) :
    0 ≤ Int.tdiv (raw * res) 32767 ∧ Int.tdiv (raw * res) 32767 ≤ res := by
  have hp : 0 ≤ raw * res := by positivity
  have hq : raw * res ≤ 32767 * res := by nlinarith
  rw [tdiv_of_nonneg (raw * res) hp]
  omega

/-! ## Auxiliary facts on buffers and bit patterns -/

theorem take_store10 (buf : List Nat) (h : 10 ≤ buf.length) (v0 v1 v2 v3 v4 v5 v6 v7 v8 v9 : Nat) :
    (store (store (store (store (store (store (store (store (store (store buf
      0 v0) 1 v1) 2 v2) 3 v3) 4 v4) 5 v5) 6 v6) 7 v7) 8 v8) 9 v9).take 10
    = [toUInt8 v0, toUInt8 v1, toUInt8 v2, toUInt8 v3, toUInt8 v4, toUInt8 v5, toUInt8 v6,
        toUInt8 v7, toUInt8 v8, toUInt8 v9] := by
  rcases buf with _ | ⟨a0, _ | ⟨a1, _ | ⟨a2, _ | ⟨a3, _ | ⟨a4, _ | ⟨a5, _ | ⟨a6, _ | ⟨a7,
    _ | ⟨a8, _ | ⟨a9, rest⟩⟩⟩⟩⟩⟩⟩⟩⟩⟩ <;> simp at h
  simp [store, List.set, List.take]

theorem take_store9 (buf : List Nat) (h : 9 ≤ buf.length) (v0 v1 v2 v3 v4 v5 v6 v7 v8 : Nat) :
    (store (store (store (store (store (store (store (store (store buf
      0 v0) 1 v1) 2 v2) 3 v3) 4 v4) 5 v5) 6 v6) 7 v7) 8 v8).take 9
    = [toUInt8 v0, toUInt8 v1, toUInt8 v2, toUInt8 v3, toUInt8 v4, toUInt8 v5, toUInt8 v6,
        toUInt8 v7, toUInt8 v8] := by
  rcases buf with _ | ⟨a0, _ | ⟨a1, _ | ⟨a2, _ | ⟨a3, _ | ⟨a4, _ | ⟨a5, _ | ⟨a6, _ | ⟨a7,
    _ | ⟨a8, rest⟩⟩⟩⟩⟩⟩⟩⟩⟩ <;> simp at h
  simp [store, List.set, List.take]

theorem bits32_of_nonneg (v : Int) (h0 : 0 ≤ v) (h1 : v < 4294967296) : bits32 v = v.toNat := by
  unfold bits32
  rw [Int.emod_eq_of_lt h0 h1]

theorem bits32_shiftRight (v : Int) (k : Nat) (h0 : 0 ≤ v) (h1 : v < 4294967296) :
    bits32 (v >>> k) = v.toNat >>> k := by
  obtain ⟨n, rfl⟩ := Int.eq_ofNat_of_zero_le h0
  rw [Int.shiftRight_eq_div_pow, Nat.shiftRight_eq_div_pow, Int.toNat_ofNat]
  have hle : n / 2 ^ k ≤ n := Nat.div_le_self _ _
  have e : ((n : Int) / ((2 ^ k : Nat) : Int)) = ((n / 2 ^ k : Nat) : Int) :=
    (Int.ofNat_ediv n (2 ^ k)).symm
  rw [e]
  unfold bits32
  generalize n / 2 ^ k = m at hle
  omega

theorem toUInt16_of_inRange (v : Int) (h0 : 0 ≤ v) (h1 : v < 65536) : toUInt16 v = v.toNat := by
  unfold toUInt16
  rw [Int.emod_eq_of_lt h0 h1]

theorem toUInt8_of_lt (v : Nat) (h : v < 256) : toUInt8 v = v := Nat.mod_eq_of_lt h

theorem or_lt_256 {a b : Nat} (ha : a < 256) (hb : b < 256) : a ||| b < 256 :=
  Nat.or_lt_two_pow (n := 8) ha hb

theorem and_lt_256 (a m : Nat) (hm : m < 256) : a &&& m < 256 :=
  lt_of_le_of_lt Nat.and_le_right hm

theorem shiftRight3_lt (p : Nat) (hp : p ≤ 2047) : p >>> 3 < 256 := by
  rw [Nat.shiftRight_eq_div_pow]
  omega

theorem and6_shift_lt (p : Nat) : (p &&& 6) <<< 5 < 256 := by
  have h : p &&& 6 ≤ 6 := Nat.and_le_right
  rw [Nat.shiftLeft_eq]
  omega

theorem lowbits_lt (a b : Nat) : (a % 2) <<< 1 ||| b % 2 < 256 := by
  refine or_lt_256 ?_ (by omega)
  rw [Nat.shiftLeft_eq]
  omega

theorem dist_lowbits_lt (d a b : Nat) (hd : d < 256) :
    d ||| (a % 2) <<< 1 ||| b % 2 < 256 := by
  refine or_lt_256 (or_lt_256 hd ?_) (by omega)
  rw [Nat.shiftLeft_eq]
  omega

theorem status_lt (c p : Nat) (hc : c < 256) : c ||| p % 2 < 256 :=
  or_lt_256 hc (by omega)

theorem and255_eq_mod (a : Nat) : a &&& 255 = a % 256 :=
  Nat.and_pow_two_sub_one_eq_mod a 8

/-- Reassembling a 17-bit coordinate from its two middle bytes and its low bit. -/
theorem coord_reassemble (n c : Nat) (hn : n < 131072) (hc : c = n % 2) :
    ((n >>> 9 &&& 255) <<< 9) ||| ((n >>> 1 &&& 255) <<< 1) ||| c = n := by
  rw [Nat.or_assoc, and255_eq_mod, and255_eq_mod, Nat.shiftRight_eq_div_pow,
    Nat.shiftRight_eq_div_pow, Nat.shiftLeft_eq, Nat.shiftLeft_eq]
  have hc2 : c < 2 ^ 1 := by omega
  have e1 : n / 2 ^ 1 % 256 * 2 ^ 1 ||| c = 2 ^ 1 * (n / 2 ^ 1 % 256) + c := by
    rw [Nat.mul_comm]
    exact (Nat.mul_add_lt_is_or hc2 _).symm
  rw [e1]
  have h3 : 2 ^ 1 * (n / 2 ^ 1 % 256) + c < 2 ^ 9 := by omega
  have e2 : n / 2 ^ 9 % 256 * 2 ^ 9 ||| (2 ^ 1 * (n / 2 ^ 1 % 256) + c)
      = 2 ^ 9 * (n / 2 ^ 9 % 256) + (2 ^ 1 * (n / 2 ^ 1 % 256) + c) := by
    rw [Nat.mul_comm]
    exact (Nat.mul_add_lt_is_or h3 _).symm
  rw [e2]
  omega

/-- The low bits kept in byte 9 of the pen report, read back. -/
theorem byte9_lowbits (d a b : Nat) (hd : d = 0 ∨ d = 10) :
    (toUInt8 (d <<< 2 ||| (a &&& 1) <<< 1 ||| (b &&& 1)) >>> 1) &&& 1 = a % 2
    ∧ toUInt8 (d <<< 2 ||| (a &&& 1) <<< 1 ||| (b &&& 1)) &&& 1 = b % 2 := by
  rw [Nat.and_one_is_mod a, Nat.and_one_is_mod b]
  have ha : a % 2 < 2 := Nat.mod_lt _ (by norm_num)
  have hb : b % 2 < 2 := Nat.mod_lt _ (by norm_num)
  generalize a % 2 = r at ha
  generalize b % 2 = t at hb
  rcases hd with rfl | rfl <;> interval_cases r <;> interval_cases t <;> decide

theorem getElem?_of_take (l L : List Nat) (n i : Nat) (h : l.take n = L) (hi : i < n) :
    l[i]? = L[i]? := by
  rw [← h, List.getElem?_take_of_lt hi]

/-- The ten bytes the advanced pen encoder assigns, before any simplification. -/
theorem intuos_poll_take (s : Intuos5.USBWacomState) (buf : List Nat) (len : Int)
    (hlen : 10 ≤ len) (hb : 10 ≤ buf.length) :
    (Intuos5.usb_wacom_poll s buf len).1.take 10 =
      [ toUInt8 2,
        toUInt8 (0x80 ||| 0x40 ||| 0x20
          ||| ((if buttonDown s.buttons_state MOUSE_EVENT_RBUTTON then 2 else 0)
                ||| (if buttonDown s.buttons_state MOUSE_EVENT_MBUTTON then 4 else 0))
          ||| ((if buttonDown s.buttons_state MOUSE_EVENT_LBUTTON
                  then toUInt16 s.pressure else 0) &&& 1)),
        toUInt8 (bits32 (s.x >>> (9 : Nat)) &&& 255),
        toUInt8 (bits32 (s.x >>> (1 : Nat)) &&& 255),
        toUInt8 (bits32 (s.y >>> (9 : Nat)) &&& 255),
        toUInt8 (bits32 (s.y >>> (1 : Nat)) &&& 255),
        toUInt8 ((if buttonDown s.buttons_state MOUSE_EVENT_LBUTTON
                  then toUInt16 s.pressure else 0) >>> 3),
        toUInt8 ((((if buttonDown s.buttons_state MOUSE_EVENT_LBUTTON
                  then toUInt16 s.pressure else 0) &&& 6) <<< 5) ||| 32),
        64,
        toUInt8 (((if buttonDown s.buttons_state MOUSE_EVENT_LBUTTON then 0 else 10) <<< 2)
          ||| ((bits32 s.x &&& 1) <<< 1) ||| (bits32 s.y &&& 1)) ] := by
  unfold Intuos5.usb_wacom_poll
  rw [if_neg (not_lt.mpr hlen)]
  simp only []
  rw [take_store10 buf hb]
  cases buttonDown s.buttons_state MOUSE_EVENT_LBUTTON <;>
    cases buttonDown s.buttons_state MOUSE_EVENT_RBUTTON <;>
    cases buttonDown s.buttons_state MOUSE_EVENT_MBUTTON <;> rfl

/-- The status byte of the simple pen report, and the synthetic pressure derived from
it, by button. -/
theorem bamboo_statusBits (bs : Int) :
    Bamboo.statusBits bs
      = 0xE0 ||| (if buttonDown bs MOUSE_EVENT_LBUTTON then 0x01 else 0)
          ||| (if buttonDown bs MOUSE_EVENT_MBUTTON then 0x02 else 0)
          ||| (if buttonDown bs MOUSE_EVENT_RBUTTON then 0x04 else 0)
    ∧ (Bamboo.statusBits bs &&& (Bamboo.WACOM_BUTTON_PEN ||| Bamboo.WACOM_BUTTON_RUBBER) != 0)
      = buttonDown bs MOUSE_EVENT_LBUTTON
    ∧ Bamboo.statusBits bs < 256 := by
  unfold Bamboo.statusBits
  cases buttonDown bs MOUSE_EVENT_LBUTTON <;> cases buttonDown bs MOUSE_EVENT_MBUTTON <;>
    cases buttonDown bs MOUSE_EVENT_RBUTTON <;> decide

/-- The nine bytes the simple pen encoder assigns. -/
theorem bamboo_poll_take (s : Bamboo.USBWacomState) (buf : List Nat) (len : Int)
    (hlen : 9 ≤ len) (hb : 9 ≤ buf.length) :
    (Bamboo.usb_wacom_poll s buf len).1.take 9 =
      [ toUInt8 2,
        toUInt8 (Bamboo.statusBits s.buttons_state),
        toUInt8 (bits32 s.x &&& 255),
        toUInt8 (bits32 (s.x >>> (8 : Nat))),
        toUInt8 (bits32 s.y &&& 255),
        toUInt8 (bits32 (s.y >>> (8 : Nat))),
        toUInt8 ((if buttonDown s.buttons_state MOUSE_EVENT_LBUTTON then 512 else 0) &&& 255),
        toUInt8 ((if buttonDown s.buttons_state MOUSE_EVENT_LBUTTON then 512 else 0) >>> 8),
        0 ] := by
  unfold Bamboo.usb_wacom_poll
  rw [if_neg (not_lt.mpr hlen)]
  simp only []
  rw [take_store9 buf hb, (bamboo_statusBits s.buttons_state).2.1]
  rfl

/-! ## Coordinate scaling (claims C1, C2) -/

/-- C1, as stated, fails: the events store the plain truncated quotient and never
clamp.  At raw `x = 32767` the advanced variant stores `44704 = RES_X` where the claim
says `44703`, so the stored value is not below `RES_X`; the simple variant stores
`14720`; at raw `x = -32768` they store `-44705` and `-14720` where the claim says `0`. -/
theorem C1_scaling_not_clamped :
    (Intuos5.usb_wacom_event Intuos5.zeroState 32767 0 0 0 0).x = 44704
    ∧ specScale 32767 Intuos5.TABLET_RESOLUTION_X = 44703
    ∧ ¬ (Intuos5.usb_wacom_event Intuos5.zeroState 32767 0 0 0 0).x
        < Intuos5.TABLET_RESOLUTION_X
    ∧ (Bamboo.usb_wacom_event Bamboo.zeroState 32767 0 0 0).x = 14720
    ∧ specScale 32767 Bamboo.TABLET_RESOLUTION_X = 14719
    ∧ (Intuos5.usb_wacom_event Intuos5.zeroState (-32768) 0 0 0 0).x = -44705
    ∧ specScale (-32768) Intuos5.TABLET_RESOLUTION_X = 0
    ∧ (Bamboo.usb_wacom_event Bamboo.zeroState (-32768) 0 0 0).x = -14720
    ∧ specScale (-32768) Bamboo.TABLET_RESOLUTION_X = 0 := by
  decide

/-- C1, amended: for both variants and every raw `x`, `y` in `[-32768, 32767]` the event
stores the quotient `raw * RES / 32767` truncated toward zero, unclamped; for a raw value
in `[0, 32766]` this is `clamp(raw * RES / 32767, 0, RES - 1)` and lies in `[0, RES)`,
and for a raw value in `[0, 32767]` it lies in `[0, RES]`. -/
theorem C1_scaling_exact (sB : Bamboo.USBWacomState) (sI : Intuos5.USBWacomState)
    (x y dz buttons now : Int)
    (hx1 : -32768 ≤ x) (hx2 : x ≤ 32767) (hy1 : -32768 ≤ y) (hy2 : y ≤ 32767) :
    ((Bamboo.usb_wacom_event sB x y dz buttons).x = Int.tdiv (x * 14720) 32767
      ∧ (Bamboo.usb_wacom_event sB x y dz buttons).y = Int.tdiv (y * 9200) 32767
      ∧ (Intuos5.usb_wacom_event sI x y dz buttons now).x = Int.tdiv (x * 44704) 32767
      ∧ (Intuos5.usb_wacom_event sI x y dz buttons now).y = Int.tdiv (y * 27940) 32767)
    ∧ (0 ≤ x → x ≤ 32766 →
        (Bamboo.usb_wacom_event sB x y dz buttons).x = specScale x 14720
        ∧ 0 ≤ (Bamboo.usb_wacom_event sB x y dz buttons).x
        ∧ (Bamboo.usb_wacom_event sB x y dz buttons).x < 14720
        ∧ (Intuos5.usb_wacom_event sI x y dz buttons now).x = specScale x 44704
        ∧ 0 ≤ (Intuos5.usb_wacom_event sI x y dz buttons now).x
        ∧ (Intuos5.usb_wacom_event sI x y dz buttons now).x < 44704)
    ∧ (0 ≤ y → y ≤ 32766 →
        (Bamboo.usb_wacom_event sB x y dz buttons).y = specScale y 9200
        ∧ 0 ≤ (Bamboo.usb_wacom_event sB x y dz buttons).y
        ∧ (Bamboo.usb_wacom_event sB x y dz buttons).y < 9200
        ∧ (Intuos5.usb_wacom_event sI x y dz buttons now).y = specScale y 27940
        ∧ 0 ≤ (Intuos5.usb_wacom_event sI x y dz buttons now).y
        ∧ (Intuos5.usb_wacom_event sI x y dz buttons now).y < 27940)
    ∧ (0 ≤ x →
        0 ≤ (Bamboo.usb_wacom_event sB x y dz buttons).x
        ∧ (Bamboo.usb_wacom_event sB x y dz buttons).x ≤ 14720
        ∧ 0 ≤ (Intuos5.usb_wacom_event sI x y dz buttons now).x
        ∧ (Intuos5.usb_wacom_event sI x y dz buttons now).x ≤ 44704)
    ∧ (0 ≤ y →
        0 ≤ (Bamboo.usb_wacom_event sB x y dz buttons).y
        ∧ (Bamboo.usb_wacom_event sB x y dz buttons).y ≤ 9200
        ∧ 0 ≤ (Intuos5.usb_wacom_event sI x y dz buttons now).y
        ∧ (Intuos5.usb_wacom_event sI x y dz buttons now).y ≤ 27940) := by
  have eBx := bamboo_event_x sB x y dz buttons hx1 hx2
  have eBy := bamboo_event_y sB x y dz buttons hy1 hy2
  have eIx := intuos_event_x sI x y dz buttons now hx1 hx2
  have eIy := intuos_event_y sI x y dz buttons now hy1 hy2
  refine ⟨⟨eBx, eBy, eIx, eIy⟩, ?_, ?_, ?_, ?_⟩
  · intro h0 h1
    rw [eBx, eIx]
    have a := scaled_range x 14720 h0 h1 (by norm_num)
    have b := scaled_range x 44704 h0 h1 (by norm_num)
    exact ⟨a.1, a.2.1, a.2.2, b.1, b.2.1, b.2.2⟩
  · intro h0 h1
    rw [eBy, eIy]
    have a := scaled_range y 9200 h0 h1 (by norm_num)
    have b := scaled_range y 27940 h0 h1 (by norm_num)
    exact ⟨a.1, a.2.1, a.2.2, b.1, b.2.1, b.2.2⟩
  · intro h0
    rw [eBx, eIx]
    have a := scaled_range_closed x 14720 h0 hx2 (by norm_num)
    have b := scaled_range_closed x 44704 h0 hx2 (by norm_num)
    exact ⟨a.1, a.2, b.1, b.2⟩
  · intro h0
    rw [eBy, eIy]
    have a := scaled_range_closed y 9200 h0 hy2 (by norm_num)
    have b := scaled_range_closed y 27940 h0 hy2 (by norm_num)
    exact ⟨a.1, a.2, b.1, b.2⟩

/-- Witness of `C1_scaling_exact` at the raw midpoint `16384` with the primary button:
the advanced variant stores `22352 = RES_X / 2`, which is the specified clamp value. -/
theorem C1_scaling_exact_witness :
    (-32768 ≤ (16384 : Int) ∧ (16384 : Int) ≤ 32767)
    ∧ (Intuos5.usb_wacom_event Intuos5.zeroState 16384 16384 0 1 0).x = specScale 16384 44704
    ∧ specScale 16384 44704 = 22352 :=
  ⟨by decide,
   ((C1_scaling_exact Bamboo.zeroState Intuos5.zeroState 16384 16384 0 1 0
      (by decide) (by decide) (by decide) (by decide)).2.1 (by decide) (by decide)).2.2.2.1,
   by decide⟩

/-- C2: the scaling of the events is monotonic.  For raw inputs `x1 ≤ x2` in
`[-32768, 32767]` the coordinate stored by an event with `x1` is at most the one stored
by an event with `x2`; the same for `y`, in both variants, whatever the prior states and
the other arguments of the two events. -/
theorem C2_scaling_monotone (sB sB2 : Bamboo.USBWacomState) (sI sI2 : Intuos5.USBWacomState)
    (x1 x2 y1 y2 dz dz2 buttons buttons2 now now2 : Int)
    (hx1 : -32768 ≤ x1) (hx2 : x2 ≤ 32767) (hx : x1 ≤ x2)
    (hy1 : -32768 ≤ y1) (hy2 : y2 ≤ 32767) (hy : y1 ≤ y2) :
    (Bamboo.usb_wacom_event sB x1 y1 dz buttons).x
        ≤ (Bamboo.usb_wacom_event sB2 x2 y2 dz2 buttons2).x
    ∧ (Bamboo.usb_wacom_event sB x1 y1 dz buttons).y
        ≤ (Bamboo.usb_wacom_event sB2 x2 y2 dz2 buttons2).y
    ∧ (Intuos5.usb_wacom_event sI x1 y1 dz buttons now).x
        ≤ (Intuos5.usb_wacom_event sI2 x2 y2 dz2 buttons2 now2).x
    ∧ (Intuos5.usb_wacom_event sI x1 y1 dz buttons now).y
        ≤ (Intuos5.usb_wacom_event sI2 x2 y2 dz2 buttons2 now2).y := by
  rw [bamboo_event_x sB x1 y1 dz buttons hx1 (by omega),
    bamboo_event_x sB2 x2 y2 dz2 buttons2 (by omega) hx2,
    bamboo_event_y sB x1 y1 dz buttons hy1 (by omega),
    bamboo_event_y sB2 x2 y2 dz2 buttons2 (by omega) hy2,
    intuos_event_x sI x1 y1 dz buttons now hx1 (by omega),
    intuos_event_x sI2 x2 y2 dz2 buttons2 now2 (by omega) hx2,
    intuos_event_y sI x1 y1 dz buttons now hy1 (by omega),
    intuos_event_y sI2 x2 y2 dz2 buttons2 now2 (by omega) hy2]
  exact ⟨tdiv_mono _ _ (by omega), tdiv_mono _ _ (by omega), tdiv_mono _ _ (by omega),
    tdiv_mono _ _ (by omega)⟩

/-- Witness of `C2_scaling_monotone` at the raw pair `-5 ≤ 7` (and `0 ≤ 32767` for `y`). -/
theorem C2_scaling_monotone_witness :
    ((-32768 : Int) ≤ -5 ∧ (7 : Int) ≤ 32767 ∧ (-5 : Int) ≤ 7)
    ∧ (Intuos5.usb_wacom_event Intuos5.zeroState (-5) 0 0 0 0).x
        ≤ (Intuos5.usb_wacom_event Intuos5.zeroState 7 32767 0 0 0).x :=
  ⟨by decide,
   (C2_scaling_monotone Bamboo.zeroState Bamboo.zeroState Intuos5.zeroState Intuos5.zeroState
      (-5) 7 0 32767 0 0 0 0 0 0 (by decide) (by decide) (by decide) (by decide) (by decide)
      (by decide)).2.2.1⟩

/-! ## Report layouts (claims C3 to C7) -/

/-- C3: the advanced-variant pen report.  For a state with `0 ≤ x, y < 2^17` and stored
pressure in `[0, 2047]` and a buffer of length at least 10, `usb_wacom_poll` returns 10
and the ten bytes are: the tag 2; `0xE0` or-ed with `0x02` for the secondary button,
`0x04` for the tertiary button and bit 0 of `p`; `(x >> 9) & 0xFF`; `(x >> 1) & 0xFF`;
the same two for `y`; `p >> 3`; `((p & 6) << 5) | 0x20`; `0x40`; and
`(d << 2) | ((x & 1) << 1) | (y & 1)`, where `p` is the stored pressure and `d = 0` when
the primary button is pressed, and `p = 0`, `d = 10` otherwise. -/
theorem C3_pen_report_layout (s : Intuos5.USBWacomState) (buf : List Nat) (len : Int)
    (hx0 : 0 ≤ s.x) (hx1 : s.x < 131072) (hy0 : 0 ≤ s.y) (hy1 : s.y < 131072)
    (hp0 : 0 ≤ s.pressure) (hp1 : s.pressure ≤ 2047)
    (hlen : 10 ≤ len) (hbuf : len ≤ buf.length) :
    (Intuos5.usb_wacom_poll s buf len).2 = 10
    ∧ (Intuos5.usb_wacom_poll s buf len).1.take 10 =
      [ 2,
        0xE0 ||| (if buttonDown s.buttons_state MOUSE_EVENT_RBUTTON then 0x02 else 0)
          ||| (if buttonDown s.buttons_state MOUSE_EVENT_MBUTTON then 0x04 else 0)
          ||| ((if buttonDown s.buttons_state MOUSE_EVENT_LBUTTON then s.pressure.toNat else 0)
                &&& 1),
        (s.x.toNat >>> 9) &&& 0xFF,
        (s.x.toNat >>> 1) &&& 0xFF,
        (s.y.toNat >>> 9) &&& 0xFF,
        (s.y.toNat >>> 1) &&& 0xFF,
        (if buttonDown s.buttons_state MOUSE_EVENT_LBUTTON then s.pressure.toNat else 0) >>> 3,
        (((if buttonDown s.buttons_state MOUSE_EVENT_LBUTTON then s.pressure.toNat else 0)
            &&& 6) <<< 5) ||| 0x20,
        0x40,
        ((if buttonDown s.buttons_state MOUSE_EVENT_LBUTTON then 0 else 10) <<< 2)
          ||| ((s.x.toNat &&& 1) <<< 1) ||| (s.y.toNat &&& 1) ] := by
  have hb : 10 ≤ buf.length := by omega
  unfold Intuos5.usb_wacom_poll
  rw [if_neg (not_lt.mpr hlen)]
  refine ⟨rfl, ?_⟩
  simp only []
  rw [take_store10 buf hb]
  have ex9 := bits32_shiftRight s.x 9 hx0 (by omega)
  have ex1 := bits32_shiftRight s.x 1 hx0 (by omega)
  have ey9 := bits32_shiftRight s.y 9 hy0 (by omega)
  have ey1 := bits32_shiftRight s.y 1 hy0 (by omega)
  have ex := bits32_of_nonneg s.x hx0 (by omega)
  have ey := bits32_of_nonneg s.y hy0 (by omega)
  have ep := toUInt16_of_inRange s.pressure hp0 (by omega)
  rw [ex9, ex1, ey9, ey1, ex, ey, ep]
  have hp : s.pressure.toNat ≤ 2047 := by omega
  have hx : s.x.toNat < 131072 := by omega
  have hy : s.y.toNat < 131072 := by omega
  generalize s.pressure.toNat = p at hp ⊢
  generalize s.x.toNat = xn at hx ⊢
  generalize s.y.toNat = yn at hy ⊢
  generalize buttonDown s.buttons_state MOUSE_EVENT_LBUTTON = bl
  generalize buttonDown s.buttons_state MOUSE_EVENT_RBUTTON = br
  generalize buttonDown s.buttons_state MOUSE_EVENT_MBUTTON = bm
  cases bl <;> cases br <;> cases bm <;>
    simp [Intuos5.WACOM_REPORT_PENABLED, Intuos5.WACOM_STYLUS_PROXIMITY,
      Intuos5.WACOM_STYLUS_READY, Intuos5.WACOM_STYLUS_IN_RANGE,
      Intuos5.WACOM_BUTTON_STYLUS_BUTTON_1, Intuos5.WACOM_BUTTON_STYLUS_BUTTON_2, toUInt8]
  all_goals and_intros
  all_goals first
    | decide
    | exact and_lt_256 _ _ (by decide)
    | exact shiftRight3_lt p hp
    | exact lowbits_lt xn yn
    | exact dist_lowbits_lt 40 xn yn (by decide)
    | exact status_lt 224 p (by decide)
    | exact status_lt 226 p (by decide)
    | exact status_lt 228 p (by decide)
    | exact status_lt 230 p (by decide)
    | exact Nat.mod_eq_of_lt (or_lt_256 (and6_shift_lt p) (by decide))

/-- Witness of `C3_pen_report_layout`: the state at `x = 22353`, `y = 13971` with
pressure 890 and the primary button pressed encodes to the ten bytes shown. -/
theorem C3_pen_report_layout_witness :
    ((0 : Int) ≤ 22353 ∧ (22353 : Int) < 131072 ∧ (0 : Int) ≤ 890 ∧ (890 : Int) ≤ 2047
      ∧ (10 : Int) ≤ 10)
    ∧ (Intuos5.usb_wacom_poll
        { Intuos5.zeroState with x := 22353, y := 13971, pressure := 890, buttons_state := 1 }
        [0, 0, 0, 0, 0, 0, 0, 0, 0, 0] 10).1.take 10
      = [2, 224, 43, 168, 27, 73, 111, 96, 64, 3] :=
  ⟨by decide,
   (C3_pen_report_layout
      { Intuos5.zeroState with x := 22353, y := 13971, pressure := 890, buttons_state := 1 }
      [0, 0, 0, 0, 0, 0, 0, 0, 0, 0] 10
      (by decide) (by decide) (by decide) (by decide) (by decide) (by decide) (by decide)
      (by decide)).2.trans (by decide)⟩

/-- C4: the coordinates of the advanced-variant pen report round-trip.  For a state with
`0 ≤ x, y < 2^17` and a buffer of length at least 10, the bytes 2, 3, 4, 5 and 9 written
by `usb_wacom_poll` satisfy `(byte2 << 9) | (byte3 << 1) | ((byte9 >> 1) & 1) = x` and
`(byte4 << 9) | (byte5 << 1) | (byte9 & 1) = y`. -/
theorem C4_pen_report_roundtrip (s : Intuos5.USBWacomState) (buf : List Nat) (len : Int)
    (hx0 : 0 ≤ s.x) (hx1 : s.x < 131072) (hy0 : 0 ≤ s.y) (hy1 : s.y < 131072)
    (hlen : 10 ≤ len) (hbuf : len ≤ buf.length) :
    ∃ b2 b3 b4 b5 b9 : Nat,
      (Intuos5.usb_wacom_poll s buf len).1[2]? = some b2
      ∧ (Intuos5.usb_wacom_poll s buf len).1[3]? = some b3
      ∧ (Intuos5.usb_wacom_poll s buf len).1[4]? = some b4
      ∧ (Intuos5.usb_wacom_poll s buf len).1[5]? = some b5
      ∧ (Intuos5.usb_wacom_poll s buf len).1[9]? = some b9
      ∧ (((b2 <<< 9) ||| (b3 <<< 1) ||| ((b9 >>> 1) &&& 1) : Nat) : Int) = s.x
      ∧ (((b4 <<< 9) ||| (b5 <<< 1) ||| (b9 &&& 1) : Nat) : Int) = s.y := by
  have hb : 10 ≤ buf.length := by omega
  have take := intuos_poll_take s buf len hlen hb
  have ex9 := bits32_shiftRight s.x 9 hx0 (by omega)
  have ex1 := bits32_shiftRight s.x 1 hx0 (by omega)
  have ey9 := bits32_shiftRight s.y 9 hy0 (by omega)
  have ey1 := bits32_shiftRight s.y 1 hy0 (by omega)
  have ex := bits32_of_nonneg s.x hx0 (by omega)
  have ey := bits32_of_nonneg s.y hy0 (by omega)
  refine ⟨toUInt8 (bits32 (s.x >>> (9 : Nat)) &&& 255),
    toUInt8 (bits32 (s.x >>> (1 : Nat)) &&& 255),
    toUInt8 (bits32 (s.y >>> (9 : Nat)) &&& 255),
    toUInt8 (bits32 (s.y >>> (1 : Nat)) &&& 255),
    toUInt8 (((if buttonDown s.buttons_state MOUSE_EVENT_LBUTTON then 0 else 10) <<< 2)
      ||| ((bits32 s.x &&& 1) <<< 1) ||| (bits32 s.y &&& 1)),
    getElem?_of_take _ _ 10 2 take (by norm_num), getElem?_of_take _ _ 10 3 take (by norm_num),
    getElem?_of_take _ _ 10 4 take (by norm_num), getElem?_of_take _ _ 10 5 take (by norm_num),
    getElem?_of_take _ _ 10 9 take (by norm_num), ?_, ?_⟩
  all_goals
    simp only [ex9, ex1, ey9, ey1, ex, ey]
    rw [toUInt8_of_lt _ (and_lt_256 _ 255 (by decide)),
      toUInt8_of_lt _ (and_lt_256 _ 255 (by decide))]
  · have hd : (if buttonDown s.buttons_state MOUSE_EVENT_LBUTTON = true then 0 else 10) = 0
        ∨ (if buttonDown s.buttons_state MOUSE_EVENT_LBUTTON = true then 0 else 10) = 10 := by
      split <;> simp
    rw [(byte9_lowbits _ s.x.toNat s.y.toNat hd).1,
      coord_reassemble s.x.toNat _ (by omega) rfl]
    omega
  · have hd : (if buttonDown s.buttons_state MOUSE_EVENT_LBUTTON = true then 0 else 10) = 0
        ∨ (if buttonDown s.buttons_state MOUSE_EVENT_LBUTTON = true then 0 else 10) = 10 := by
      split <;> simp
    rw [(byte9_lowbits _ s.x.toNat s.y.toNat hd).2,
      coord_reassemble s.y.toNat _ (by omega) rfl]
    omega

/-- Witness of `C4_pen_report_roundtrip` at the corner `x = 44703`, `y = 27939` of the
tablet resolution. -/
theorem C4_pen_report_roundtrip_witness :
    ((0 : Int) ≤ 44703 ∧ (44703 : Int) < 131072 ∧ (0 : Int) ≤ 27939 ∧ (27939 : Int) < 131072)
    ∧ ∃ b2 b3 b9 : Nat,
        (Intuos5.usb_wacom_poll { Intuos5.zeroState with x := 44703, y := 27939 }
          [0, 0, 0, 0, 0, 0, 0, 0, 0, 0] 10).1[2]? = some b2
        ∧ (Intuos5.usb_wacom_poll { Intuos5.zeroState with x := 44703, y := 27939 }
          [0, 0, 0, 0, 0, 0, 0, 0, 0, 0] 10).1[3]? = some b3
        ∧ (Intuos5.usb_wacom_poll { Intuos5.zeroState with x := 44703, y := 27939 }
          [0, 0, 0, 0, 0, 0, 0, 0, 0, 0] 10).1[9]? = some b9
        ∧ (((b2 <<< 9) ||| (b3 <<< 1) ||| ((b9 >>> 1) &&& 1) : Nat) : Int) = 44703 :=
  ⟨by decide,
   match C4_pen_report_roundtrip { Intuos5.zeroState with x := 44703, y := 27939 }
      [0, 0, 0, 0, 0, 0, 0, 0, 0, 0] 10
      (by decide) (by decide) (by decide) (by decide) (by decide) (by decide) with
   | ⟨b2, b3, _, _, b9, h2, h3, _, _, h9, hx, _⟩ => ⟨b2, b3, b9, h2, h3, h9, hx⟩⟩

/-- C5: the simple-variant pen report.  For a state with `0 ≤ x, y < 65536` and a buffer
of length at least 9, `usb_wacom_poll` writes the tag 2; `0xE0` or-ed with `0x01` for the
primary, `0x02` for the tertiary and `0x04` for the secondary button; `x` little-endian
in bytes 2 and 3 (`byte2 + 256 * byte3 = x`); `y` little-endian in bytes 4 and 5; the
little-endian pressure in bytes 6 and 7, which is 512 exactly when the primary button is
pressed and 0 otherwise; and 0 in byte 8.  The call returns `len`. -/
theorem C5_simple_pen_report (s : Bamboo.USBWacomState) (buf : List Nat) (len : Int)
    (hx0 : 0 ≤ s.x) (hx1 : s.x < 65536) (hy0 : 0 ≤ s.y) (hy1 : s.y < 65536)
    (hlen : 9 ≤ len) (hbuf : len ≤ buf.length) :
    (Bamboo.usb_wacom_poll s buf len).2 = len
    ∧ (Bamboo.usb_wacom_poll s buf len).1.take 9 =
      [ 2,
        0xE0 ||| (if buttonDown s.buttons_state MOUSE_EVENT_LBUTTON then 0x01 else 0)
          ||| (if buttonDown s.buttons_state MOUSE_EVENT_MBUTTON then 0x02 else 0)
          ||| (if buttonDown s.buttons_state MOUSE_EVENT_RBUTTON then 0x04 else 0),
        s.x.toNat % 256,
        s.x.toNat / 256,
        s.y.toNat % 256,
        s.y.toNat / 256,
        (if buttonDown s.buttons_state MOUSE_EVENT_LBUTTON then 512 else 0) % 256,
        (if buttonDown s.buttons_state MOUSE_EVENT_LBUTTON then 512 else 0) / 256,
        0 ]
    ∧ s.x.toNat % 256 + 256 * (s.x.toNat / 256) = s.x.toNat
    ∧ s.y.toNat % 256 + 256 * (s.y.toNat / 256) = s.y.toNat
    ∧ s.x.toNat / 256 < 256 ∧ s.y.toNat / 256 < 256 := by
  have hb : 9 ≤ buf.length := by omega
  have hxn : s.x.toNat < 65536 := by omega
  have hyn : s.y.toNat < 65536 := by omega
  refine ⟨?_, ?_, by omega, by omega, by omega, by omega⟩
  · unfold Bamboo.usb_wacom_poll
    rw [if_neg (not_lt.mpr hlen)]
  rw [bamboo_poll_take s buf len hlen hb, bits32_shiftRight s.x 8 hx0 (by omega),
    bits32_shiftRight s.y 8 hy0 (by omega), bits32_of_nonneg s.x hx0 (by omega),
    bits32_of_nonneg s.y hy0 (by omega), and255_eq_mod, and255_eq_mod, and255_eq_mod,
    Nat.shiftRight_eq_div_pow, Nat.shiftRight_eq_div_pow, Nat.shiftRight_eq_div_pow,
    toUInt8_of_lt _ (bamboo_statusBits s.buttons_state).2.2,
    (bamboo_statusBits s.buttons_state).1]
  have h8 : (2 : Nat) ^ 8 = 256 := by norm_num
  rw [h8]
  have e1 : toUInt8 (s.x.toNat % 256) = s.x.toNat % 256 := toUInt8_of_lt _ (by omega)
  have e2 : toUInt8 (s.x.toNat / 256) = s.x.toNat / 256 := toUInt8_of_lt _ (by omega)
  have e3 : toUInt8 (s.y.toNat % 256) = s.y.toNat % 256 := toUInt8_of_lt _ (by omega)
  have e4 : toUInt8 (s.y.toNat / 256) = s.y.toNat / 256 := toUInt8_of_lt _ (by omega)
  rw [e1, e2, e3, e4]
  cases buttonDown s.buttons_state MOUSE_EVENT_LBUTTON <;> rfl

/-- Witness of `C5_simple_pen_report`: the state at `x = 14719`, `y = 9199` with the
primary and the tertiary button pressed encodes to the nine bytes shown. -/
theorem C5_simple_pen_report_witness :
    ((0 : Int) ≤ 14719 ∧ (14719 : Int) < 65536 ∧ (0 : Int) ≤ 9199 ∧ (9199 : Int) < 65536
      ∧ (9 : Int) ≤ 9)
    ∧ (Bamboo.usb_wacom_poll { Bamboo.zeroState with x := 14719, y := 9199, buttons_state := 5 }
        [0, 0, 0, 0, 0, 0, 0, 0, 0] 9).1.take 9
      = [2, 227, 127, 57, 239, 35, 0, 2, 0] :=
  ⟨by decide,
   (C5_simple_pen_report { Bamboo.zeroState with x := 14719, y := 9199, buttons_state := 5 }
      [0, 0, 0, 0, 0, 0, 0, 0, 0] 9
      (by decide) (by decide) (by decide) (by decide) (by decide) (by decide)).2.1.trans
      (by decide)⟩

/-- C6: the advanced-variant proximity/tool report.  For a buffer of length at least 9,
`usb_wacom_prox_event` writes the tag 2, then `0x80 | 0x40 | 0x02 = 0xC2` when entering
proximity and `0x80` (ready and has-serial bits clear) otherwise, then the bytes
`0x80, 0x2F, 0xEE, 0xDC, 0x0D, 0xE0, 0x00`, the nibble-interleaving of tool ID `0x802`
and serial `0xFEEDC0DE`: both are recovered from the bytes by the stated shifts. -/
theorem C6_proximity_report (s : Intuos5.USBWacomState) (buf : List Nat) (len : Int)
    (inProx : Bool) (hlen : 9 ≤ len) (hbuf : len ≤ buf.length) :
    ∃ b1 b2 b3 b4 b5 b6 b7 b8 : Nat,
      (Intuos5.usb_wacom_prox_event s buf len inProx).1.take 9
        = [2, b1, b2, b3, b4, b5, b6, b7, b8]
      ∧ b1 = (if inProx then 0x80 ||| 0x40 ||| 0x02 else 0x80)
      ∧ (inProx = true → b1 = 0xC2)
      ∧ (inProx = false → b1 &&& 0x40 = 0 ∧ b1 &&& 0x02 = 0)
      ∧ [b2, b3, b4, b5, b6, b7, b8] = [0x80, 0x2F, 0xEE, 0xDC, 0x0D, 0xE0, 0x00]
      ∧ (b2 <<< 4) ||| (b3 >>> 4) ||| ((b7 &&& 0x0F) <<< 16) ||| ((b8 &&& 0xF0) <<< 8) = 0x802
      ∧ ((b3 &&& 0x0F) <<< 28) ||| (b4 <<< 20) ||| (b5 <<< 12) ||| (b6 <<< 4) ||| (b7 >>> 4)
          = 0xFEEDC0DE := by
  have hb : 9 ≤ buf.length := by omega
  refine ⟨if inProx then 0xC2 else 0x80, 0x80, 0x2F, 0xEE, 0xDC, 0x0D, 0xE0, 0x00, ?_, ?_, ?_, ?_,
    rfl, by decide, by decide⟩
  · unfold Intuos5.usb_wacom_prox_event
    rw [if_neg (not_lt.mpr hlen)]
    simp only []
    rw [take_store9 buf hb]
    cases inProx <;> decide
  · cases inProx <;> decide
  · intro h; rw [h]; decide
  · intro h; rw [h]; decide

/-- Witness of `C6_proximity_report`: entering proximity with a 9-byte buffer, the
report starts with the tag 2 and the status byte `0xC2`. -/
theorem C6_proximity_report_witness :
    ((9 : Int) ≤ 9)
    ∧ ∃ b1 b2 b3 b4 b5 b6 b7 b8 : Nat,
        (Intuos5.usb_wacom_prox_event Intuos5.zeroState [0, 0, 0, 0, 0, 0, 0, 0, 0] 9 true).1.take 9
          = [2, b1, b2, b3, b4, b5, b6, b7, b8]
        ∧ b1 = 0xC2 :=
  ⟨by decide,
   match C6_proximity_report Intuos5.zeroState [0, 0, 0, 0, 0, 0, 0, 0, 0] 9 true
      (by decide) (by decide) with
   | ⟨b1, b2, b3, b4, b5, b6, b7, b8, h, _, h1, _⟩ =>
     ⟨b1, b2, b3, b4, b5, b6, b7, b8, h, h1 rfl⟩⟩

/-- C7: a destination buffer below the fixed size of the report kind.  The simple pen
encoder for `len < 9`, the advanced pen encoder for `len < 10` and the proximity encoder
for `len < 9` return 0 and leave the buffer as it was; at or above that size each
returns a non-zero length. -/
theorem C7_short_buffer (sB : Bamboo.USBWacomState) (sI : Intuos5.USBWacomState)
    (buf : List Nat) (len : Int) (inProx : Bool) :
    (len < 9 → Bamboo.usb_wacom_poll sB buf len = (buf, 0))
    ∧ (9 ≤ len → (Bamboo.usb_wacom_poll sB buf len).2 ≠ 0)
    ∧ (len < 10 → Intuos5.usb_wacom_poll sI buf len = (buf, 0))
    ∧ (10 ≤ len → (Intuos5.usb_wacom_poll sI buf len).2 ≠ 0)
    ∧ (len < 9 → Intuos5.usb_wacom_prox_event sI buf len inProx = (buf, 0))
    ∧ (9 ≤ len → (Intuos5.usb_wacom_prox_event sI buf len inProx).2 ≠ 0) := by
  refine ⟨?_, ?_, ?_, ?_, ?_, ?_⟩
  · intro h
    unfold Bamboo.usb_wacom_poll
    simp only [if_pos h]
  · intro h
    unfold Bamboo.usb_wacom_poll
    simp only [if_neg (not_lt.mpr h)]
    omega
  · intro h
    unfold Intuos5.usb_wacom_poll
    simp only [if_pos h]
  · intro h
    unfold Intuos5.usb_wacom_poll
    simp only [if_neg (not_lt.mpr h)]
    decide
  · intro h
    unfold Intuos5.usb_wacom_prox_event
    simp only [if_pos h]
  · intro h
    unfold Intuos5.usb_wacom_prox_event
    simp only [if_neg (not_lt.mpr h)]
    omega

/-- Witness of `C7_short_buffer`: an 8-byte buffer is left untouched by the simple pen
encoder, and a 10-byte buffer gets a non-zero length from the advanced pen encoder. -/
theorem C7_short_buffer_witness :
    ((8 : Int) < 9 ∧ (10 : Int) ≤ 10)
    ∧ Bamboo.usb_wacom_poll Bamboo.zeroState [7, 7, 7, 7, 7, 7, 7, 7] 8
        = ([7, 7, 7, 7, 7, 7, 7, 7], 0)
    ∧ (Intuos5.usb_wacom_poll Intuos5.zeroState [0, 0, 0, 0, 0, 0, 0, 0, 0, 0] 10).2 ≠ 0 :=
  ⟨by decide,
   (C7_short_buffer Bamboo.zeroState Intuos5.zeroState [7, 7, 7, 7, 7, 7, 7, 7] 8 true).1
     (by decide),
   (C7_short_buffer Bamboo.zeroState Intuos5.zeroState [0, 0, 0, 0, 0, 0, 0, 0, 0, 0] 10
     true).2.2.2.1 (by decide)⟩

/-! ## Liveness scheduling (claims C8 to C10) -/

/-- C8: the advanced-variant liveness scheduler is the five-step procedure of the
specification.  For every state and every time `now`, the interrupt-IN poll on the pen
endpoint 3 leaves the state that `specScheduler` computes and hands back what it
specifies: `USB_RET_NAK` for no data (mode not Active, or neither flag set after the
leave-timeout and ping steps), otherwise the proximity report when `changedProximity` is
set, else the pen report, with `lastPacketTime = now` and the chosen flag cleared. -/
theorem C8_scheduler_refines_spec (s : Intuos5.USBWacomState) (p : USBPacket)
    (buf : List Nat) (now : Int) (hpid : p.pid = USBToken.IN) (hep : p.ep = 3) :
    Intuos5.usb_wacom_handle_data s p buf now
      = ((Intuos5.specScheduler s buf now).1,
          Intuos5.deliver p (Intuos5.specScheduler s buf now).2) := by
  obtain ⟨eh, dx, dy, dz, bs, x, y, pr, mode, idle, pid, vid, lpt, liet, prox, cpen, cprox⟩ := s
  obtain ⟨ppid, pep, pst, pdata⟩ := p
  simp only at hpid hep
  subst hpid hep
  unfold Intuos5.usb_wacom_handle_data Intuos5.specScheduler Intuos5.specLeaveStep
    Intuos5.specPingStep
  simp only [Intuos5.WACOM_MODE_WACOM, Intuos5.PEN_LEAVE_TIMEOUT, Intuos5.PEN_PING_INTERVAL]
  by_cases hm : mode = 2
  · subst hm
    by_cases hl : now - liet > 5000 <;> by_cases hq : now - lpt > 200 <;>
      cases prox <;> cases cpen <;> cases cprox <;>
      simp [hl, hq, Intuos5.deliver, usb_packet_copy]
  · simp [hm, Intuos5.deliver]

/-- Witness of `C8_scheduler_refines_spec`: the first poll after the switch to the
tablet mode hands back the proximity report with the ready bit clear. -/
theorem C8_scheduler_refines_spec_witness :
    ((USBToken.IN = USBToken.IN) ∧ (3 : Nat) = 3)
    ∧ (Intuos5.usb_wacom_handle_data
        (Intuos5.usb_wacom_set_tablet_mode (Intuos5.usb_wacom_realize Intuos5.zeroState) 2)
        { pid := USBToken.IN, ep := 3, status := USBRet.SUCCESS, data := [] }
        [0, 0, 0, 0, 0, 0, 0, 0, 0, 0] 0).2.data
      = [2, 0x80, 0x80, 0x2F, 0xEE, 0xDC, 0x0D, 0xE0, 0, 0] :=
  ⟨⟨rfl, rfl⟩,
   (congrArg (fun r => r.2.data)
      (C8_scheduler_refines_spec
        (Intuos5.usb_wacom_set_tablet_mode (Intuos5.usb_wacom_realize Intuos5.zeroState) 2)
        { pid := USBToken.IN, ep := 3, status := USBRet.SUCCESS, data := [] }
        [0, 0, 0, 0, 0, 0, 0, 0, 0, 0] 0 rfl rfl)).trans (by decide)⟩

/-- C9, as stated, fails in its last part: in the Active state with both flags set and
the pen out of proximity (the state left by the mode switch followed by a scan-mode
command), a first poll at time 0 and a following poll at time 201 both hand back the
proximity report; the following poll does not emit the pen report, which would be the
ten bytes shown last, and `changedPen` is still pending. -/
theorem C9_following_poll_not_pen :
    (Intuos5.usb_wacom_handle_data
      (Intuos5.usb_wacom_handle_data
        { Intuos5.usb_wacom_set_tablet_mode (Intuos5.usb_wacom_realize Intuos5.zeroState) 2 with
          changedPen := true, changedProximity := true }
        { pid := USBToken.IN, ep := 3, status := USBRet.SUCCESS, data := [] }
        [0, 0, 0, 0, 0, 0, 0, 0, 0, 0] 0).1
      { pid := USBToken.IN, ep := 3, status := USBRet.SUCCESS, data := [] }
      [0, 0, 0, 0, 0, 0, 0, 0, 0, 0] 201)
    = ({ Intuos5.usb_wacom_set_tablet_mode (Intuos5.usb_wacom_realize Intuos5.zeroState) 2 with
          changedPen := true, changedProximity := false, lastPacketTime := 201 },
       { pid := USBToken.IN, ep := 3, status := USBRet.SUCCESS,
         data := [2, 0x80, 0x80, 0x2F, 0xEE, 0xDC, 0x0D, 0xE0, 0, 0] })
    ∧ (Intuos5.usb_wacom_poll
        { Intuos5.usb_wacom_set_tablet_mode (Intuos5.usb_wacom_realize Intuos5.zeroState) 2 with
          changedPen := true, changedProximity := true }
        [0, 0, 0, 0, 0, 0, 0, 0, 0, 0] 10).1
      = [2, 0xE0, 0, 0, 0, 0, 0, 0x20, 0x40, 40] := by
  decide

/-- C9, amended: proximity takes priority and one report is emitted per poll.  For every
Active state with both `changedProximity` and `changedPen` set, a poll hands back exactly
the output of the proximity encoder, clears `changedProximity`, sets `lastPacketTime` and
leaves `changedPen` set; the following poll hands back the pen report whenever the pen is
in proximity or the following poll comes at most 200 ms after the first. -/
theorem C9_proximity_first (s : Intuos5.USBWacomState) (p : USBPacket) (buf : List Nat)
    (now : Int) (hpid : p.pid = USBToken.IN) (hep : p.ep = 3)
    (hmode : s.mode = Intuos5.WACOM_MODE_WACOM)
    (hpen : s.changedPen = true) (hprox : s.changedProximity = true) :
    Intuos5.usb_wacom_handle_data s p buf now
      = ({ s with lastPacketTime := now, changedProximity := false },
          usb_packet_copy p
            (Intuos5.usb_wacom_prox_event s buf buf.length s.penInProx).1
            (Intuos5.usb_wacom_prox_event s buf buf.length s.penInProx).2)
    ∧ (Intuos5.usb_wacom_handle_data s p buf now).1.changedPen = true
    ∧ (Intuos5.usb_wacom_handle_data s p buf now).1.changedProximity = false
    ∧ ∀ (p2 : USBPacket) (buf2 : List Nat) (now2 : Int),
        p2.pid = USBToken.IN → p2.ep = 3 →
        (s.penInProx = true ∨ now2 - now ≤ 200) →
        Intuos5.usb_wacom_handle_data (Intuos5.usb_wacom_handle_data s p buf now).1 p2 buf2 now2
          = ({ s with lastPacketTime := now2, changedProximity := false, changedPen := false },
              usb_packet_copy p2
                (Intuos5.usb_wacom_poll s buf2 buf2.length).1
                (Intuos5.usb_wacom_poll s buf2 buf2.length).2) := by
  obtain ⟨eh, dx, dy, dz, bs, x, y, pr, mode, idle, pid, vid, lpt, liet, prox, cpen, cprox⟩ := s
  obtain ⟨ppid, pep, pst, pdata⟩ := p
  simp only [Intuos5.WACOM_MODE_WACOM] at hpid hep hmode hpen hprox
  subst hpid hep hmode hpen hprox
  have first : Intuos5.usb_wacom_handle_data
      ⟨eh, dx, dy, dz, bs, x, y, pr, 2, idle, pid, vid, lpt, liet, prox, true, true⟩
      ⟨USBToken.IN, 3, pst, pdata⟩ buf now
      = (⟨eh, dx, dy, dz, bs, x, y, pr, 2, idle, pid, vid, now, liet, prox, true, false⟩,
          usb_packet_copy ⟨USBToken.IN, 3, pst, pdata⟩
            (Intuos5.usb_wacom_prox_event
              ⟨eh, dx, dy, dz, bs, x, y, pr, 2, idle, pid, vid, lpt, liet, prox, true, true⟩
              buf buf.length prox).1
            (Intuos5.usb_wacom_prox_event
              ⟨eh, dx, dy, dz, bs, x, y, pr, 2, idle, pid, vid, lpt, liet, prox, true, true⟩
              buf buf.length prox).2) := by
    unfold Intuos5.usb_wacom_handle_data
    simp only [Intuos5.WACOM_MODE_WACOM, Intuos5.PEN_LEAVE_TIMEOUT, Intuos5.PEN_PING_INTERVAL]
    by_cases hq : now - lpt > 200 <;> cases prox <;>
      simp [hq, usb_packet_copy, Intuos5.usb_wacom_prox_event]
  refine ⟨first, by rw [first], by rw [first], ?_⟩
  intro p2 buf2 now2 h1 h2 h3
  obtain ⟨ppid2, pep2, pst2, pdata2⟩ := p2
  simp only at h1 h2 h3
  subst h1 h2
  rw [first]
  unfold Intuos5.usb_wacom_handle_data
  simp only [Intuos5.WACOM_MODE_WACOM, Intuos5.PEN_LEAVE_TIMEOUT, Intuos5.PEN_PING_INTERVAL]
  by_cases hq : now2 - now > 200
  · have hp : prox = true := by
      rcases h3 with h | h
      · exact h
      · omega
    subst hp
    simp [hq, usb_packet_copy, Intuos5.usb_wacom_poll]
  · cases prox <;> simp [hq, usb_packet_copy, Intuos5.usb_wacom_poll]

/-- Witness of `C9_proximity_first`: in the Active state with both flags set, the poll
leaves `changedPen` set and `changedProximity` cleared. -/
theorem C9_proximity_first_witness :
    ({ Intuos5.usb_wacom_set_tablet_mode (Intuos5.usb_wacom_realize Intuos5.zeroState) 2 with
          changedPen := true, changedProximity := true }).mode = Intuos5.WACOM_MODE_WACOM
    ∧ (Intuos5.usb_wacom_handle_data
        { Intuos5.usb_wacom_set_tablet_mode (Intuos5.usb_wacom_realize Intuos5.zeroState) 2 with
          changedPen := true, changedProximity := true }
        { pid := USBToken.IN, ep := 3, status := USBRet.SUCCESS, data := [] }
        [0, 0, 0, 0, 0, 0, 0, 0, 0, 0] 0).1.changedPen = true
    ∧ (Intuos5.usb_wacom_handle_data
        { Intuos5.usb_wacom_set_tablet_mode (Intuos5.usb_wacom_realize Intuos5.zeroState) 2 with
          changedPen := true, changedProximity := true }
        { pid := USBToken.IN, ep := 3, status := USBRet.SUCCESS, data := [] }
        [0, 0, 0, 0, 0, 0, 0, 0, 0, 0] 0).1.changedProximity = false :=
  ⟨by decide,
   (C9_proximity_first
      { Intuos5.usb_wacom_set_tablet_mode (Intuos5.usb_wacom_realize Intuos5.zeroState) 2 with
          changedPen := true, changedProximity := true }
      { pid := USBToken.IN, ep := 3, status := USBRet.SUCCESS, data := [] }
      [0, 0, 0, 0, 0, 0, 0, 0, 0, 0] 0 rfl rfl (by decide) rfl rfl).2.1,
   (C9_proximity_first
      { Intuos5.usb_wacom_set_tablet_mode (Intuos5.usb_wacom_realize Intuos5.zeroState) 2 with
          changedPen := true, changedProximity := true }
      { pid := USBToken.IN, ep := 3, status := USBRet.SUCCESS, data := [] }
      [0, 0, 0, 0, 0, 0, 0, 0, 0, 0] 0 rfl rfl (by decide) rfl rfl).2.2.1⟩

/-- C10: the simple-variant scheduler.  For every state and time `now`, the interrupt-IN
poll on endpoint 1 answers `USB_RET_NAK` with the state unchanged when the mode is not
Active; in Active mode it hands back the pen report exactly when `changedPen` is set or
`now - lastPacketTime > 100`, then clearing `changedPen` and setting
`lastPacketTime = now`; otherwise it answers `USB_RET_NAK` with the state unchanged. -/
theorem C10_simple_scheduler (s : Bamboo.USBWacomState) (p : USBPacket) (buf : List Nat)
    (now : Int) (hpid : p.pid = USBToken.IN) (hep : p.ep = 1) :
    (s.mode ≠ Bamboo.WACOM_MODE_WACOM →
      Bamboo.usb_wacom_handle_data s p buf now = (s, { p with status := USBRet.NAK }))
    ∧ (s.mode = Bamboo.WACOM_MODE_WACOM →
        (s.changedPen = true ∨ now - s.lastPacketTime > 100) →
        Bamboo.usb_wacom_handle_data s p buf now
          = ({ s with changedPen := false, lastPacketTime := now },
              usb_packet_copy p
                (Bamboo.usb_wacom_poll s buf buf.length).1
                (Bamboo.usb_wacom_poll s buf buf.length).2))
    ∧ (s.mode = Bamboo.WACOM_MODE_WACOM →
        ¬ (s.changedPen = true ∨ now - s.lastPacketTime > 100) →
        Bamboo.usb_wacom_handle_data s p buf now = (s, { p with status := USBRet.NAK })) := by
  obtain ⟨eh, dx, dy, dz, bs, x, y, mode, idle, lpt, cpen⟩ := s
  obtain ⟨ppid, pep, pst, pdata⟩ := p
  simp only at hpid hep
  subst hpid hep
  unfold Bamboo.usb_wacom_handle_data
  simp only [Bamboo.WACOM_MODE_WACOM]
  refine ⟨?_, ?_, ?_⟩
  · intro hm
    simp [hm]
  · intro hm hc
    subst hm
    by_cases hq : now - lpt > 100
    · cases cpen <;> simp [hq, usb_packet_copy, Bamboo.usb_wacom_poll]
    · have hp : cpen = true := by
        rcases hc with h | h
        · exact h
        · exact absurd h hq
      subst hp
      simp [hq, usb_packet_copy, Bamboo.usb_wacom_poll]
  · intro hm hc
    subst hm
    have hq : ¬ now - lpt > 100 := fun h => hc (Or.inr h)
    have hp : cpen = false := by
      cases cpen
      · rfl
      · exact absurd (Or.inl rfl) hc
    subst hp
    simp [hq]

/-- Witness of `C10_simple_scheduler`: the first poll after the switch to the tablet
mode hands back the nine-byte pen report of the idle pen. -/
theorem C10_simple_scheduler_witness :
    ((Bamboo.usb_wacom_set_tablet_mode (Bamboo.usb_wacom_realize Bamboo.zeroState) 2).mode
        = Bamboo.WACOM_MODE_WACOM
      ∧ (Bamboo.usb_wacom_set_tablet_mode (Bamboo.usb_wacom_realize Bamboo.zeroState)
          2).changedPen = true)
    ∧ (Bamboo.usb_wacom_handle_data
        (Bamboo.usb_wacom_set_tablet_mode (Bamboo.usb_wacom_realize Bamboo.zeroState) 2)
        { pid := USBToken.IN, ep := 1, status := USBRet.SUCCESS, data := [] }
        [0, 0, 0, 0, 0, 0, 0, 0, 0] 0).2.data
      = [2, 0xE0, 0, 0, 0, 0, 0, 0, 0] :=
  ⟨by decide,
   (congrArg (fun r => r.2.data)
      ((C10_simple_scheduler
        (Bamboo.usb_wacom_set_tablet_mode (Bamboo.usb_wacom_realize Bamboo.zeroState) 2)
        { pid := USBToken.IN, ep := 1, status := USBRet.SUCCESS, data := [] }
        [0, 0, 0, 0, 0, 0, 0, 0, 0] 0 rfl rfl).2.1 (by decide) (Or.inl (by decide)))).trans
      (by decide)⟩

/-! ## Scenarios of the scheduler (claims C11 to C15) -/

/-- Nine stores into a buffer of at least nine bytes: the stored bytes followed by the
untouched rest. -/
theorem store9_eq (buf : List Nat) (h : 9 ≤ buf.length) (v0 v1 v2 v3 v4 v5 v6 v7 v8 : Nat) :
    store (store (store (store (store (store (store (store (store buf
      0 v0) 1 v1) 2 v2) 3 v3) 4 v4) 5 v5) 6 v6) 7 v7) 8 v8
    = [toUInt8 v0, toUInt8 v1, toUInt8 v2, toUInt8 v3, toUInt8 v4, toUInt8 v5, toUInt8 v6,
        toUInt8 v7, toUInt8 v8] ++ buf.drop 9 := by
  rcases buf with _ | ⟨a0, _ | ⟨a1, _ | ⟨a2, _ | ⟨a3, _ | ⟨a4, _ | ⟨a5, _ | ⟨a6, _ | ⟨a7,
    _ | ⟨a8, rest⟩⟩⟩⟩⟩⟩⟩⟩⟩ <;> simp at h
  simp [store, List.set]

/-- The proximity report written into a buffer of at least nine bytes, in full. -/
theorem prox_event_eq (s : Intuos5.USBWacomState) (buf : List Nat) (inProx : Bool)
    (hb : 9 ≤ buf.length) :
    Intuos5.usb_wacom_prox_event s buf buf.length inProx
      = ([2, if inProx then 0xC2 else 0x80, 0x80, 0x2F, 0xEE, 0xDC, 0x0D, 0xE0, 0x00]
          ++ buf.drop 9, (buf.length : Int)) := by
  have hlen : ¬ ((buf.length : Int) < 9) := by omega
  unfold Intuos5.usb_wacom_prox_event
  rw [if_neg hlen]
  simp only []
  rw [store9_eq buf hb]
  cases inProx <;> rfl

/-- What `usb_packet_copy` hands over when the encoder filled the whole buffer. -/
theorem packet_copy_full (p : USBPacket) (l : List Nat) (n : Nat) (h : l.length = n) :
    usb_packet_copy p l (n : Int) = { p with data := p.data ++ l } := by
  unfold usb_packet_copy
  rw [Int.toNat_ofNat, ← h, List.take_length]

/-- A poll of the pen endpoint while the pen is out of proximity and no pen data is
pending: either no data and no change, or the proximity report with the ready bit
clear; the pen stays out of proximity with no pen data pending. -/
theorem quiet_poll (s : Intuos5.USBWacomState) (p : USBPacket) (buf : List Nat) (now : Int)
    (hprox : s.penInProx = false) (hpen : s.changedPen = false) :
    (Intuos5.usb_wacom_handle_data s p buf now).1.penInProx = false
    ∧ (Intuos5.usb_wacom_handle_data s p buf now).1.changedPen = false
    ∧ ((Intuos5.usb_wacom_handle_data s p buf now).2.data = p.data
        ∨ (Intuos5.usb_wacom_handle_data s p buf now).2
            = usb_packet_copy p (Intuos5.usb_wacom_prox_event s buf buf.length false).1
                (Intuos5.usb_wacom_prox_event s buf buf.length false).2) := by
  obtain ⟨eh, dx, dy, dz, bs, x, y, pr, mode, idle, pid, vid, lpt, liet, prox, cpen, cprox⟩ := s
  obtain ⟨ppid, pep, pst, pdata⟩ := p
  simp only at hprox hpen
  subst hprox hpen
  unfold Intuos5.usb_wacom_handle_data
  simp only [Intuos5.WACOM_MODE_WACOM, Intuos5.PEN_LEAVE_TIMEOUT, Intuos5.PEN_PING_INTERVAL]
  cases ppid
  · by_cases h2 : pep = 2
    · simp [h2]
    · by_cases h3 : pep = 3
      · subst h3
        by_cases hm : mode = 2
        · subst hm
          by_cases hq : now - lpt > 200 <;> cases cprox <;>
            simp [hq, usb_packet_copy, Intuos5.usb_wacom_prox_event]
        · simp [hm]
      · simp [h2, h3]
  · simp
  · simp

/-- A run of data transfers with no other call in between keeps the pen out of
proximity with no pen data pending. -/
theorem quiet_run (acts : List Intuos5.Action) :
    ∀ s : Intuos5.USBWacomState,
      (∀ a ∈ acts, ∃ p b t, a = Intuos5.Action.poll p b t) →
      s.penInProx = false → s.changedPen = false →
      (Intuos5.run s acts).penInProx = false ∧ (Intuos5.run s acts).changedPen = false := by
  induction acts with
  | nil => intro s _ h1 h2; exact ⟨h1, h2⟩
  | cons a rest ih =>
    intro s hall h1 h2
    obtain ⟨p, b, t, rfl⟩ := hall a (List.mem_cons_self _ _)
    have q := quiet_poll s p b t h1 h2
    exact ih _ (fun a ha => hall a (List.mem_cons_of_mem _ ha)) q.1 q.2.1

/-- C11: the mode switch resets the announce state.  For every prior state and every
poll time, the first poll after `usb_wacom_set_tablet_mode(s, 2)` with no event in between
is served: in the advanced variant it hands back the proximity report with the ready bit
clear (`byte1 = 0x80`), and so does every later poll that hands back data while only
polls follow the switch; in the simple variant it hands back the pen report. -/
theorem C11_first_poll_after_mode_switch (sI : Intuos5.USBWacomState)
    (sB : Bamboo.USBWacomState) (pI pB : USBPacket) (buf : List Nat) (now : Int)
    (hI : pI.pid = USBToken.IN) (hI3 : pI.ep = 3)
    (hB : pB.pid = USBToken.IN) (hB1 : pB.ep = 1) :
    Intuos5.usb_wacom_handle_data (Intuos5.usb_wacom_set_tablet_mode sI 2) pI buf now
      = ({ Intuos5.usb_wacom_set_tablet_mode sI 2 with
            lastPacketTime := now, changedProximity := false },
          usb_packet_copy pI (Intuos5.usb_wacom_prox_event sI buf buf.length false).1
            (Intuos5.usb_wacom_prox_event sI buf buf.length false).2)
    ∧ (9 ≤ buf.length →
        (Intuos5.usb_wacom_handle_data (Intuos5.usb_wacom_set_tablet_mode sI 2) pI buf now).2
          = { pI with data := pI.data
                ++ ([2, 0x80, 0x80, 0x2F, 0xEE, 0xDC, 0x0D, 0xE0, 0x00] ++ buf.drop 9) })
    ∧ (∀ acts : List Intuos5.Action, (∀ a ∈ acts, ∃ p b t, a = Intuos5.Action.poll p b t) →
        (Intuos5.usb_wacom_handle_data
            (Intuos5.run (Intuos5.usb_wacom_set_tablet_mode sI 2) acts) pI buf now).2.data
          = pI.data
        ∨ (Intuos5.usb_wacom_handle_data
            (Intuos5.run (Intuos5.usb_wacom_set_tablet_mode sI 2) acts) pI buf now).2
          = usb_packet_copy pI (Intuos5.usb_wacom_prox_event sI buf buf.length false).1
              (Intuos5.usb_wacom_prox_event sI buf buf.length false).2)
    ∧ Bamboo.usb_wacom_handle_data (Bamboo.usb_wacom_set_tablet_mode sB 2) pB buf now
      = ({ Bamboo.usb_wacom_set_tablet_mode sB 2 with
            changedPen := false, lastPacketTime := now },
          usb_packet_copy pB (Bamboo.usb_wacom_poll sB buf buf.length).1
            (Bamboo.usb_wacom_poll sB buf buf.length).2) := by
  have first : Intuos5.usb_wacom_handle_data (Intuos5.usb_wacom_set_tablet_mode sI 2) pI buf now
      = ({ Intuos5.usb_wacom_set_tablet_mode sI 2 with
            lastPacketTime := now, changedProximity := false },
          usb_packet_copy pI (Intuos5.usb_wacom_prox_event sI buf buf.length false).1
            (Intuos5.usb_wacom_prox_event sI buf buf.length false).2) := by
    obtain ⟨eh, dx, dy, dz, bs, x, y, pr, mode, idle, pid, vid, lpt, liet, prox, cpen, cprox⟩
      := sI
    obtain ⟨ppid, pep, pst, pdata⟩ := pI
    simp only at hI hI3
    subst hI hI3
    unfold Intuos5.usb_wacom_handle_data Intuos5.usb_wacom_set_tablet_mode
    simp only [Intuos5.WACOM_MODE_WACOM, Intuos5.PEN_LEAVE_TIMEOUT, Intuos5.PEN_PING_INTERVAL]
    by_cases hq : now - lpt > 200 <;>
      simp [hq, usb_packet_copy, Intuos5.usb_wacom_prox_event]
  refine ⟨first, ?_, ?_, ?_⟩
  · intro hb
    rw [first, prox_event_eq sI buf false hb]
    exact packet_copy_full pI _ buf.length (by simp; omega)
  · intro acts hall
    have hq := quiet_run acts (Intuos5.usb_wacom_set_tablet_mode sI 2) hall rfl rfl
    have h := quiet_poll (Intuos5.run (Intuos5.usb_wacom_set_tablet_mode sI 2) acts) pI buf now
      hq.1 hq.2
    exact h.2.2
  · obtain ⟨eh, dx, dy, dz, bs, x, y, mode, idle, lpt, cpen⟩ := sB
    obtain ⟨ppid, pep, pst, pdata⟩ := pB
    simp only at hB hB1
    subst hB hB1
    unfold Bamboo.usb_wacom_handle_data Bamboo.usb_wacom_set_tablet_mode
    simp only [Bamboo.WACOM_MODE_WACOM]
    by_cases hq : now - lpt > 100 <;> simp [hq, usb_packet_copy, Bamboo.usb_wacom_poll]

/-- Witness of `C11_first_poll_after_mode_switch`: the bytes of the first poll after the
switch, for a ten-byte buffer. -/
theorem C11_first_poll_after_mode_switch_witness :
    ((USBToken.IN = USBToken.IN) ∧ (9 : Nat) ≤ 10)
    ∧ (Intuos5.usb_wacom_handle_data (Intuos5.usb_wacom_set_tablet_mode Intuos5.zeroState 2)
        { pid := USBToken.IN, ep := 3, status := USBRet.SUCCESS, data := [] }
        [0, 0, 0, 0, 0, 0, 0, 0, 0, 0] 0).2.data
      = [2, 0x80, 0x80, 0x2F, 0xEE, 0xDC, 0x0D, 0xE0, 0, 0] :=
  ⟨by decide,
   (congrArg (fun q => q.data)
      ((C11_first_poll_after_mode_switch Intuos5.zeroState Bamboo.zeroState
        { pid := USBToken.IN, ep := 3, status := USBRet.SUCCESS, data := [] }
        { pid := USBToken.IN, ep := 1, status := USBRet.SUCCESS, data := [] }
        [0, 0, 0, 0, 0, 0, 0, 0, 0, 0] 0 rfl rfl rfl rfl).2.1 (by decide))).trans (by decide)⟩

/-- A poll before the leave timeout keeps the pen in proximity; no poll changes the mode
or the time of the last event. -/
theorem poll_keeps_prox (s : Intuos5.USBWacomState) (p : USBPacket) (buf : List Nat)
    (now : Int) (hprox : s.penInProx = true) (ht : now - s.lastInputEventTime ≤ 5000) :
    (Intuos5.usb_wacom_handle_data s p buf now).1.penInProx = true
    ∧ (Intuos5.usb_wacom_handle_data s p buf now).1.mode = s.mode
    ∧ (Intuos5.usb_wacom_handle_data s p buf now).1.lastInputEventTime
        = s.lastInputEventTime := by
  obtain ⟨eh, dx, dy, dz, bs, x, y, pr, mode, idle, pid, vid, lpt, liet, prox, cpen, cprox⟩ := s
  obtain ⟨ppid, pep, pst, pdata⟩ := p
  simp only at hprox ht
  subst hprox
  have hl : ¬ now - liet > 5000 := by omega
  unfold Intuos5.usb_wacom_handle_data
  simp only [Intuos5.WACOM_MODE_WACOM, Intuos5.PEN_LEAVE_TIMEOUT, Intuos5.PEN_PING_INTERVAL]
  cases ppid
  · by_cases h2 : pep = 2
    · simp [h2]
    · by_cases h3 : pep = 3
      · subst h3
        by_cases hm : mode = 2
        · subst hm
          by_cases hq : now - lpt > 200 <;> cases cpen <;> cases cprox <;> simp [hq, hl]
        · simp [hm]
      · simp [h2, h3]
  · simp
  · simp

theorem polls_keep_prox (acts : List Intuos5.Action) :
    ∀ s : Intuos5.USBWacomState,
      (∀ a ∈ acts, ∃ q c t, a = Intuos5.Action.poll q c t ∧ t - s.lastInputEventTime ≤ 5000) →
      s.penInProx = true →
      (Intuos5.run s acts).penInProx = true
      ∧ (Intuos5.run s acts).mode = s.mode
      ∧ (Intuos5.run s acts).lastInputEventTime = s.lastInputEventTime := by
  induction acts with
  | nil => intro s _ h1; exact ⟨h1, rfl, rfl⟩
  | cons a rest ih =>
    intro s hall h1
    obtain ⟨q, c, t, rfl, ht⟩ := hall _ (List.mem_cons_self _ _)
    have k := poll_keeps_prox s q c t h1 ht
    have r := ih (Intuos5.usb_wacom_handle_data s q c t).1
      (fun a ha => by
        obtain ⟨q2, c2, t2, e, ht2⟩ := hall a (List.mem_cons_of_mem _ ha)
        exact ⟨q2, c2, t2, e, by rw [k.2.2]; exact ht2⟩) k.1
    exact ⟨r.1, r.2.1.trans k.2.1, r.2.2.trans k.2.2⟩

/-- The poll that finds the pen idle past the leave timeout with no pen data pending. -/
theorem leave_poll (s : Intuos5.USBWacomState) (p : USBPacket) (buf : List Nat) (now : Int)
    (hpid : p.pid = USBToken.IN) (hep : p.ep = 3) (hmode : s.mode = 2)
    (hprox : s.penInProx = true) (hpen : s.changedPen = false)
    (ht : now - s.lastInputEventTime > 5000) :
    Intuos5.usb_wacom_handle_data s p buf now
      = ({ s with penInProx := false, changedProximity := false, lastPacketTime := now },
          usb_packet_copy p (Intuos5.usb_wacom_prox_event s buf buf.length false).1
            (Intuos5.usb_wacom_prox_event s buf buf.length false).2) := by
  obtain ⟨eh, dx, dy, dz, bs, x, y, pr, mode, idle, pid, vid, lpt, liet, prox, cpen, cprox⟩ := s
  obtain ⟨ppid, pep, pst, pdata⟩ := p
  simp only at hpid hep hmode hprox hpen ht
  subst hpid hep hmode hprox hpen
  unfold Intuos5.usb_wacom_handle_data
  simp only [Intuos5.WACOM_MODE_WACOM, Intuos5.PEN_LEAVE_TIMEOUT, Intuos5.PEN_PING_INTERVAL]
  by_cases hq : now - lpt > 200 <;> cases cprox <;>
    simp [hq, ht, usb_packet_copy, Intuos5.usb_wacom_prox_event]

theorem event_effect (s : Intuos5.USBWacomState) (x y dz b now : Int) :
    (Intuos5.usb_wacom_event s x y dz b now).penInProx = true
    ∧ (Intuos5.usb_wacom_event s x y dz b now).mode = s.mode
    ∧ (Intuos5.usb_wacom_event s x y dz b now).lastInputEventTime = now
    ∧ (Intuos5.usb_wacom_event s x y dz b now).changedPen = true := by
  unfold Intuos5.usb_wacom_event
  cases h : s.penInProx <;> simp [h]

/-- C12, as stated, fails: the leave timeout is skipped while pen data is pending.  With
the event injected at time 0 right after the switch to the tablet mode, the poll at time
5001 keeps the pen in proximity and hands back the proximity report with the ready bit
set (`byte1 = 0xC2`) when no poll came in between, and the pen report (`byte1 = 0xE0`)
when one poll came in between. -/
theorem C12_pending_pen_data_keeps_proximity :
    (Intuos5.usb_wacom_handle_data
        (Intuos5.usb_wacom_event (Intuos5.usb_wacom_set_tablet_mode (Intuos5.usb_wacom_realize Intuos5.zeroState) 2)
          16384 16384 0 0 0)
        { pid := USBToken.IN, ep := 3, status := USBRet.SUCCESS, data := [] }
        [0, 0, 0, 0, 0, 0, 0, 0, 0, 0] 5001).1.penInProx = true
    ∧ (Intuos5.usb_wacom_handle_data
        (Intuos5.usb_wacom_event (Intuos5.usb_wacom_set_tablet_mode (Intuos5.usb_wacom_realize Intuos5.zeroState) 2)
          16384 16384 0 0 0)
        { pid := USBToken.IN, ep := 3, status := USBRet.SUCCESS, data := [] }
        [0, 0, 0, 0, 0, 0, 0, 0, 0, 0] 5001).2.data
      = [2, 0xC2, 0x80, 0x2F, 0xEE, 0xDC, 0x0D, 0xE0, 0, 0]
    ∧ (Intuos5.usb_wacom_handle_data
        (Intuos5.run
          (Intuos5.usb_wacom_event (Intuos5.usb_wacom_set_tablet_mode (Intuos5.usb_wacom_realize Intuos5.zeroState) 2)
          16384 16384 0 0 0)
          [Intuos5.Action.poll { pid := USBToken.IN, ep := 3, status := USBRet.SUCCESS, data := [] }
            [0, 0, 0, 0, 0, 0, 0, 0, 0, 0] 1])
        { pid := USBToken.IN, ep := 3, status := USBRet.SUCCESS, data := [] }
        [0, 0, 0, 0, 0, 0, 0, 0, 0, 0] 5001).1.penInProx = true
    ∧ (Intuos5.usb_wacom_handle_data
        (Intuos5.run
          (Intuos5.usb_wacom_event (Intuos5.usb_wacom_set_tablet_mode (Intuos5.usb_wacom_realize Intuos5.zeroState) 2)
          16384 16384 0 0 0)
          [Intuos5.Action.poll { pid := USBToken.IN, ep := 3, status := USBRet.SUCCESS, data := [] }
            [0, 0, 0, 0, 0, 0, 0, 0, 0, 0] 1])
        { pid := USBToken.IN, ep := 3, status := USBRet.SUCCESS, data := [] }
        [0, 0, 0, 0, 0, 0, 0, 0, 0, 0] 5001).2.data
      = [2, 0xE0, 43, 168, 27, 73, 0, 0x20, 0x40, 40] := by
  decide

/-- C12, amended: the proximity timeout.  In Active mode, if one event is injected at
time 0, only polls at times up to 5000 follow, and they have handed back the pen data of
the event (`changedPen` is clear), then the poll at time `5001` leaves `penInProx` false and
hands back the proximity report with the ready bit clear (`byte1 = 0x80`). -/
theorem C12_proximity_timeout (s0 : Intuos5.USBWacomState) (x y dz b : Int)
    (acts : List Intuos5.Action) (p : USBPacket) (buf : List Nat)
    (hmode : s0.mode = Intuos5.WACOM_MODE_WACOM)
    (hacts : ∀ a ∈ acts, ∃ q c t, a = Intuos5.Action.poll q c t ∧ t ≤ 5000)
    (hpen : (Intuos5.run (Intuos5.usb_wacom_event s0 x y dz b 0) acts).changedPen = false)
    (hpid : p.pid = USBToken.IN) (hep : p.ep = 3) :
    (Intuos5.usb_wacom_handle_data
        (Intuos5.run (Intuos5.usb_wacom_event s0 x y dz b 0) acts) p buf 5001).1.penInProx
      = false
    ∧ (Intuos5.usb_wacom_handle_data
        (Intuos5.run (Intuos5.usb_wacom_event s0 x y dz b 0) acts) p buf 5001).2
      = usb_packet_copy p (Intuos5.usb_wacom_prox_event s0 buf buf.length false).1
          (Intuos5.usb_wacom_prox_event s0 buf buf.length false).2
    ∧ (9 ≤ buf.length →
        (Intuos5.usb_wacom_handle_data
          (Intuos5.run (Intuos5.usb_wacom_event s0 x y dz b 0) acts) p buf 5001).2
        = { p with data := p.data
              ++ ([2, 0x80, 0x80, 0x2F, 0xEE, 0xDC, 0x0D, 0xE0, 0x00] ++ buf.drop 9) }) := by
  have ev := event_effect s0 x y dz b 0
  have k := polls_keep_prox acts (Intuos5.usb_wacom_event s0 x y dz b 0)
    (fun a ha => by
      obtain ⟨q, c, t, e, ht⟩ := hacts a ha
      exact ⟨q, c, t, e, by rw [ev.2.2.1]; omega⟩) ev.1
  have hm : (Intuos5.run (Intuos5.usb_wacom_event s0 x y dz b 0) acts).mode = 2 := by
    rw [k.2.1, ev.2.1]; exact hmode
  have hl := leave_poll (Intuos5.run (Intuos5.usb_wacom_event s0 x y dz b 0) acts) p buf 5001
    hpid hep hm k.1 hpen (by rw [k.2.2, ev.2.2.1]; norm_num)
  refine ⟨by rw [hl], by rw [hl]; rfl, ?_⟩
  intro hb
  rw [hl]
  show usb_packet_copy p (Intuos5.usb_wacom_prox_event s0 buf buf.length false).1
      (Intuos5.usb_wacom_prox_event s0 buf buf.length false).2 = _
  rw [prox_event_eq s0 buf false hb]
  exact packet_copy_full p _ buf.length (by simp; omega)

/-- Witness of `C12_proximity_timeout`: the event at time 0, two polls at times 1 and 2
that hand back the proximity-entry report and the pen report, then the poll at 5001. -/
theorem C12_proximity_timeout_witness :
    ((Intuos5.usb_wacom_set_tablet_mode (Intuos5.usb_wacom_realize Intuos5.zeroState) 2).mode = Intuos5.WACOM_MODE_WACOM
      ∧ (Intuos5.run
          (Intuos5.usb_wacom_event (Intuos5.usb_wacom_set_tablet_mode (Intuos5.usb_wacom_realize Intuos5.zeroState) 2)
          16384 16384 0 0 0)
          [Intuos5.Action.poll { pid := USBToken.IN, ep := 3, status := USBRet.SUCCESS, data := [] }
            [0, 0, 0, 0, 0, 0, 0, 0, 0, 0] 1,
           Intuos5.Action.poll { pid := USBToken.IN, ep := 3, status := USBRet.SUCCESS, data := [] }
            [0, 0, 0, 0, 0, 0, 0, 0, 0, 0] 2]).changedPen = false)
    ∧ (Intuos5.usb_wacom_handle_data
        (Intuos5.run
          (Intuos5.usb_wacom_event (Intuos5.usb_wacom_set_tablet_mode (Intuos5.usb_wacom_realize Intuos5.zeroState) 2)
          16384 16384 0 0 0)
          [Intuos5.Action.poll { pid := USBToken.IN, ep := 3, status := USBRet.SUCCESS, data := [] }
            [0, 0, 0, 0, 0, 0, 0, 0, 0, 0] 1,
           Intuos5.Action.poll { pid := USBToken.IN, ep := 3, status := USBRet.SUCCESS, data := [] }
            [0, 0, 0, 0, 0, 0, 0, 0, 0, 0] 2])
        { pid := USBToken.IN, ep := 3, status := USBRet.SUCCESS, data := [] }
        [0, 0, 0, 0, 0, 0, 0, 0, 0, 0] 5001).1.penInProx = false :=
  ⟨by decide,
   (C12_proximity_timeout
      (Intuos5.usb_wacom_set_tablet_mode (Intuos5.usb_wacom_realize Intuos5.zeroState) 2)
      16384 16384 0 0
      [Intuos5.Action.poll { pid := USBToken.IN, ep := 3, status := USBRet.SUCCESS, data := [] }
            [0, 0, 0, 0, 0, 0, 0, 0, 0, 0] 1,
       Intuos5.Action.poll { pid := USBToken.IN, ep := 3, status := USBRet.SUCCESS, data := [] }
            [0, 0, 0, 0, 0, 0, 0, 0, 0, 0] 2]
      { pid := USBToken.IN, ep := 3, status := USBRet.SUCCESS, data := [] }
      [0, 0, 0, 0, 0, 0, 0, 0, 0, 0]
      (by decide)
      (fun a ha => by
        simp only [List.mem_cons, List.mem_singleton, List.not_mem_nil, or_false] at ha
        rcases ha with rfl | rfl
        · exact ⟨_, _, _, rfl, by decide⟩
        · exact ⟨_, _, _, rfl, by decide⟩)
      (by decide) rfl rfl).1⟩

/-- C13, as stated, fails: the leave timeout comes before the keepalive.  After the
switch to the tablet mode, an event at time 0 and polls at times 0 and 4900, the state is
Active and in proximity with both flags clear and `lastPacketTime = 4900`; the poll at
`4900 + 201 = 5101` hands back the proximity report with the ready bit clear and leaves
proximity, where the pen report would be the ten bytes shown last. -/
theorem C13_leave_timeout_preempts_keepalive :
    (Intuos5.run (Intuos5.usb_wacom_realize Intuos5.zeroState)
          [Intuos5.Action.setMode 2, Intuos5.Action.event 16384 16384 0 1 0,
           Intuos5.Action.poll { pid := USBToken.IN, ep := 3, status := USBRet.SUCCESS, data := [] }
             [0, 0, 0, 0, 0, 0, 0, 0, 0, 0] 0,
           Intuos5.Action.poll { pid := USBToken.IN, ep := 3, status := USBRet.SUCCESS, data := [] }
             [0, 0, 0, 0, 0, 0, 0, 0, 0, 0] 4900]).mode = 2
    ∧ (Intuos5.run (Intuos5.usb_wacom_realize Intuos5.zeroState)
          [Intuos5.Action.setMode 2, Intuos5.Action.event 16384 16384 0 1 0,
           Intuos5.Action.poll { pid := USBToken.IN, ep := 3, status := USBRet.SUCCESS, data := [] }
             [0, 0, 0, 0, 0, 0, 0, 0, 0, 0] 0,
           Intuos5.Action.poll { pid := USBToken.IN, ep := 3, status := USBRet.SUCCESS, data := [] }
             [0, 0, 0, 0, 0, 0, 0, 0, 0, 0] 4900]).penInProx = true
    ∧ (Intuos5.run (Intuos5.usb_wacom_realize Intuos5.zeroState)
          [Intuos5.Action.setMode 2, Intuos5.Action.event 16384 16384 0 1 0,
           Intuos5.Action.poll { pid := USBToken.IN, ep := 3, status := USBRet.SUCCESS, data := [] }
             [0, 0, 0, 0, 0, 0, 0, 0, 0, 0] 0,
           Intuos5.Action.poll { pid := USBToken.IN, ep := 3, status := USBRet.SUCCESS, data := [] }
             [0, 0, 0, 0, 0, 0, 0, 0, 0, 0] 4900]).changedPen = false
    ∧ (Intuos5.run (Intuos5.usb_wacom_realize Intuos5.zeroState)
          [Intuos5.Action.setMode 2, Intuos5.Action.event 16384 16384 0 1 0,
           Intuos5.Action.poll { pid := USBToken.IN, ep := 3, status := USBRet.SUCCESS, data := [] }
             [0, 0, 0, 0, 0, 0, 0, 0, 0, 0] 0,
           Intuos5.Action.poll { pid := USBToken.IN, ep := 3, status := USBRet.SUCCESS, data := [] }
             [0, 0, 0, 0, 0, 0, 0, 0, 0, 0] 4900]).changedProximity = false
    ∧ (Intuos5.run (Intuos5.usb_wacom_realize Intuos5.zeroState)
          [Intuos5.Action.setMode 2, Intuos5.Action.event 16384 16384 0 1 0,
           Intuos5.Action.poll { pid := USBToken.IN, ep := 3, status := USBRet.SUCCESS, data := [] }
             [0, 0, 0, 0, 0, 0, 0, 0, 0, 0] 0,
           Intuos5.Action.poll { pid := USBToken.IN, ep := 3, status := USBRet.SUCCESS, data := [] }
             [0, 0, 0, 0, 0, 0, 0, 0, 0, 0] 4900]).lastPacketTime = 4900
    ∧ (Intuos5.usb_wacom_handle_data
        (Intuos5.run (Intuos5.usb_wacom_realize Intuos5.zeroState)
          [Intuos5.Action.setMode 2, Intuos5.Action.event 16384 16384 0 1 0,
           Intuos5.Action.poll { pid := USBToken.IN, ep := 3, status := USBRet.SUCCESS, data := [] }
             [0, 0, 0, 0, 0, 0, 0, 0, 0, 0] 0,
           Intuos5.Action.poll { pid := USBToken.IN, ep := 3, status := USBRet.SUCCESS, data := [] }
             [0, 0, 0, 0, 0, 0, 0, 0, 0, 0] 4900])
        { pid := USBToken.IN, ep := 3, status := USBRet.SUCCESS, data := [] }
        [0, 0, 0, 0, 0, 0, 0, 0, 0, 0] 5101).2.data
      = [2, 0x80, 0x80, 0x2F, 0xEE, 0xDC, 0x0D, 0xE0, 0, 0]
    ∧ (Intuos5.usb_wacom_handle_data
        (Intuos5.run (Intuos5.usb_wacom_realize Intuos5.zeroState)
          [Intuos5.Action.setMode 2, Intuos5.Action.event 16384 16384 0 1 0,
           Intuos5.Action.poll { pid := USBToken.IN, ep := 3, status := USBRet.SUCCESS, data := [] }
             [0, 0, 0, 0, 0, 0, 0, 0, 0, 0] 0,
           Intuos5.Action.poll { pid := USBToken.IN, ep := 3, status := USBRet.SUCCESS, data := [] }
             [0, 0, 0, 0, 0, 0, 0, 0, 0, 0] 4900])
        { pid := USBToken.IN, ep := 3, status := USBRet.SUCCESS, data := [] }
        [0, 0, 0, 0, 0, 0, 0, 0, 0, 0] 5101).1.penInProx = false
    ∧ (Intuos5.usb_wacom_poll
        (Intuos5.run (Intuos5.usb_wacom_realize Intuos5.zeroState)
          [Intuos5.Action.setMode 2, Intuos5.Action.event 16384 16384 0 1 0,
           Intuos5.Action.poll { pid := USBToken.IN, ep := 3, status := USBRet.SUCCESS, data := [] }
             [0, 0, 0, 0, 0, 0, 0, 0, 0, 0] 0,
           Intuos5.Action.poll { pid := USBToken.IN, ep := 3, status := USBRet.SUCCESS, data := [] }
             [0, 0, 0, 0, 0, 0, 0, 0, 0, 0] 4900])
        [0, 0, 0, 0, 0, 0, 0, 0, 0, 0] 10).1
      = [2, 0xE0, 43, 168, 27, 73, 111, 96, 64, 0] := by
  decide

/-- C13, amended: the keepalive.  For every Active state in proximity with both flags
clear, a poll at `now = lastPacketTime + 201` that is not more than 5000 ms after the last
event hands back the pen report of the unchanged position, buttons and pressure, and
changes nothing but `lastPacketTime`. -/
theorem C13_keepalive (s : Intuos5.USBWacomState) (p : USBPacket) (buf : List Nat) (now : Int)
    (hpid : p.pid = USBToken.IN) (hep : p.ep = 3)
    (hmode : s.mode = Intuos5.WACOM_MODE_WACOM) (hprox : s.penInProx = true)
    (hpen : s.changedPen = false) (hcp : s.changedProximity = false)
    (hnow : now = s.lastPacketTime + Intuos5.PEN_PING_INTERVAL + 1)
    (hev : now - s.lastInputEventTime ≤ Intuos5.PEN_LEAVE_TIMEOUT) :
    Intuos5.usb_wacom_handle_data s p buf now
      = ({ s with lastPacketTime := now },
          usb_packet_copy p (Intuos5.usb_wacom_poll s buf buf.length).1
            (Intuos5.usb_wacom_poll s buf buf.length).2) := by
  obtain ⟨eh, dx, dy, dz, bs, x, y, pr, mode, idle, pid, vid, lpt, liet, prox, cpen, cprox⟩ := s
  obtain ⟨ppid, pep, pst, pdata⟩ := p
  simp only [Intuos5.WACOM_MODE_WACOM, Intuos5.PEN_PING_INTERVAL, Intuos5.PEN_LEAVE_TIMEOUT]
    at hpid hep hmode hprox hpen hcp hnow hev
  subst hpid hep hmode hprox hpen hcp
  have hl : ¬ now - liet > 5000 := by omega
  have hq : now - lpt > 200 := by omega
  unfold Intuos5.usb_wacom_handle_data
  simp only [Intuos5.WACOM_MODE_WACOM, Intuos5.PEN_LEAVE_TIMEOUT, Intuos5.PEN_PING_INTERVAL]
  simp [hq, hl, usb_packet_copy, Intuos5.usb_wacom_poll]

/-- Witness of `C13_keepalive`: with the last report and the last event at time 0, the
poll at time 201 hands back the pen report again. -/
theorem C13_keepalive_witness :
    ((Intuos5.run (Intuos5.usb_wacom_realize Intuos5.zeroState)
          [Intuos5.Action.setMode 2, Intuos5.Action.event 16384 16384 0 1 0,
           Intuos5.Action.poll { pid := USBToken.IN, ep := 3, status := USBRet.SUCCESS, data := [] }
             [0, 0, 0, 0, 0, 0, 0, 0, 0, 0] 0,
           Intuos5.Action.poll { pid := USBToken.IN, ep := 3, status := USBRet.SUCCESS, data := [] }
             [0, 0, 0, 0, 0, 0, 0, 0, 0, 0] 0]).penInProx = true
      ∧ (Intuos5.run (Intuos5.usb_wacom_realize Intuos5.zeroState)
          [Intuos5.Action.setMode 2, Intuos5.Action.event 16384 16384 0 1 0,
           Intuos5.Action.poll { pid := USBToken.IN, ep := 3, status := USBRet.SUCCESS, data := [] }
             [0, 0, 0, 0, 0, 0, 0, 0, 0, 0] 0,
           Intuos5.Action.poll { pid := USBToken.IN, ep := 3, status := USBRet.SUCCESS, data := [] }
             [0, 0, 0, 0, 0, 0, 0, 0, 0, 0] 0]).changedPen = false
      ∧ (Intuos5.run (Intuos5.usb_wacom_realize Intuos5.zeroState)
          [Intuos5.Action.setMode 2, Intuos5.Action.event 16384 16384 0 1 0,
           Intuos5.Action.poll { pid := USBToken.IN, ep := 3, status := USBRet.SUCCESS, data := [] }
             [0, 0, 0, 0, 0, 0, 0, 0, 0, 0] 0,
           Intuos5.Action.poll { pid := USBToken.IN, ep := 3, status := USBRet.SUCCESS, data := [] }
             [0, 0, 0, 0, 0, 0, 0, 0, 0, 0] 0]).lastPacketTime = 0)
    ∧ (Intuos5.usb_wacom_handle_data
        (Intuos5.run (Intuos5.usb_wacom_realize Intuos5.zeroState)
          [Intuos5.Action.setMode 2, Intuos5.Action.event 16384 16384 0 1 0,
           Intuos5.Action.poll { pid := USBToken.IN, ep := 3, status := USBRet.SUCCESS, data := [] }
             [0, 0, 0, 0, 0, 0, 0, 0, 0, 0] 0,
           Intuos5.Action.poll { pid := USBToken.IN, ep := 3, status := USBRet.SUCCESS, data := [] }
             [0, 0, 0, 0, 0, 0, 0, 0, 0, 0] 0])
        { pid := USBToken.IN, ep := 3, status := USBRet.SUCCESS, data := [] }
        [0, 0, 0, 0, 0, 0, 0, 0, 0, 0] 201).2.data
      = [2, 0xE0, 43, 168, 27, 73, 111, 96, 64, 0] :=
  ⟨by decide,
   (congrArg (fun r => r.2.data)
      (C13_keepalive
        (Intuos5.run (Intuos5.usb_wacom_realize Intuos5.zeroState)
          [Intuos5.Action.setMode 2, Intuos5.Action.event 16384 16384 0 1 0,
           Intuos5.Action.poll { pid := USBToken.IN, ep := 3, status := USBRet.SUCCESS, data := [] }
             [0, 0, 0, 0, 0, 0, 0, 0, 0, 0] 0,
           Intuos5.Action.poll { pid := USBToken.IN, ep := 3, status := USBRet.SUCCESS, data := [] }
             [0, 0, 0, 0, 0, 0, 0, 0, 0, 0] 0])
        { pid := USBToken.IN, ep := 3, status := USBRet.SUCCESS, data := [] }
        [0, 0, 0, 0, 0, 0, 0, 0, 0, 0] 201 rfl rfl (by decide) (by decide) (by decide) (by decide) (by decide)
        (by decide))).trans (by decide)⟩

/-- A poll of the advanced variant with both flags clear and neither timer expired. -/
theorem idle_poll_intuos (s : Intuos5.USBWacomState) (p : USBPacket) (buf : List Nat)
    (now : Int) (hpid : p.pid = USBToken.IN) (hep : p.ep = 3)
    (hmode : s.mode = 2) (hpen : s.changedPen = false) (hcp : s.changedProximity = false)
    (hq : now - s.lastPacketTime ≤ 200) (hl : now - s.lastInputEventTime ≤ 5000) :
    Intuos5.usb_wacom_handle_data s p buf now = (s, { p with status := USBRet.NAK }) := by
  obtain ⟨eh, dx, dy, dz, bs, x, y, pr, mode, idle, pid, vid, lpt, liet, prox, cpen, cprox⟩ := s
  obtain ⟨ppid, pep, pst, pdata⟩ := p
  simp only at hpid hep hmode hpen hcp hq hl
  subst hpid hep hmode hpen hcp
  have hq2 : ¬ now - lpt > 200 := by omega
  have hl2 : ¬ now - liet > 5000 := by omega
  unfold Intuos5.usb_wacom_handle_data
  simp only [Intuos5.WACOM_MODE_WACOM, Intuos5.PEN_LEAVE_TIMEOUT, Intuos5.PEN_PING_INTERVAL]
  simp [hq2, hl2]

/-- A poll of the simple variant with the flag clear and the timer not expired. -/
theorem idle_poll_bamboo (s : Bamboo.USBWacomState) (p : USBPacket) (buf : List Nat)
    (now : Int) (hpid : p.pid = USBToken.IN) (hep : p.ep = 1)
    (hmode : s.mode = 2) (hpen : s.changedPen = false)
    (hq : now - s.lastPacketTime ≤ 100) :
    Bamboo.usb_wacom_handle_data s p buf now = (s, { p with status := USBRet.NAK }) := by
  obtain ⟨eh, dx, dy, dz, bs, x, y, mode, idle, lpt, cpen⟩ := s
  obtain ⟨ppid, pep, pst, pdata⟩ := p
  simp only at hpid hep hmode hpen hq
  subst hpid hep hmode hpen
  have hq2 : ¬ now - lpt > 100 := by omega
  unfold Bamboo.usb_wacom_handle_data
  simp only [Bamboo.WACOM_MODE_WACOM]
  simp [hq2]

/-- C14: the idle poll is a no-op.  For both variants, for every Active state with the
dirty flags clear and times `now1 ≤ now2` with `now2 - lastPacketTime` within the ping
interval (200 ms advanced, 100 ms simple) and, in the advanced variant,
`now2 - lastInputEventTime ≤ 5000`, two consecutive polls at `now1` and `now2` both answer
`USB_RET_NAK` with no data and leave the state, `lastPacketTime` included, unchanged. -/
theorem C14_idle_polls (sI : Intuos5.USBWacomState) (sB : Bamboo.USBWacomState)
    (p1 p2 q1 q2 : USBPacket) (buf1 buf2 : List Nat) (now1 now2 : Int)
    (hp1 : p1.pid = USBToken.IN) (hp1e : p1.ep = 3)
    (hp2 : p2.pid = USBToken.IN) (hp2e : p2.ep = 3)
    (hq1 : q1.pid = USBToken.IN) (hq1e : q1.ep = 1)
    (hq2 : q2.pid = USBToken.IN) (hq2e : q2.ep = 1)
    (hmI : sI.mode = Intuos5.WACOM_MODE_WACOM)
    (hpenI : sI.changedPen = false) (hcpI : sI.changedProximity = false)
    (hmB : sB.mode = Bamboo.WACOM_MODE_WACOM) (hpenB : sB.changedPen = false)
    (hnow : now1 ≤ now2)
    (hpingI : now2 - sI.lastPacketTime ≤ Intuos5.PEN_PING_INTERVAL)
    (hleave : now2 - sI.lastInputEventTime ≤ Intuos5.PEN_LEAVE_TIMEOUT)
    (hpingB : now2 - sB.lastPacketTime ≤ 100) :
    Intuos5.usb_wacom_handle_data sI p1 buf1 now1 = (sI, { p1 with status := USBRet.NAK })
    ∧ Intuos5.usb_wacom_handle_data (Intuos5.usb_wacom_handle_data sI p1 buf1 now1).1
        p2 buf2 now2 = (sI, { p2 with status := USBRet.NAK })
    ∧ Bamboo.usb_wacom_handle_data sB q1 buf1 now1 = (sB, { q1 with status := USBRet.NAK })
    ∧ Bamboo.usb_wacom_handle_data (Bamboo.usb_wacom_handle_data sB q1 buf1 now1).1
        q2 buf2 now2 = (sB, { q2 with status := USBRet.NAK }) := by
  simp only [Intuos5.WACOM_MODE_WACOM, Intuos5.PEN_PING_INTERVAL, Intuos5.PEN_LEAVE_TIMEOUT,
    Bamboo.WACOM_MODE_WACOM] at hmI hmB hpingI hleave
  have a1 := idle_poll_intuos sI p1 buf1 now1 hp1 hp1e hmI hpenI hcpI (by omega) (by omega)
  have a2 := idle_poll_intuos sI p2 buf2 now2 hp2 hp2e hmI hpenI hcpI hpingI hleave
  have b1 := idle_poll_bamboo sB q1 buf1 now1 hq1 hq1e hmB hpenB (by omega)
  have b2 := idle_poll_bamboo sB q2 buf2 now2 hq2 hq2e hmB hpenB hpingB
  refine ⟨a1, ?_, b1, ?_⟩
  · rw [a1]; exact a2
  · rw [b1]; exact b2

/-- Witness of `C14_idle_polls`: an idle Active state polled at times 50 and 100. -/
theorem C14_idle_polls_witness :
    ((50 : Int) ≤ 100 ∧ (100 : Int) - 0 ≤ 200 ∧ (100 : Int) - 0 ≤ 5000)
    ∧ Intuos5.usb_wacom_handle_data
        (Intuos5.usb_wacom_handle_data { Intuos5.zeroState with mode := 2 }
          { pid := USBToken.IN, ep := 3, status := USBRet.SUCCESS, data := [] }
          [0, 0, 0, 0, 0, 0, 0, 0, 0, 0] 50).1
        { pid := USBToken.IN, ep := 3, status := USBRet.SUCCESS, data := [] }
        [0, 0, 0, 0, 0, 0, 0, 0, 0, 0] 100
      = ({ Intuos5.zeroState with mode := 2 },
         { pid := USBToken.IN, ep := 3, status := USBRet.NAK, data := [] }) :=
  ⟨by decide,
   (C14_idle_polls { Intuos5.zeroState with mode := 2 } { Bamboo.zeroState with mode := 2 }
      { pid := USBToken.IN, ep := 3, status := USBRet.SUCCESS, data := [] }
      { pid := USBToken.IN, ep := 3, status := USBRet.SUCCESS, data := [] }
      { pid := USBToken.IN, ep := 1, status := USBRet.SUCCESS, data := [] }
      { pid := USBToken.IN, ep := 1, status := USBRet.SUCCESS, data := [] }
      [0, 0, 0, 0, 0, 0, 0, 0, 0, 0] [0, 0, 0, 0, 0, 0, 0, 0, 0, 0] 50 100
      rfl rfl rfl rfl rfl rfl rfl rfl (by decide) (by decide) (by decide) (by decide)
      (by decide) (by decide) (by decide) (by decide) (by decide)).2.1⟩

/-- A poll that finds a proximity change to announce, the leave timeout not applying. -/
theorem prox_announce_poll (s : Intuos5.USBWacomState) (p : USBPacket) (buf : List Nat)
    (now : Int) (hpid : p.pid = USBToken.IN) (hep : p.ep = 3) (hmode : s.mode = 2)
    (hcp : s.changedProximity = true) (hno : s.penInProx = false ∨ s.changedPen = true) :
    Intuos5.usb_wacom_handle_data s p buf now
      = ({ s with lastPacketTime := now, changedProximity := false },
          usb_packet_copy p (Intuos5.usb_wacom_prox_event s buf buf.length s.penInProx).1
            (Intuos5.usb_wacom_prox_event s buf buf.length s.penInProx).2) := by
  obtain ⟨eh, dx, dy, dz, bs, x, y, pr, mode, idle, pid, vid, lpt, liet, prox, cpen, cprox⟩ := s
  obtain ⟨ppid, pep, pst, pdata⟩ := p
  simp only at hpid hep hmode hcp hno
  subst hpid hep hmode hcp
  unfold Intuos5.usb_wacom_handle_data
  simp only [Intuos5.WACOM_MODE_WACOM, Intuos5.PEN_LEAVE_TIMEOUT, Intuos5.PEN_PING_INTERVAL]
  rcases hno with h | h <;> subst h <;>
    by_cases hq : now - lpt > 200 <;> first
      | (cases cpen <;> simp [hq, usb_packet_copy, Intuos5.usb_wacom_prox_event])
      | (cases prox <;> simp [hq, usb_packet_copy, Intuos5.usb_wacom_prox_event])

/-- A poll in proximity with pen data pending and no proximity change to announce. -/
theorem pen_announce_poll (s : Intuos5.USBWacomState) (p : USBPacket) (buf : List Nat)
    (now : Int) (hpid : p.pid = USBToken.IN) (hep : p.ep = 3) (hmode : s.mode = 2)
    (hcp : s.changedProximity = false) (hpen : s.changedPen = true)
    (hprox : s.penInProx = true) :
    Intuos5.usb_wacom_handle_data s p buf now
      = ({ s with lastPacketTime := now, changedPen := false },
          usb_packet_copy p (Intuos5.usb_wacom_poll s buf buf.length).1
            (Intuos5.usb_wacom_poll s buf buf.length).2) := by
  obtain ⟨eh, dx, dy, dz, bs, x, y, pr, mode, idle, pid, vid, lpt, liet, prox, cpen, cprox⟩ := s
  obtain ⟨ppid, pep, pst, pdata⟩ := p
  simp only at hpid hep hmode hcp hpen hprox
  subst hpid hep hmode hcp hpen hprox
  unfold Intuos5.usb_wacom_handle_data
  simp only [Intuos5.WACOM_MODE_WACOM, Intuos5.PEN_LEAVE_TIMEOUT, Intuos5.PEN_PING_INTERVAL]
  by_cases hq : now - lpt > 200 <;> simp [hq, usb_packet_copy, Intuos5.usb_wacom_poll]

/-- Ten stores into a buffer of at least ten bytes: the stored bytes followed by the
untouched rest. -/
theorem store10_eq (buf : List Nat) (h : 10 ≤ buf.length) (v0 v1 v2 v3 v4 v5 v6 v7 v8 v9 : Nat) :
    store (store (store (store (store (store (store (store (store (store buf
      0 v0) 1 v1) 2 v2) 3 v3) 4 v4) 5 v5) 6 v6) 7 v7) 8 v8) 9 v9
    = [toUInt8 v0, toUInt8 v1, toUInt8 v2, toUInt8 v3, toUInt8 v4, toUInt8 v5, toUInt8 v6,
        toUInt8 v7, toUInt8 v8, toUInt8 v9] ++ buf.drop 10 := by
  rcases buf with _ | ⟨a0, _ | ⟨a1, _ | ⟨a2, _ | ⟨a3, _ | ⟨a4, _ | ⟨a5, _ | ⟨a6, _ | ⟨a7,
    _ | ⟨a8, _ | ⟨a9, rest⟩⟩⟩⟩⟩⟩⟩⟩⟩⟩ <;> simp at h
  simp [store, List.set]

/-- What `usb_packet_copy` hands over from a buffer that starts with the ten report
bytes, for the returned length 10. -/
theorem packet_copy_ten (p : USBPacket) (l rest : List Nat) (h : l.length = 10) :
    usb_packet_copy p (l ++ rest) 10 = { p with data := p.data ++ l } := by
  unfold usb_packet_copy
  have e : (10 : Int).toNat = l.length := by rw [h]; rfl
  rw [e, List.take_left]

/-- The pen report of the scenario state: `x = 22352`, `y = 13970`, pressure 890, primary
button pressed. -/
theorem scenario_pen_report (s : Intuos5.USBWacomState) (buf : List Nat)
    (hx : s.x = 22352) (hy : s.y = 13970) (hp : s.pressure = 890) (hb : s.buttons_state = 1)
    (h10 : 10 ≤ buf.length) :
    Intuos5.usb_wacom_poll s buf buf.length
      = ([2, 0xE0, 43, 168, 27, 73, 111, 96, 64, 0] ++ buf.drop 10, 10) := by
  have hlen : ¬ ((buf.length : Int) < 10) := by omega
  unfold Intuos5.usb_wacom_poll
  rw [if_neg hlen]
  simp only []
  rw [store10_eq buf h10, hx, hy, hp, hb]
  rfl

/-- C15, as stated, fails in its last part: the status byte of the advanced pen report
has no primary-button bit.  In the scenario run on a created and reset device with all
times 0, the third poll hands back the ten bytes shown: the status byte is `0xE0`, its
bit 0 is clear, and it is the same `0xE0` when the event carries no button at all; the
primary button only changes the pressure and distance bytes. -/
theorem C15_status_byte_has_no_primary_bit :
    (Intuos5.usb_wacom_handle_data
        (Intuos5.run (Intuos5.usb_wacom_handle_reset (Intuos5.usb_wacom_realize Intuos5.zeroState))
          [Intuos5.Action.setMode 2,
           Intuos5.Action.poll { pid := USBToken.IN, ep := 3, status := USBRet.SUCCESS, data := [] }
             [0, 0, 0, 0, 0, 0, 0, 0, 0, 0] 0,
           Intuos5.Action.event 16384 16384 0 1 0,
           Intuos5.Action.poll { pid := USBToken.IN, ep := 3, status := USBRet.SUCCESS, data := [] }
             [0, 0, 0, 0, 0, 0, 0, 0, 0, 0] 0])
        { pid := USBToken.IN, ep := 3, status := USBRet.SUCCESS, data := [] }
        [0, 0, 0, 0, 0, 0, 0, 0, 0, 0] 0).2.data
      = [2, 0xE0, 43, 168, 27, 73, 111, 96, 64, 0]
    ∧ (0xE0 : Nat) &&& MOUSE_EVENT_LBUTTON = 0
    ∧ (Intuos5.usb_wacom_handle_data
        (Intuos5.run (Intuos5.usb_wacom_handle_reset (Intuos5.usb_wacom_realize Intuos5.zeroState))
          [Intuos5.Action.setMode 2,
           Intuos5.Action.poll { pid := USBToken.IN, ep := 3, status := USBRet.SUCCESS, data := [] }
             [0, 0, 0, 0, 0, 0, 0, 0, 0, 0] 0,
           Intuos5.Action.event 16384 16384 0 0 0,
           Intuos5.Action.poll { pid := USBToken.IN, ep := 3, status := USBRet.SUCCESS, data := [] }
             [0, 0, 0, 0, 0, 0, 0, 0, 0, 0] 0])
        { pid := USBToken.IN, ep := 3, status := USBRet.SUCCESS, data := [] }
        [0, 0, 0, 0, 0, 0, 0, 0, 0, 0] 0).2.data
      = [2, 0xE0, 43, 168, 27, 73, 0, 0x20, 0x40, 40] := by
  decide

/-- C15, amended: the end-to-end scenario on a created and reset device, for all poll and
event times and all buffers of at least 9, 9 and 10 bytes.  After the switch to the
tablet mode the first poll hands back the proximity report with tag 2 and the ready bit
clear (`0x80`); after the event `(16384, 16384, 0, primary)` the next poll hands back the
proximity report with the ready bit set (`0xC2`); the poll after that hands back the pen
report whose encoded `x` is `22352 = RES_X / 2` and whose status byte is `0xE0`: the
primary button is carried by the pressure `890` in bytes 6, 7 and the distance 0 in
byte 9, not by a bit of the status byte. -/
theorem C15_end_to_end (s0 : Intuos5.USBWacomState) (p1 p2 p3 : USBPacket)
    (buf1 buf2 buf3 : List Nat) (t1 te t2 t3 : Int)
    (h1 : p1.pid = USBToken.IN) (h1e : p1.ep = 3)
    (h2 : p2.pid = USBToken.IN) (h2e : p2.ep = 3)
    (h3 : p3.pid = USBToken.IN) (h3e : p3.ep = 3)
    (hb1 : 9 ≤ buf1.length) (hb2 : 9 ≤ buf2.length) (hb3 : 10 ≤ buf3.length) :
    (Intuos5.usb_wacom_handle_data
        (Intuos5.run (Intuos5.usb_wacom_handle_reset (Intuos5.usb_wacom_realize s0))
          [Intuos5.Action.setMode 2])
        p1 buf1 t1).2
      = { p1 with data := p1.data
            ++ ([2, 0x80, 0x80, 0x2F, 0xEE, 0xDC, 0x0D, 0xE0, 0x00] ++ buf1.drop 9) }
    ∧ (Intuos5.usb_wacom_handle_data
        (Intuos5.run (Intuos5.usb_wacom_handle_reset (Intuos5.usb_wacom_realize s0))
          [Intuos5.Action.setMode 2, Intuos5.Action.poll p1 buf1 t1,
           Intuos5.Action.event 16384 16384 0 MOUSE_EVENT_LBUTTON te])
        p2 buf2 t2).2
      = { p2 with data := p2.data
            ++ ([2, 0xC2, 0x80, 0x2F, 0xEE, 0xDC, 0x0D, 0xE0, 0x00] ++ buf2.drop 9) }
    ∧ (Intuos5.usb_wacom_handle_data
        (Intuos5.run (Intuos5.usb_wacom_handle_reset (Intuos5.usb_wacom_realize s0))
          [Intuos5.Action.setMode 2, Intuos5.Action.poll p1 buf1 t1,
           Intuos5.Action.event 16384 16384 0 MOUSE_EVENT_LBUTTON te,
           Intuos5.Action.poll p2 buf2 t2])
        p3 buf3 t3).2
      = { p3 with data := p3.data ++ [2, 0xE0, 43, 168, 27, 73, 111, 96, 64, 0] }
    ∧ ((43 <<< 9) ||| (168 <<< 1) ||| ((0 >>> 1) &&& 1) : Nat) = 22352
    ∧ (111 <<< 3) ||| ((96 >>> 5) &&& 6) ||| (0xE0 &&& 1) = 890
    ∧ (0 : Nat) >>> 2 = 0 := by
  have e1 := prox_announce_poll
    (Intuos5.usb_wacom_set_tablet_mode
      (Intuos5.usb_wacom_handle_reset (Intuos5.usb_wacom_realize s0)) 2)
    p1 buf1 t1 h1 h1e rfl rfl (Or.inl rfl)
  have e2 := prox_announce_poll
    (Intuos5.usb_wacom_event
      (Intuos5.usb_wacom_handle_data
        (Intuos5.usb_wacom_set_tablet_mode
          (Intuos5.usb_wacom_handle_reset (Intuos5.usb_wacom_realize s0)) 2) p1 buf1 t1).1
      16384 16384 0 MOUSE_EVENT_LBUTTON te)
    p2 buf2 t2 h2 h2e (by rw [e1]; rfl) (by rw [e1]; rfl) (Or.inr (by rw [e1]; rfl))
  have e3 := pen_announce_poll
    (Intuos5.usb_wacom_handle_data
      (Intuos5.usb_wacom_event
        (Intuos5.usb_wacom_handle_data
          (Intuos5.usb_wacom_set_tablet_mode
            (Intuos5.usb_wacom_handle_reset (Intuos5.usb_wacom_realize s0)) 2) p1 buf1 t1).1
        16384 16384 0 MOUSE_EVENT_LBUTTON te) p2 buf2 t2).1
    p3 buf3 t3 h3 h3e (by rw [e2, e1]; rfl) (by rw [e2]) (by rw [e2, e1]; rfl)
      (by rw [e2, e1]; rfl)
  refine ⟨?_, ?_, ?_, by decide, by decide, by decide⟩
  · show (Intuos5.usb_wacom_handle_data (Intuos5.usb_wacom_set_tablet_mode
      (Intuos5.usb_wacom_handle_reset (Intuos5.usb_wacom_realize s0)) 2) p1 buf1 t1).2 = _
    rw [e1]
    show usb_packet_copy p1 (Intuos5.usb_wacom_prox_event s0 buf1 buf1.length false).1
      (Intuos5.usb_wacom_prox_event s0 buf1 buf1.length false).2 = _
    rw [prox_event_eq s0 buf1 false hb1]
    exact packet_copy_full p1 _ buf1.length (by simp; omega)
  · show (Intuos5.usb_wacom_handle_data (Intuos5.usb_wacom_event
      (Intuos5.usb_wacom_handle_data (Intuos5.usb_wacom_set_tablet_mode
        (Intuos5.usb_wacom_handle_reset (Intuos5.usb_wacom_realize s0)) 2) p1 buf1 t1).1
      16384 16384 0 MOUSE_EVENT_LBUTTON te) p2 buf2 t2).2 = _
    rw [e2]
    have hp : (Intuos5.usb_wacom_event
      (Intuos5.usb_wacom_handle_data (Intuos5.usb_wacom_set_tablet_mode
        (Intuos5.usb_wacom_handle_reset (Intuos5.usb_wacom_realize s0)) 2) p1 buf1 t1).1
      16384 16384 0 MOUSE_EVENT_LBUTTON te).penInProx = true := by rw [e1]; rfl
    rw [hp]
    show usb_packet_copy p2 (Intuos5.usb_wacom_prox_event s0 buf2 buf2.length true).1
      (Intuos5.usb_wacom_prox_event s0 buf2 buf2.length true).2 = _
    rw [prox_event_eq s0 buf2 true hb2]
    exact packet_copy_full p2 _ buf2.length (by simp; omega)
  · show (Intuos5.usb_wacom_handle_data (Intuos5.usb_wacom_handle_data
      (Intuos5.usb_wacom_event
        (Intuos5.usb_wacom_handle_data (Intuos5.usb_wacom_set_tablet_mode
          (Intuos5.usb_wacom_handle_reset (Intuos5.usb_wacom_realize s0)) 2) p1 buf1 t1).1
        16384 16384 0 MOUSE_EVENT_LBUTTON te) p2 buf2 t2).1 p3 buf3 t3).2 = _
    rw [e3]
    show usb_packet_copy p3 _ _ = _
    rw [scenario_pen_report _ buf3 (by rw [e2, e1]; rfl) (by rw [e2, e1]; rfl)
      (by rw [e2, e1]; rfl) (by rw [e2, e1]; rfl) hb3]
    exact packet_copy_ten p3 _ _ rfl

/-- Witness of `C15_end_to_end`: the scenario with all times 0 and ten-byte buffers. -/
theorem C15_end_to_end_witness :
    ((9 : Nat) ≤ 10 ∧ (10 : Nat) ≤ 10)
    ∧ (Intuos5.usb_wacom_handle_data
        (Intuos5.run (Intuos5.usb_wacom_handle_reset (Intuos5.usb_wacom_realize Intuos5.zeroState))
          [Intuos5.Action.setMode 2,
           Intuos5.Action.poll { pid := USBToken.IN, ep := 3, status := USBRet.SUCCESS, data := [] }
             [0, 0, 0, 0, 0, 0, 0, 0, 0, 0] 0,
           Intuos5.Action.event 16384 16384 0 MOUSE_EVENT_LBUTTON 0,
           Intuos5.Action.poll { pid := USBToken.IN, ep := 3, status := USBRet.SUCCESS, data := [] }
             [0, 0, 0, 0, 0, 0, 0, 0, 0, 0] 0])
        { pid := USBToken.IN, ep := 3, status := USBRet.SUCCESS, data := [] }
        [0, 0, 0, 0, 0, 0, 0, 0, 0, 0] 0).2
      = { pid := USBToken.IN, ep := 3, status := USBRet.SUCCESS,
          data := [2, 0xE0, 43, 168, 27, 73, 111, 96, 64, 0] } :=
  ⟨by decide,
   (C15_end_to_end Intuos5.zeroState
      { pid := USBToken.IN, ep := 3, status := USBRet.SUCCESS, data := [] }
      { pid := USBToken.IN, ep := 3, status := USBRet.SUCCESS, data := [] }
      { pid := USBToken.IN, ep := 3, status := USBRet.SUCCESS, data := [] }
      [0, 0, 0, 0, 0, 0, 0, 0, 0, 0] [0, 0, 0, 0, 0, 0, 0, 0, 0, 0] [0, 0, 0, 0, 0, 0, 0, 0, 0, 0] 0 0 0 0
      rfl rfl rfl rfl rfl rfl (by decide) (by decide) (by decide)).2.2.1⟩

/-! ## Invariants and the mode switch (claims C16 to C20) -/

/-- What a data transfer leaves alone: everything but the proximity, the two flags and
the time of the last report; and proximity is never entered by a transfer. -/
theorem handle_data_frame (s : Intuos5.USBWacomState) (p : USBPacket) (buf : List Nat)
    (now : Int) :
    (Intuos5.usb_wacom_handle_data s p buf now).1.pressure = s.pressure
    ∧ (Intuos5.usb_wacom_handle_data s p buf now).1.mode = s.mode
    ∧ (Intuos5.usb_wacom_handle_data s p buf now).1.eh_entry = s.eh_entry
    ∧ ((Intuos5.usb_wacom_handle_data s p buf now).1.penInProx = true → s.penInProx = true) := by
  obtain ⟨eh, dx, dy, dz, bs, x, y, pr, mode, idle, pid, vid, lpt, liet, prox, cpen, cprox⟩ := s
  obtain ⟨ppid, pep, pst, pdata⟩ := p
  unfold Intuos5.usb_wacom_handle_data
  simp only [Intuos5.WACOM_MODE_WACOM, Intuos5.PEN_LEAVE_TIMEOUT, Intuos5.PEN_PING_INTERVAL]
  cases ppid
  · by_cases h2 : pep = 2
    · simp [h2]
    · by_cases h3 : pep = 3
      · subst h3
        by_cases hm : mode = 2
        · subst hm
          by_cases hl : now - liet > 5000 <;> by_cases hq : now - lpt > 200 <;>
            cases prox <;> cases cpen <;> cases cprox <;> simp [hq, hl]
        · simp [hm]
      · simp [h2, h3]
  · simp
  · simp

/-- What the mode switch leaves: pressure untouched, the handle non-null exactly for the
tablet mode, the pen out of proximity. -/
theorem set_tablet_mode_effect (s : Intuos5.USBWacomState) (mode : Int) :
    (Intuos5.usb_wacom_set_tablet_mode s mode).pressure = s.pressure
    ∧ (Intuos5.usb_wacom_set_tablet_mode s mode).mode = mode
    ∧ ((Intuos5.usb_wacom_set_tablet_mode s mode).eh_entry = true ↔ mode = 2)
    ∧ (Intuos5.usb_wacom_set_tablet_mode s mode).penInProx = false := by
  unfold Intuos5.usb_wacom_set_tablet_mode
  by_cases h : mode = Intuos5.WACOM_MODE_WACOM
  · simp [h, Intuos5.WACOM_MODE_WACOM]
  · have h2 : ¬ mode = 2 := h
    simp [h, h2]

/-- What the `WACOM_SET_REPORT` case does to the state: nothing, a mode switch, or
setting both flags. -/
theorem control_set_report_cases (s : Intuos5.USBWacomState) (d0 : Nat) :
    Intuos5.control_set_report s d0 = s
    ∨ Intuos5.control_set_report s d0 = Intuos5.usb_wacom_set_tablet_mode s d0
    ∨ Intuos5.control_set_report s d0 = { s with changedPen := true, changedProximity := true } := by
  unfold Intuos5.control_set_report
  split_ifs
  all_goals first
    | exact Or.inl rfl
    | exact Or.inr (Or.inl rfl)
    | exact Or.inr (Or.inr rfl)

/-- Case analysis of the state left by a control request: it is the state itself, a mode
switch of it, the state with both flags set, or the state with another idle rate. -/
theorem handle_control_ind (Q : Intuos5.USBWacomState → Prop) (s : Intuos5.USBWacomState)
    (t : ControlTransfer) (request value index length desc_ret : Int)
    (h1 : Q s) (h2 : ∀ m : Int, Q (Intuos5.usb_wacom_set_tablet_mode s m))
    (h3 : Q { s with changedPen := true, changedProximity := true })
    (h4 : ∀ i : Nat, Q { s with idle := i }) :
    Q (Intuos5.usb_wacom_handle_control s t request value index length desc_ret).1 := by
  have hs : Q (Intuos5.control_set_report s (t.data.getD 0 0)) := by
    rcases control_set_report_cases s (t.data.getD 0 0) with h | h | h <;> rw [h]
    · exact h1
    · exact h2 _
    · exact h3
  unfold Intuos5.usb_wacom_handle_control
  by_cases c0 : desc_ret ≥ 0
  · rw [if_pos c0]; exact h1
  rw [if_neg c0]
  by_cases c : Intuos5.isCase request ClassInterfaceOutRequest Intuos5.WACOM_SET_REPORT = true
  · rw [if_pos c]; exact hs
  rw [if_neg c]
  clear c
  by_cases c : Intuos5.isCase request ClassInterfaceOutRequest Intuos5.WACOM_GET_REPORT = true
  · rw [if_pos c]; exact h1
  rw [if_neg c]
  clear c
  by_cases c : Intuos5.isCase request ClassInterfaceOutRequest Intuos5.HID_SET_PROTOCOL = true
  · rw [if_pos c]; exact h1
  rw [if_neg c]
  clear c
  by_cases c : Intuos5.isCase request InterfaceRequest USB_REQ_GET_DESCRIPTOR = true
  · rw [if_pos c]; exact h1
  rw [if_neg c]
  clear c
  by_cases c : Intuos5.isCase request DeviceRequest USB_REQ_GET_DESCRIPTOR = true
  · rw [if_pos c]; exact h1
  rw [if_neg c]
  clear c
  by_cases c : Intuos5.isCase request EndpointOutRequest USB_REQ_CLEAR_FEATURE = true
  · rw [if_pos c]; exact h1
  rw [if_neg c]
  clear c
  by_cases c : Intuos5.isCase request ClassInterfaceRequest Intuos5.HID_GET_REPORT = true
  · rw [if_pos c]; exact h1
  rw [if_neg c]
  clear c
  by_cases c : Intuos5.isCase request ClassInterfaceRequest Intuos5.HID_GET_IDLE = true
  · rw [if_pos c]; exact h1
  rw [if_neg c]
  clear c
  by_cases c : Intuos5.isCase request ClassInterfaceOutRequest Intuos5.HID_SET_IDLE = true
  · rw [if_pos c]; exact h4 _
  rw [if_neg c]
  clear c
  exact h1

theorem int_clamp_bounds (v lo hi : Int) (h : lo ≤ hi) :
    lo ≤ int_clamp v lo hi ∧ int_clamp v lo hi ≤ hi := by
  unfold int_clamp
  split_ifs <;> constructor <;> omega

/-- The pressure a pointer event leaves: the clamp of the 32-bit difference. -/
theorem event_pressure_wrapped (s : Intuos5.USBWacomState) (x y dz b now : Int) :
    (Intuos5.usb_wacom_event s x y dz b now).pressure
      = int_clamp (wrap32 (s.pressure - wrap32 (dz * 128))) 128 2047 := by
  unfold Intuos5.usb_wacom_event
  cases h : s.penInProx <;> simp [h] <;> rfl

/-- The wheel accumulator a pointer event leaves: the 32-bit sum. -/
theorem event_wheel_wrapped (s : Intuos5.USBWacomState) (x y dz b now : Int) :
    (Intuos5.usb_wacom_event s x y dz b now).dz = wrap32 (s.dz + dz) := by
  unfold Intuos5.usb_wacom_event
  cases h : s.penInProx <;> simp [h]

/-- While the product `dz * 128` and the difference `pressure - dz * 128` fit in 32 bits,
the pressure a pointer event leaves is the clamp of the exact difference. -/
theorem event_pressure (s : Intuos5.USBWacomState) (x y dz b now : Int)
    (h1 : -2147483648 ≤ dz * 128) (h2 : dz * 128 ≤ 2147483647)
    (h3 : -2147483648 ≤ s.pressure - dz * 128) (h4 : s.pressure - dz * 128 ≤ 2147483647) :
    (Intuos5.usb_wacom_event s x y dz b now).pressure
      = int_clamp (s.pressure - dz * 128) 128 2047 := by
  rw [event_pressure_wrapped, wrap32_of_inRange (dz * 128) h1 (by omega),
    wrap32_of_inRange (s.pressure - dz * 128) h3 (by omega)]

/-- No call but a pointer event changes the pressure, and a pointer event leaves it
within the clamp bounds. -/
theorem step_pressure (s : Intuos5.USBWacomState) (a : Intuos5.Action)
    (h : 128 ≤ s.pressure ∧ s.pressure ≤ 2047) :
    128 ≤ (Intuos5.step s a).pressure ∧ (Intuos5.step s a).pressure ≤ 2047 := by
  cases a with
  | reset =>
    have e : (Intuos5.step s Intuos5.Action.reset).pressure = s.pressure := by
      show (Intuos5.usb_wacom_handle_reset s).pressure = s.pressure
      unfold Intuos5.usb_wacom_handle_reset
      rw [(set_tablet_mode_effect _ _).1]
    rw [e]; exact h
  | setMode mode =>
    have e : (Intuos5.step s (Intuos5.Action.setMode mode)).pressure = s.pressure :=
      (set_tablet_mode_effect s mode).1
    rw [e]; exact h
  | event x y dz b now =>
    have e : (Intuos5.step s (Intuos5.Action.event x y dz b now)).pressure
        = int_clamp (wrap32 (s.pressure - wrap32 (dz * 128))) 128 2047 :=
      event_pressure_wrapped s x y dz b now
    rw [e]
    exact int_clamp_bounds _ 128 2047 (by norm_num)
  | poll p buf now =>
    have e : (Intuos5.step s (Intuos5.Action.poll p buf now)).pressure = s.pressure :=
      (handle_data_frame s p buf now).1
    rw [e]; exact h
  | control t request value index length desc_ret =>
    have e : (Intuos5.step s (Intuos5.Action.control t request value index length
        desc_ret)).pressure = s.pressure :=
      handle_control_ind (fun q => q.pressure = s.pressure) s t request value index
        length desc_ret rfl (fun m => (set_tablet_mode_effect s m).1) rfl (fun _ => rfl)
    rw [e]; exact h

theorem run_pressure (acts : List Intuos5.Action) :
    ∀ s : Intuos5.USBWacomState, (128 ≤ s.pressure ∧ s.pressure ≤ 2047) →
      128 ≤ (Intuos5.run s acts).pressure ∧ (Intuos5.run s acts).pressure ≤ 2047 := by
  induction acts with
  | nil => intro s h; exact h
  | cons a rest ih => intro s h; exact ih _ (step_pressure s a h)

/-- C16: the pressure stays within its bounds.  In every state reached from device
creation (`usb_wacom_realize`) by any sequence of resets, mode switches, pointer events
with arbitrary wheel deltas, data transfers and control requests,
`128 ≤ pressure ≤ 2047`. -/
theorem C16_pressure_in_bounds (s0 : Intuos5.USBWacomState) (acts : List Intuos5.Action) :
    Intuos5.TABLET_POINTER_DOWN_MIN_PRESSURE
        ≤ (Intuos5.run (Intuos5.usb_wacom_realize s0) acts).pressure
    ∧ (Intuos5.run (Intuos5.usb_wacom_realize s0) acts).pressure ≤ Intuos5.TABLET_MAX_PRESSURE
    ∧ Intuos5.TABLET_POINTER_DOWN_MIN_PRESSURE = 128
    ∧ Intuos5.TABLET_MAX_PRESSURE = 2047 := by
  have base : 128 ≤ (Intuos5.usb_wacom_realize s0).pressure
      ∧ (Intuos5.usb_wacom_realize s0).pressure ≤ 2047 := by
    unfold Intuos5.usb_wacom_realize
    rw [(set_tablet_mode_effect _ _).1]
    show (128 : Int) ≤ Intuos5.TABLET_CLICK_PRESSURE ∧ Intuos5.TABLET_CLICK_PRESSURE ≤ (2047 : Int)
    decide
  have h := run_pressure acts _ base
  exact ⟨h.1, h.2, rfl, by decide⟩

/-- A run of pointer events with negative wheel deltas, of a size for which the 32-bit
arithmetic does not wrap, raises the pressure by at least 128 per event until the upper
clamp bound. -/
theorem neg_run_raises (acts : List Intuos5.Action) :
    ∀ s : Intuos5.USBWacomState, (128 ≤ s.pressure ∧ s.pressure ≤ 2047) →
      (∀ a ∈ acts, ∃ x y dz b t, a = Intuos5.Action.event x y dz b t
        ∧ -16777200 ≤ dz ∧ dz ≤ -1) →
      min (s.pressure + 128 * acts.length) 2047 ≤ (Intuos5.run s acts).pressure
      ∧ (Intuos5.run s acts).pressure ≤ 2047 := by
  induction acts with
  | nil =>
    intro s h _
    simp only [List.length_nil, Nat.cast_zero, mul_zero, add_zero]
    exact ⟨min_le_left _ _, h.2⟩
  | cons a rest ih =>
    intro s h hall
    obtain ⟨x, y, dz, b, t, rfl, hlo, hdz⟩ := hall _ (List.mem_cons_self _ _)
    have e : (Intuos5.usb_wacom_event s x y dz b t).pressure
        = int_clamp (s.pressure - dz * 128) 128 2047 :=
      event_pressure s x y dz b t (by omega) (by omega) (by omega) (by omega)
    have hb := int_clamp_bounds (s.pressure - dz * 128) 128 2047 (by norm_num)
    rw [← e] at hb
    have r := ih (Intuos5.usb_wacom_event s x y dz b t) hb
      (fun a ha => hall a (List.mem_cons_of_mem _ ha))
    have lo : min (s.pressure + 128) 2047 ≤ (Intuos5.usb_wacom_event s x y dz b t).pressure := by
      rw [e]
      unfold int_clamp
      split_ifs <;> omega
    refine ⟨?_, r.2⟩
    have r1 := r.1
    show _ ≤ (Intuos5.run (Intuos5.usb_wacom_event s x y dz b t) rest).pressure
    simp only [List.length_cons, Nat.cast_add, Nat.cast_one]
    omega

/-- A run of pointer events with positive wheel deltas, of a size for which the 32-bit
arithmetic does not wrap, lowers the pressure by at least 128 per event until the lower
clamp bound. -/
theorem pos_run_lowers (acts : List Intuos5.Action) :
    ∀ s : Intuos5.USBWacomState, (128 ≤ s.pressure ∧ s.pressure ≤ 2047) →
      (∀ a ∈ acts, ∃ x y dz b t, a = Intuos5.Action.event x y dz b t
        ∧ 1 ≤ dz ∧ dz ≤ 16777200) →
      (Intuos5.run s acts).pressure ≤ max (s.pressure - 128 * acts.length) 128
      ∧ 128 ≤ (Intuos5.run s acts).pressure := by
  induction acts with
  | nil =>
    intro s h _
    simp only [List.length_nil, Nat.cast_zero, mul_zero, sub_zero]
    exact ⟨le_max_left _ _, h.1⟩
  | cons a rest ih =>
    intro s h hall
    obtain ⟨x, y, dz, b, t, rfl, hdz, hhi⟩ := hall _ (List.mem_cons_self _ _)
    have e : (Intuos5.usb_wacom_event s x y dz b t).pressure
        = int_clamp (s.pressure - dz * 128) 128 2047 :=
      event_pressure s x y dz b t (by omega) (by omega) (by omega) (by omega)
    have hb := int_clamp_bounds (s.pressure - dz * 128) 128 2047 (by norm_num)
    rw [← e] at hb
    have r := ih (Intuos5.usb_wacom_event s x y dz b t) hb
      (fun a ha => hall a (List.mem_cons_of_mem _ ha))
    have hi : (Intuos5.usb_wacom_event s x y dz b t).pressure ≤ max (s.pressure - 128) 128 := by
      rw [e]
      unfold int_clamp
      split_ifs <;> omega
    refine ⟨?_, r.2⟩
    have r1 := r.1
    show (Intuos5.run (Intuos5.usb_wacom_event s x y dz b t) rest).pressure ≤ _
    simp only [List.length_cons, Nat.cast_add, Nat.cast_one]
    omega

/-- A run of pointer events whose wheel delta times 128 wraps to 0 leaves the pressure
890 where it is. -/
theorem still_run_keeps_pressure (n : Nat) :
    ∀ (s : Intuos5.USBWacomState) (dz : Int), s.pressure = 890 → wrap32 (dz * 128) = 0 →
      (Intuos5.run s (List.replicate n (Intuos5.Action.event 0 0 dz 0 0))).pressure = 890 := by
  induction n with
  | zero => intro s dz h _; exact h
  | succ k ih =>
    intro s dz h hw
    have e : (Intuos5.usb_wacom_event s 0 0 dz 0 0).pressure = 890 := by
      rw [event_pressure_wrapped, hw, h]
      decide
    exact ih (Intuos5.usb_wacom_event s 0 0 dz 0 0) dz e hw

/-- C17, as stated, fails: the direction is the opposite one.  The event computes
`pressure - dz * 128`, so from the initial pressure 890 one event with `dz = -1` raises
the pressure to 1018, fifteen of them reach 2047, no run of them of any length brings
it below 890, and fifteen events with `dz = 1` bring it down to 128.  The computation is
in 32-bit arithmetic: for the large deltas `2^25` and `-2^25` the product `dz * 128`
wraps to 0 and no run of such events moves the pressure off 890, and for `-2^24` the
difference wraps and the pressure drops to 128. -/
theorem C17_negative_deltas_raise_pressure :
    (Intuos5.step (Intuos5.usb_wacom_realize Intuos5.zeroState)
        (Intuos5.Action.event 0 0 (-1) 0 0)).pressure = 1018
    ∧ (Intuos5.run (Intuos5.usb_wacom_realize Intuos5.zeroState)
        (List.replicate 15 (Intuos5.Action.event 0 0 (-1) 0 0))).pressure = 2047
    ∧ (Intuos5.run (Intuos5.usb_wacom_realize Intuos5.zeroState)
        (List.replicate 15 (Intuos5.Action.event 0 0 1 0 0))).pressure = 128
    ∧ (∀ n : Nat, 890 ≤ (Intuos5.run (Intuos5.usb_wacom_realize Intuos5.zeroState)
        (List.replicate n (Intuos5.Action.event 0 0 (-1) 0 0))).pressure)
    ∧ (∀ n : Nat, (Intuos5.run (Intuos5.usb_wacom_realize Intuos5.zeroState)
        (List.replicate n (Intuos5.Action.event 0 0 33554432 0 0))).pressure = 890)
    ∧ (∀ n : Nat, (Intuos5.run (Intuos5.usb_wacom_realize Intuos5.zeroState)
        (List.replicate n (Intuos5.Action.event 0 0 (-33554432) 0 0))).pressure = 890)
    ∧ (Intuos5.step (Intuos5.usb_wacom_realize Intuos5.zeroState)
        (Intuos5.Action.event 0 0 (-16777216) 0 0)).pressure = 128 := by
  have e : (Intuos5.usb_wacom_realize Intuos5.zeroState).pressure = 890 := by decide
  refine ⟨by decide, ?_, ?_, ?_, fun n => still_run_keeps_pressure n _ 33554432 e (by decide),
    fun n => still_run_keeps_pressure n _ (-33554432) e (by decide), by decide⟩
  · have r := neg_run_raises (List.replicate 15 (Intuos5.Action.event 0 0 (-1) 0 0))
      (Intuos5.usb_wacom_realize Intuos5.zeroState) (by decide)
      (fun a ha => ⟨0, 0, -1, 0, 0, List.eq_of_mem_replicate ha, by decide⟩)
    have r1 := r.1
    have r2 := r.2
    rw [e, List.length_replicate] at r1
    norm_num at r1
    omega
  · have r := pos_run_lowers (List.replicate 15 (Intuos5.Action.event 0 0 1 0 0))
      (Intuos5.usb_wacom_realize Intuos5.zeroState) (by decide)
      (fun a ha => ⟨0, 0, 1, 0, 0, List.eq_of_mem_replicate ha, by decide⟩)
    have r1 := r.1
    have r2 := r.2
    rw [e, List.length_replicate] at r1
    norm_num at r1
    omega
  · intro n
    have r := neg_run_raises (List.replicate n (Intuos5.Action.event 0 0 (-1) 0 0))
      (Intuos5.usb_wacom_realize Intuos5.zeroState) (by decide)
      (fun a ha => ⟨0, 0, -1, 0, 0, List.eq_of_mem_replicate ha, by decide⟩)
    have r1 := r.1
    rw [e] at r1
    omega

/-- C17, amended: the clamp directions.  Starting from any in-bounds pressure, a run of
at least 15 events with negative wheel deltas saturates the pressure at `2047` and never
above it, and a run of at least 15 events with positive wheel deltas drives it down to
`128` and never below it, for wheel deltas of magnitude at most `16777200 = 2^24 - 16`,
for which the 32-bit computation of `pressure - dz * 128` does not wrap; along any run,
of any events, the pressure stays within `[128, 2047]`. -/
theorem C17_pressure_direction (s : Intuos5.USBWacomState) (acts : List Intuos5.Action)
    (hb : Intuos5.TABLET_POINTER_DOWN_MIN_PRESSURE ≤ s.pressure
      ∧ s.pressure ≤ Intuos5.TABLET_MAX_PRESSURE)
    (hlen : 15 ≤ acts.length) :
    ((∀ a ∈ acts, ∃ x y dz b t, a = Intuos5.Action.event x y dz b t
        ∧ -16777200 ≤ dz ∧ dz < 0) →
      (Intuos5.run s acts).pressure = 2047)
    ∧ ((∀ a ∈ acts, ∃ x y dz b t, a = Intuos5.Action.event x y dz b t
        ∧ 0 < dz ∧ dz ≤ 16777200) →
      (Intuos5.run s acts).pressure = 128)
    ∧ (∀ pre : List Intuos5.Action,
        128 ≤ (Intuos5.run s pre).pressure ∧ (Intuos5.run s pre).pressure ≤ 2047) := by
  have hb2 : 128 ≤ s.pressure ∧ s.pressure ≤ 2047 := ⟨hb.1, by
    have := hb.2
    simpa [Intuos5.TABLET_MAX_PRESSURE] using this⟩
  have hl : (15 : Int) ≤ (acts.length : Int) := by exact_mod_cast hlen
  refine ⟨?_, ?_, fun pre => run_pressure pre s hb2⟩
  · intro hall
    have r := neg_run_raises acts s hb2 (fun a ha => by
      obtain ⟨x, y, dz, b, t, e, hlo, h⟩ := hall a ha
      exact ⟨x, y, dz, b, t, e, hlo, by omega⟩)
    have r1 := r.1
    have r2 := r.2
    omega
  · intro hall
    have r := pos_run_lowers acts s hb2 (fun a ha => by
      obtain ⟨x, y, dz, b, t, e, h, hhi⟩ := hall a ha
      exact ⟨x, y, dz, b, t, e, by omega, hhi⟩)
    have r1 := r.1
    have r2 := r.2
    omega

/-- Witness of `C17_pressure_direction`: fifteen events with `dz = -1` from the initial
pressure 890. -/
theorem C17_pressure_direction_witness :
    ((128 : Int) ≤ 890 ∧ (890 : Int) ≤ 2047
      ∧ 15 ≤ (List.replicate 15 (Intuos5.Action.event 0 0 (-1) 0 0)).length)
    ∧ (Intuos5.run (Intuos5.usb_wacom_realize Intuos5.zeroState)
        (List.replicate 15 (Intuos5.Action.event 0 0 (-1) 0 0))).pressure = 2047 :=
  ⟨by decide,
   (C17_pressure_direction (Intuos5.usb_wacom_realize Intuos5.zeroState)
      (List.replicate 15 (Intuos5.Action.event 0 0 (-1) 0 0)) (by decide) (by decide)).1
      (fun a ha => ⟨0, 0, -1, 0, 0, List.eq_of_mem_replicate ha, by decide⟩)⟩

theorem event_keeps_handle (s : Intuos5.USBWacomState) (x y dz b now : Int) :
    (Intuos5.usb_wacom_event s x y dz b now).eh_entry = s.eh_entry := by
  unfold Intuos5.usb_wacom_event
  cases h : s.penInProx <;> simp [h]

/-- The invariant behind C18: a non-null handle goes with the tablet mode, and a null
handle goes with the pen out of proximity. -/
theorem step_subscription (s : Intuos5.USBWacomState) (a : Intuos5.Action)
    (hi : (s.eh_entry = true → s.mode = 2) ∧ (s.eh_entry = false → s.penInProx = false))
    (hd : Intuos5.deliverable s a) :
    ((Intuos5.step s a).eh_entry = true → (Intuos5.step s a).mode = 2)
    ∧ ((Intuos5.step s a).eh_entry = false → (Intuos5.step s a).penInProx = false) := by
  have hset : ∀ (q : Intuos5.USBWacomState) (m : Int),
      ((Intuos5.usb_wacom_set_tablet_mode q m).eh_entry = true →
        (Intuos5.usb_wacom_set_tablet_mode q m).mode = 2)
      ∧ ((Intuos5.usb_wacom_set_tablet_mode q m).eh_entry = false →
        (Intuos5.usb_wacom_set_tablet_mode q m).penInProx = false) := by
    intro q m
    have e := set_tablet_mode_effect q m
    exact ⟨fun h => by rw [e.2.1]; exact e.2.2.1.mp h, fun _ => e.2.2.2⟩
  cases a with
  | reset => exact hset _ _
  | setMode mode => exact hset _ _
  | event x y dz b now =>
    have hd2 : s.eh_entry = true := hd
    have e1 : (Intuos5.step s (Intuos5.Action.event x y dz b now)).eh_entry = s.eh_entry :=
      event_keeps_handle s x y dz b now
    have e2 : (Intuos5.step s (Intuos5.Action.event x y dz b now)).mode = s.mode :=
      (event_effect s x y dz b now).2.1
    rw [e1, e2]
    exact ⟨hi.1, fun h => by rw [hd2] at h; exact absurd h (by decide)⟩
  | poll p buf now =>
    have f := handle_data_frame s p buf now
    have e1 : (Intuos5.step s (Intuos5.Action.poll p buf now)).eh_entry = s.eh_entry := f.2.2.1
    have e2 : (Intuos5.step s (Intuos5.Action.poll p buf now)).mode = s.mode := f.2.1
    rw [e1, e2]
    refine ⟨hi.1, fun h => ?_⟩
    have h0 := hi.2 h
    cases hp : (Intuos5.step s (Intuos5.Action.poll p buf now)).penInProx
    · rfl
    · have := f.2.2.2 hp
      rw [h0] at this
      exact absurd this (by decide)
  | control t request value index length desc_ret =>
    exact handle_control_ind
      (fun q => (q.eh_entry = true → q.mode = 2) ∧ (q.eh_entry = false → q.penInProx = false))
      s t request value index length desc_ret hi (fun m => hset s m) hi (fun _ => hi)

theorem reachable_subscription (s : Intuos5.USBWacomState)
    (h : Intuos5.ReachableFromReset s) :
    (s.eh_entry = true → s.mode = 2) ∧ (s.eh_entry = false → s.penInProx = false) := by
  induction h with
  | reset s0 =>
    have e := set_tablet_mode_effect
      { s0 with dx := 0, dy := 0, dz := 0, x := 0, y := 0, buttons_state := 0 } 1
    exact ⟨fun h => by
      have := e.2.2.1.mp h
      exact absurd this (by decide), fun _ => e.2.2.2⟩
  | step a _ hd ih => exact step_subscription _ a ih hd

/-- C18: proximity is false whenever the mode is Passive.  In every advanced-variant
state reachable from a reset by mode switches, data transfers, control requests and
pointer events delivered only while subscribed, `mode = WACOM_MODE_HID` implies
`penInProx = false`. -/
theorem C18_passive_not_in_proximity (s : Intuos5.USBWacomState)
    (h : Intuos5.ReachableFromReset s) (hm : s.mode = Intuos5.WACOM_MODE_HID) :
    s.penInProx = false := by
  have inv := reachable_subscription s h
  cases he : s.eh_entry
  · exact inv.2 he
  · have := inv.1 he
    rw [hm] at this
    exact absurd this (by decide)

/-- Witness of `C18_passive_not_in_proximity`: reset, switch to the tablet mode, one
pointer event, then the control request that switches back to the HID mode. -/
theorem C18_passive_not_in_proximity_witness :
    Intuos5.ReachableFromReset
      (Intuos5.step
        (Intuos5.step
          (Intuos5.step (Intuos5.usb_wacom_handle_reset Intuos5.zeroState)
            (Intuos5.Action.setMode 2))
          (Intuos5.Action.event 100 100 0 0 0))
        (Intuos5.Action.control { status := USBRet.SUCCESS, actual_length := 0, data := [1] }
          0x2109 0 0 1 (-1)))
    ∧ (Intuos5.step
        (Intuos5.step
          (Intuos5.step (Intuos5.usb_wacom_handle_reset Intuos5.zeroState)
            (Intuos5.Action.setMode 2))
          (Intuos5.Action.event 100 100 0 0 0))
        (Intuos5.Action.control { status := USBRet.SUCCESS, actual_length := 0, data := [1] }
          0x2109 0 0 1 (-1))).mode = Intuos5.WACOM_MODE_HID
    ∧ (Intuos5.step
        (Intuos5.step
          (Intuos5.step (Intuos5.usb_wacom_handle_reset Intuos5.zeroState)
            (Intuos5.Action.setMode 2))
          (Intuos5.Action.event 100 100 0 0 0))
        (Intuos5.Action.control { status := USBRet.SUCCESS, actual_length := 0, data := [1] }
          0x2109 0 0 1 (-1))).penInProx = false :=
  ⟨Intuos5.ReachableFromReset.step _
      (Intuos5.ReachableFromReset.step _
        (Intuos5.ReachableFromReset.step _
          (Intuos5.ReachableFromReset.reset Intuos5.zeroState) trivial)
        rfl)
      trivial,
   by decide,
   C18_passive_not_in_proximity _
     (Intuos5.ReachableFromReset.step _
      (Intuos5.ReachableFromReset.step _
        (Intuos5.ReachableFromReset.step _
          (Intuos5.ReachableFromReset.reset Intuos5.zeroState) trivial)
        rfl)
      trivial)
     (by decide)⟩

/-- C19, as stated, fails for the advanced variant: its mode switch clears `changedPen`,
for the tablet mode and for the HID mode alike. -/
theorem C19_advanced_mode_switch_clears_pen_flag :
    (Intuos5.usb_wacom_set_tablet_mode Intuos5.zeroState 2).changedPen = false
    ∧ (Intuos5.usb_wacom_set_tablet_mode Intuos5.zeroState 1).changedPen = false
    ∧ (Intuos5.usb_wacom_set_tablet_mode
        { Intuos5.zeroState with changedPen := true } 2).changedPen = false := by
  decide

/-- C19, amended: for every prior state and every mode value, the state after
`usb_wacom_set_tablet_mode` has `changedPen = true` in the simple variant, and
`changedPen = false` together with `changedProximity = true` in the advanced variant,
where the first announce in the new mode is the proximity report. -/
theorem C19_mode_switch_pen_flag (sB : Bamboo.USBWacomState) (sI : Intuos5.USBWacomState)
    (mode : Int) :
    (Bamboo.usb_wacom_set_tablet_mode sB mode).changedPen = true
    ∧ (Intuos5.usb_wacom_set_tablet_mode sI mode).changedPen = false
    ∧ (Intuos5.usb_wacom_set_tablet_mode sI mode).changedProximity = true := by
  unfold Bamboo.usb_wacom_set_tablet_mode Intuos5.usb_wacom_set_tablet_mode
  exact ⟨rfl, rfl, rfl⟩

/-- C20: the frame of the advanced mode switch.  For every prior state and every mode
value, the two defined ones included, `usb_wacom_set_tablet_mode` leaves
`penInProx = false` and `changedProximity = true`, and leaves the position, the buttons,
the pressure, the wheel accumulator, the idle rate and both timestamps unchanged. -/
theorem C20_mode_switch_frame (s : Intuos5.USBWacomState) (mode : Int) :
    (Intuos5.usb_wacom_set_tablet_mode s mode).penInProx = false
    ∧ (Intuos5.usb_wacom_set_tablet_mode s mode).changedProximity = true
    ∧ (Intuos5.usb_wacom_set_tablet_mode s mode).x = s.x
    ∧ (Intuos5.usb_wacom_set_tablet_mode s mode).y = s.y
    ∧ (Intuos5.usb_wacom_set_tablet_mode s mode).buttons_state = s.buttons_state
    ∧ (Intuos5.usb_wacom_set_tablet_mode s mode).pressure = s.pressure
    ∧ (Intuos5.usb_wacom_set_tablet_mode s mode).dz = s.dz
    ∧ (Intuos5.usb_wacom_set_tablet_mode s mode).idle = s.idle
    ∧ (Intuos5.usb_wacom_set_tablet_mode s mode).lastPacketTime = s.lastPacketTime
    ∧ (Intuos5.usb_wacom_set_tablet_mode s mode).lastInputEventTime = s.lastInputEventTime := by
  unfold Intuos5.usb_wacom_set_tablet_mode
  by_cases h : mode = Intuos5.WACOM_MODE_WACOM <;> simp [h]

/-! ## The cases of the control handlers -/

/-- The `WACOM_SET_REPORT` case of the control handler, request code `0x2109`. -/
theorem intuos5_set_report_eq (s : Intuos5.USBWacomState) (t : ControlTransfer)
    (value index length desc_ret : Int) (hd : desc_ret < 0) :
    Intuos5.usb_wacom_handle_control s t 0x2109 value index length desc_ret
      = (Intuos5.control_set_report s (t.data.getD 0 0), t) := by
  have h0 : ¬ desc_ret ≥ 0 := by omega
  unfold Intuos5.usb_wacom_handle_control
  rw [if_neg h0]
  have c0 : Intuos5.isCase 0x2109 ClassInterfaceOutRequest Intuos5.WACOM_SET_REPORT = true := by decide
  rw [if_pos c0]

/-- The report-descriptor case of the control handler, request code `0x8106`. -/
theorem intuos5_get_descriptor_eq (s : Intuos5.USBWacomState) (t : ControlTransfer)
    (value index length desc_ret : Int) (hd : desc_ret < 0) :
    Intuos5.usb_wacom_handle_control s t 0x8106 value index length desc_ret
      = (s, Intuos5.control_get_report_descriptor t value index) := by
  have h0 : ¬ desc_ret ≥ 0 := by omega
  unfold Intuos5.usb_wacom_handle_control
  rw [if_neg h0]
  have c0 : ¬ (Intuos5.isCase 0x8106 ClassInterfaceOutRequest Intuos5.WACOM_SET_REPORT = true) := by decide
  rw [if_neg c0]
  have c1 : ¬ (Intuos5.isCase 0x8106 ClassInterfaceOutRequest Intuos5.WACOM_GET_REPORT = true) := by decide
  rw [if_neg c1]
  have c2 : ¬ (Intuos5.isCase 0x8106 ClassInterfaceOutRequest Intuos5.HID_SET_PROTOCOL = true) := by decide
  rw [if_neg c2]
  have c3 : Intuos5.isCase 0x8106 InterfaceRequest USB_REQ_GET_DESCRIPTOR = true := by decide
  rw [if_pos c3]

/-- The `HID_GET_REPORT` case of the control handler, request code `0xA101`. -/
theorem intuos5_get_report_eq (s : Intuos5.USBWacomState) (t : ControlTransfer)
    (value index length desc_ret : Int) (hd : desc_ret < 0) :
    Intuos5.usb_wacom_handle_control s t 0xA101 value index length desc_ret
      = (s, Intuos5.control_get_report s t value length) := by
  have h0 : ¬ desc_ret ≥ 0 := by omega
  unfold Intuos5.usb_wacom_handle_control
  rw [if_neg h0]
  have c0 : ¬ (Intuos5.isCase 0xA101 ClassInterfaceOutRequest Intuos5.WACOM_SET_REPORT = true) := by decide
  rw [if_neg c0]
  have c1 : ¬ (Intuos5.isCase 0xA101 ClassInterfaceOutRequest Intuos5.WACOM_GET_REPORT = true) := by decide
  rw [if_neg c1]
  have c2 : ¬ (Intuos5.isCase 0xA101 ClassInterfaceOutRequest Intuos5.HID_SET_PROTOCOL = true) := by decide
  rw [if_neg c2]
  have c3 : ¬ (Intuos5.isCase 0xA101 InterfaceRequest USB_REQ_GET_DESCRIPTOR = true) := by decide
  rw [if_neg c3]
  have c4 : ¬ (Intuos5.isCase 0xA101 DeviceRequest USB_REQ_GET_DESCRIPTOR = true) := by decide
  rw [if_neg c4]
  have c5 : ¬ (Intuos5.isCase 0xA101 EndpointOutRequest USB_REQ_CLEAR_FEATURE = true) := by decide
  rw [if_neg c5]
  have c6 : Intuos5.isCase 0xA101 ClassInterfaceRequest Intuos5.HID_GET_REPORT = true := by decide
  rw [if_pos c6]

/-- The `default:` case of the control handler: a request code that is none of the nine
handled ones is stalled. -/
theorem intuos5_default_eq (s : Intuos5.USBWacomState) (t : ControlTransfer)
    (request value index length desc_ret : Int) (hd : desc_ret < 0)
    (hreq : ∀ c ∈ [(0x2109 : Int), 0x2101, 0x210b, 0x8106, 0x8006, 0x0201, 0xA101, 0xA102, 0x210a],
      request ≠ c) :
    Intuos5.usb_wacom_handle_control s t request value index length desc_ret
      = (s, Intuos5.stall t) := by
  have h0 : ¬ desc_ret ≥ 0 := by omega
  unfold Intuos5.usb_wacom_handle_control
  rw [if_neg h0]
  have c0 : ¬ (Intuos5.isCase request ClassInterfaceOutRequest Intuos5.WACOM_SET_REPORT = true) := by
    intro h
    have e : request = 0x2109 := by
      unfold Intuos5.isCase at h
      exact (beq_iff_eq.mp h).trans (by decide)
    exact hreq 0x2109 (by simp) e
  rw [if_neg c0]
  have c1 : ¬ (Intuos5.isCase request ClassInterfaceOutRequest Intuos5.WACOM_GET_REPORT = true) := by
    intro h
    have e : request = 0x2101 := by
      unfold Intuos5.isCase at h
      exact (beq_iff_eq.mp h).trans (by decide)
    exact hreq 0x2101 (by simp) e
  rw [if_neg c1]
  have c2 : ¬ (Intuos5.isCase request ClassInterfaceOutRequest Intuos5.HID_SET_PROTOCOL = true) := by
    intro h
    have e : request = 0x210B := by
      unfold Intuos5.isCase at h
      exact (beq_iff_eq.mp h).trans (by decide)
    exact hreq 0x210B (by simp) e
  rw [if_neg c2]
  have c3 : ¬ (Intuos5.isCase request InterfaceRequest USB_REQ_GET_DESCRIPTOR = true) := by
    intro h
    have e : request = 0x8106 := by
      unfold Intuos5.isCase at h
      exact (beq_iff_eq.mp h).trans (by decide)
    exact hreq 0x8106 (by simp) e
  rw [if_neg c3]
  have c4 : ¬ (Intuos5.isCase request DeviceRequest USB_REQ_GET_DESCRIPTOR = true) := by
    intro h
    have e : request = 0x8006 := by
      unfold Intuos5.isCase at h
      exact (beq_iff_eq.mp h).trans (by decide)
    exact hreq 0x8006 (by simp) e
  rw [if_neg c4]
  have c5 : ¬ (Intuos5.isCase request EndpointOutRequest USB_REQ_CLEAR_FEATURE = true) := by
    intro h
    have e : request = 0x0201 := by
      unfold Intuos5.isCase at h
      exact (beq_iff_eq.mp h).trans (by decide)
    exact hreq 0x0201 (by simp) e
  rw [if_neg c5]
  have c6 : ¬ (Intuos5.isCase request ClassInterfaceRequest Intuos5.HID_GET_REPORT = true) := by
    intro h
    have e : request = 0xA101 := by
      unfold Intuos5.isCase at h
      exact (beq_iff_eq.mp h).trans (by decide)
    exact hreq 0xA101 (by simp) e
  rw [if_neg c6]
  have c7 : ¬ (Intuos5.isCase request ClassInterfaceRequest Intuos5.HID_GET_IDLE = true) := by
    intro h
    have e : request = 0xA102 := by
      unfold Intuos5.isCase at h
      exact (beq_iff_eq.mp h).trans (by decide)
    exact hreq 0xA102 (by simp) e
  rw [if_neg c7]
  have c8 : ¬ (Intuos5.isCase request ClassInterfaceOutRequest Intuos5.HID_SET_IDLE = true) := by
    intro h
    have e : request = 0x210A := by
      unfold Intuos5.isCase at h
      exact (beq_iff_eq.mp h).trans (by decide)
    exact hreq 0x210A (by simp) e
  rw [if_neg c8]

/-- The `WACOM_SET_REPORT` case of the control handler, request code `0x2109`. -/
theorem bamboo_set_report_eq (s : Bamboo.USBWacomState) (t : ControlTransfer)
    (value index length desc_ret : Int) (hd : desc_ret < 0) :
    Bamboo.usb_wacom_handle_control s t 0x2109 value index length desc_ret
      = (Bamboo.control_set_report s (t.data.getD 0 0), t) := by
  have h0 : ¬ desc_ret ≥ 0 := by omega
  unfold Bamboo.usb_wacom_handle_control
  rw [if_neg h0]
  have c0 : Bamboo.isCase 0x2109 ClassInterfaceOutRequest Bamboo.WACOM_SET_REPORT = true := by decide
  rw [if_pos c0]

/-- The report-descriptor case of the control handler, request code `0x8106`. -/
theorem bamboo_get_descriptor_eq (s : Bamboo.USBWacomState) (t : ControlTransfer)
    (value index length desc_ret : Int) (hd : desc_ret < 0) :
    Bamboo.usb_wacom_handle_control s t 0x8106 value index length desc_ret
      = (s, Bamboo.control_get_report_descriptor t value index) := by
  have h0 : ¬ desc_ret ≥ 0 := by omega
  unfold Bamboo.usb_wacom_handle_control
  rw [if_neg h0]
  have c0 : ¬ (Bamboo.isCase 0x8106 ClassInterfaceOutRequest Bamboo.WACOM_SET_REPORT = true) := by decide
  rw [if_neg c0]
  have c1 : ¬ (Bamboo.isCase 0x8106 ClassInterfaceOutRequest Bamboo.WACOM_GET_REPORT = true) := by decide
  rw [if_neg c1]
  have c2 : ¬ (Bamboo.isCase 0x8106 ClassInterfaceOutRequest Bamboo.HID_SET_PROTOCOL = true) := by decide
  rw [if_neg c2]
  have c3 : Bamboo.isCase 0x8106 InterfaceRequest USB_REQ_GET_DESCRIPTOR = true := by decide
  rw [if_pos c3]

/-- The `HID_GET_REPORT` case of the control handler, request code `0xA101`. -/
theorem bamboo_get_report_eq (s : Bamboo.USBWacomState) (t : ControlTransfer)
    (value index length desc_ret : Int) (hd : desc_ret < 0) :
    Bamboo.usb_wacom_handle_control s t 0xA101 value index length desc_ret
      = (s, Bamboo.control_get_report s t value length) := by
  have h0 : ¬ desc_ret ≥ 0 := by omega
  unfold Bamboo.usb_wacom_handle_control
  rw [if_neg h0]
  have c0 : ¬ (Bamboo.isCase 0xA101 ClassInterfaceOutRequest Bamboo.WACOM_SET_REPORT = true) := by decide
  rw [if_neg c0]
  have c1 : ¬ (Bamboo.isCase 0xA101 ClassInterfaceOutRequest Bamboo.WACOM_GET_REPORT = true) := by decide
  rw [if_neg c1]
  have c2 : ¬ (Bamboo.isCase 0xA101 ClassInterfaceOutRequest Bamboo.HID_SET_PROTOCOL = true) := by decide
  rw [if_neg c2]
  have c3 : ¬ (Bamboo.isCase 0xA101 InterfaceRequest USB_REQ_GET_DESCRIPTOR = true) := by decide
  rw [if_neg c3]
  have c4 : ¬ (Bamboo.isCase 0xA101 DeviceRequest USB_REQ_GET_DESCRIPTOR = true) := by decide
  rw [if_neg c4]
  have c5 : ¬ (Bamboo.isCase 0xA101 EndpointOutRequest USB_REQ_CLEAR_FEATURE = true) := by decide
  rw [if_neg c5]
  have c6 : Bamboo.isCase 0xA101 ClassInterfaceRequest Bamboo.HID_GET_REPORT = true := by decide
  rw [if_pos c6]

/-- The `default:` case of the control handler: a request code that is none of the nine
handled ones is stalled. -/
theorem bamboo_default_eq (s : Bamboo.USBWacomState) (t : ControlTransfer)
    (request value index length desc_ret : Int) (hd : desc_ret < 0)
    (hreq : ∀ c ∈ [(0x2109 : Int), 0x2101, 0x210b, 0x8106, 0x8006, 0x0201, 0xA101, 0xA102, 0x210a],
      request ≠ c) :
    Bamboo.usb_wacom_handle_control s t request value index length desc_ret
      = (s, Bamboo.stall t) := by
  have h0 : ¬ desc_ret ≥ 0 := by omega
  unfold Bamboo.usb_wacom_handle_control
  rw [if_neg h0]
  have c0 : ¬ (Bamboo.isCase request ClassInterfaceOutRequest Bamboo.WACOM_SET_REPORT = true) := by
    intro h
    have e : request = 0x2109 := by
      unfold Bamboo.isCase at h
      exact (beq_iff_eq.mp h).trans (by decide)
    exact hreq 0x2109 (by simp) e
  rw [if_neg c0]
  have c1 : ¬ (Bamboo.isCase request ClassInterfaceOutRequest Bamboo.WACOM_GET_REPORT = true) := by
    intro h
    have e : request = 0x2101 := by
      unfold Bamboo.isCase at h
      exact (beq_iff_eq.mp h).trans (by decide)
    exact hreq 0x2101 (by simp) e
  rw [if_neg c1]
  have c2 : ¬ (Bamboo.isCase request ClassInterfaceOutRequest Bamboo.HID_SET_PROTOCOL = true) := by
    intro h
    have e : request = 0x210B := by
      unfold Bamboo.isCase at h
      exact (beq_iff_eq.mp h).trans (by decide)
    exact hreq 0x210B (by simp) e
  rw [if_neg c2]
  have c3 : ¬ (Bamboo.isCase request InterfaceRequest USB_REQ_GET_DESCRIPTOR = true) := by
    intro h
    have e : request = 0x8106 := by
      unfold Bamboo.isCase at h
      exact (beq_iff_eq.mp h).trans (by decide)
    exact hreq 0x8106 (by simp) e
  rw [if_neg c3]
  have c4 : ¬ (Bamboo.isCase request DeviceRequest USB_REQ_GET_DESCRIPTOR = true) := by
    intro h
    have e : request = 0x8006 := by
      unfold Bamboo.isCase at h
      exact (beq_iff_eq.mp h).trans (by decide)
    exact hreq 0x8006 (by simp) e
  rw [if_neg c4]
  have c5 : ¬ (Bamboo.isCase request EndpointOutRequest USB_REQ_CLEAR_FEATURE = true) := by
    intro h
    have e : request = 0x0201 := by
      unfold Bamboo.isCase at h
      exact (beq_iff_eq.mp h).trans (by decide)
    exact hreq 0x0201 (by simp) e
  rw [if_neg c5]
  have c6 : ¬ (Bamboo.isCase request ClassInterfaceRequest Bamboo.HID_GET_REPORT = true) := by
    intro h
    have e : request = 0xA101 := by
      unfold Bamboo.isCase at h
      exact (beq_iff_eq.mp h).trans (by decide)
    exact hreq 0xA101 (by simp) e
  rw [if_neg c6]
  have c7 : ¬ (Bamboo.isCase request ClassInterfaceRequest Bamboo.HID_GET_IDLE = true) := by
    intro h
    have e : request = 0xA102 := by
      unfold Bamboo.isCase at h
      exact (beq_iff_eq.mp h).trans (by decide)
    exact hreq 0xA102 (by simp) e
  rw [if_neg c7]
  have c8 : ¬ (Bamboo.isCase request ClassInterfaceOutRequest Bamboo.HID_SET_IDLE = true) := by
    intro h
    have e : request = 0x210A := by
      unfold Bamboo.isCase at h
      exact (beq_iff_eq.mp h).trans (by decide)
    exact hreq 0x210A (by simp) e
  rw [if_neg c8]

/-! ## The control surface (claims C21 to C27) -/

/-- What the mode switch of the simple variant leaves: the mode as given, the handle
non-null exactly for the tablet mode, the pen flag set. -/
theorem bamboo_set_tablet_mode_effect (s : Bamboo.USBWacomState) (mode : Int) :
    (Bamboo.usb_wacom_set_tablet_mode s mode).mode = mode
    ∧ ((Bamboo.usb_wacom_set_tablet_mode s mode).eh_entry = true ↔ mode = 2)
    ∧ (Bamboo.usb_wacom_set_tablet_mode s mode).changedPen = true := by
  unfold Bamboo.usb_wacom_set_tablet_mode
  by_cases h : mode = Bamboo.WACOM_MODE_WACOM
  · simp [h, Bamboo.WACOM_MODE_WACOM]
  · have h2 : ¬ mode = 2 := h
    simp [h, h2]

/-- C21, as stated, fails: `usb_wacom_set_tablet_mode` does not reject a mode value.
Called with 3 on a subscribed Active state it stores 3 as the mode, unsubscribes, and
resets the flags, in both variants. -/
theorem C21_set_tablet_mode_stores_any_value :
    (Intuos5.usb_wacom_set_tablet_mode
        { Intuos5.zeroState with mode := 2, eh_entry := true, penInProx := true } 3).mode = 3
    ∧ (Intuos5.usb_wacom_set_tablet_mode
        { Intuos5.zeroState with mode := 2, eh_entry := true, penInProx := true } 3).eh_entry
        = false
    ∧ (Intuos5.usb_wacom_set_tablet_mode
        { Intuos5.zeroState with mode := 2, eh_entry := true, penInProx := true } 3).penInProx
        = false
    ∧ (Bamboo.usb_wacom_set_tablet_mode
        { Bamboo.zeroState with mode := 2, eh_entry := true } 3).mode = 3
    ∧ (Bamboo.usb_wacom_set_tablet_mode
        { Bamboo.zeroState with mode := 2, eh_entry := true } 3).eh_entry = false
    ∧ (Bamboo.usb_wacom_set_tablet_mode
        { Bamboo.zeroState with mode := 2, eh_entry := true } 3).changedPen = true := by
  decide

/-- C21, amended: the rejection is made by the control surface.  For every state and
every vendor SET_REPORT whose byte 0 is neither 1 nor 2, the request does not reach
`usb_wacom_set_tablet_mode` and the transfer is left as it was: the simple variant leaves
the whole state unchanged; the advanced variant leaves mode, subscription and proximity
unchanged, and the whole state unless byte 0 is the command `0x04` or `0x0d`.  The
function itself stores whatever mode value it is given. -/
theorem C21_unknown_mode_ignored (sI : Intuos5.USBWacomState) (sB : Bamboo.USBWacomState)
    (t : ControlTransfer) (value index length desc_ret : Int) (hd : desc_ret < 0)
    (h1 : t.data.getD 0 0 ≠ 1) (h2 : t.data.getD 0 0 ≠ 2) :
    Bamboo.usb_wacom_handle_control sB t 0x2109 value index length desc_ret = (sB, t)
    ∧ (Intuos5.usb_wacom_handle_control sI t 0x2109 value index length desc_ret).2 = t
    ∧ (Intuos5.usb_wacom_handle_control sI t 0x2109 value index length desc_ret).1.mode
        = sI.mode
    ∧ (Intuos5.usb_wacom_handle_control sI t 0x2109 value index length desc_ret).1.eh_entry
        = sI.eh_entry
    ∧ (Intuos5.usb_wacom_handle_control sI t 0x2109 value index length desc_ret).1.penInProx
        = sI.penInProx
    ∧ (t.data.getD 0 0 ≠ 0x04 → t.data.getD 0 0 ≠ 0x0d →
        Intuos5.usb_wacom_handle_control sI t 0x2109 value index length desc_ret = (sI, t))
    ∧ (∀ m : Int, (Intuos5.usb_wacom_set_tablet_mode sI m).mode = m
        ∧ (Bamboo.usb_wacom_set_tablet_mode sB m).mode = m) := by
  have hn : ¬ (t.data.getD 0 0 = 1 ∨ t.data.getD 0 0 = 2) := by
    intro h
    rcases h with h | h
    · exact h1 h
    · exact h2 h
  rw [bamboo_set_report_eq sB t value index length desc_ret hd,
    intuos5_set_report_eq sI t value index length desc_ret hd]
  have eB : Bamboo.control_set_report sB (t.data.getD 0 0) = sB := by
    unfold Bamboo.control_set_report
    rw [if_neg hn]
  have eI : Intuos5.control_set_report sI (t.data.getD 0 0) = sI
      ∨ Intuos5.control_set_report sI (t.data.getD 0 0)
          = { sI with changedPen := true, changedProximity := true } := by
    unfold Intuos5.control_set_report
    rw [if_neg hn]
    split_ifs
    · exact Or.inl rfl
    · exact Or.inr rfl
    · exact Or.inr rfl
    · exact Or.inl rfl
  refine ⟨by rw [eB], rfl, ?_, ?_, ?_, ?_, fun m => ⟨(set_tablet_mode_effect sI m).2.1, (bamboo_set_tablet_mode_effect sB m).1⟩⟩
  · rcases eI with e | e <;> rw [e]
  · rcases eI with e | e <;> rw [e]
  · rcases eI with e | e <;> rw [e]
  · intro h4 hd0
    have e : Intuos5.control_set_report sI (t.data.getD 0 0) = sI := by
      unfold Intuos5.control_set_report
      rw [if_neg hn]
      have a4 : ¬ t.data.getD 0 0 = 0x04 := h4
      have ad : ¬ t.data.getD 0 0 = Intuos5.WAC_CMD_SET_SCANMODE_PENTOUCH := hd0
      split_ifs <;> rfl
    rw [e]

/-- Witness of `C21_unknown_mode_ignored`: a vendor SET_REPORT with byte 0 equal to 3 on
subscribed Active states. -/
theorem C21_unknown_mode_ignored_witness :
    ((-1 : Int) < 0 ∧ ([3] : List Nat).getD 0 0 ≠ 1 ∧ ([3] : List Nat).getD 0 0 ≠ 2)
    ∧ Bamboo.usb_wacom_handle_control { Bamboo.zeroState with mode := 2, eh_entry := true }
        { status := USBRet.SUCCESS, actual_length := 0, data := [3] } 0x2109 0 0 1 (-1)
      = ({ Bamboo.zeroState with mode := 2, eh_entry := true },
         { status := USBRet.SUCCESS, actual_length := 0, data := [3] }) :=
  ⟨by decide,
   (C21_unknown_mode_ignored { Intuos5.zeroState with mode := 2, eh_entry := true }
      { Bamboo.zeroState with mode := 2, eh_entry := true }
      { status := USBRet.SUCCESS, actual_length := 0, data := [3] } 0 0 1 (-1)
      (by decide) (by decide) (by decide)).1⟩

/-- C22, as stated, fails for large wheel deltas and a full accumulator: the event
computes on 32-bit integers.  From the initial pressure 890 an event with `dz = 2^25`
leaves the pressure at 890, the product `dz * 128` wrapping to 0, where
`clamp(890 - dz * 128, 128, 2047)` is 128; and after an event with `dz = 2^31 - 1` a
further event with `dz = 1` leaves the wheel accumulator at `-2^31`, not at `2^31`. -/
theorem C22_event_arithmetic_wraps :
    (Intuos5.usb_wacom_realize Intuos5.zeroState).pressure = 890
    ∧ (Intuos5.usb_wacom_event (Intuos5.usb_wacom_realize Intuos5.zeroState)
        0 0 33554432 0 0).pressure = 890
    ∧ int_clamp ((Intuos5.usb_wacom_realize Intuos5.zeroState).pressure - 33554432 * 128)
        128 2047 = 128
    ∧ (Intuos5.usb_wacom_event (Intuos5.usb_wacom_realize Intuos5.zeroState)
        0 0 2147483647 0 0).dz = 2147483647
    ∧ (Intuos5.usb_wacom_event
        (Intuos5.usb_wacom_event (Intuos5.usb_wacom_realize Intuos5.zeroState)
          0 0 2147483647 0 0) 0 0 1 0 0).dz = -2147483648 := by
  decide

/-- C22, amended: the postcondition of the pointer event, advanced variant.  For every
state and event `(x, y, dz, buttons)` arriving at time `now`, the new state has the wheel
accumulator `old + dz` and the pressure `clamp(pressure - dz * 128, 128, 2047)` as
computed in 32-bit two's-complement arithmetic, which are the exact values whenever the
sum, the product `dz * 128` and the difference fit in 32 bits; it has the event's button
mask, `changedPen = true` and `lastInputEventTime = now`; if `penInProx` was false it
becomes true with `changedProximity = true`, otherwise both are unchanged; mode, idle
rate and `lastPacketTime` are unchanged. -/
theorem C22_event_postcondition (s : Intuos5.USBWacomState) (x y dz buttons now : Int) :
    (Intuos5.usb_wacom_event s x y dz buttons now).dz = wrap32 (s.dz + dz)
    ∧ (Intuos5.usb_wacom_event s x y dz buttons now).pressure
        = int_clamp (wrap32 (s.pressure - wrap32 (dz * 128))) 128 2047
    ∧ (-2147483648 ≤ s.dz + dz → s.dz + dz ≤ 2147483647 →
        (Intuos5.usb_wacom_event s x y dz buttons now).dz = s.dz + dz)
    ∧ (-2147483648 ≤ dz * 128 → dz * 128 ≤ 2147483647 →
        -2147483648 ≤ s.pressure - dz * 128 → s.pressure - dz * 128 ≤ 2147483647 →
        (Intuos5.usb_wacom_event s x y dz buttons now).pressure
          = int_clamp (s.pressure - dz * 128) 128 2047)
    ∧ (Intuos5.usb_wacom_event s x y dz buttons now).buttons_state = buttons
    ∧ (Intuos5.usb_wacom_event s x y dz buttons now).changedPen = true
    ∧ (Intuos5.usb_wacom_event s x y dz buttons now).lastInputEventTime = now
    ∧ (s.penInProx = false →
        (Intuos5.usb_wacom_event s x y dz buttons now).penInProx = true
        ∧ (Intuos5.usb_wacom_event s x y dz buttons now).changedProximity = true)
    ∧ (s.penInProx = true →
        (Intuos5.usb_wacom_event s x y dz buttons now).penInProx = true
        ∧ (Intuos5.usb_wacom_event s x y dz buttons now).changedProximity
            = s.changedProximity)
    ∧ (Intuos5.usb_wacom_event s x y dz buttons now).mode = s.mode
    ∧ (Intuos5.usb_wacom_event s x y dz buttons now).idle = s.idle
    ∧ (Intuos5.usb_wacom_event s x y dz buttons now).lastPacketTime = s.lastPacketTime := by
  refine ⟨event_wheel_wrapped s x y dz buttons now, event_pressure_wrapped s x y dz buttons now,
    ?_, event_pressure s x y dz buttons now, ?_, ?_, ?_, ?_, ?_, ?_, ?_, ?_⟩
  · intro h1 h2
    rw [event_wheel_wrapped, wrap32_of_inRange _ h1 (by omega)]
  all_goals
    unfold Intuos5.usb_wacom_event
    cases h : s.penInProx <;> simp [h]

/-- Witness of `C22_event_postcondition`: an event with `dz = 3` on the state a device
starts from, which is out of proximity with pressure 890. -/
theorem C22_event_postcondition_witness :
    ((Intuos5.usb_wacom_realize Intuos5.zeroState).penInProx = false
      ∧ -2147483648 ≤ (Intuos5.usb_wacom_realize Intuos5.zeroState).dz + 3
      ∧ (Intuos5.usb_wacom_realize Intuos5.zeroState).dz + 3 ≤ 2147483647
      ∧ (-2147483648 : Int) ≤ 3 * 128 ∧ (3 : Int) * 128 ≤ 2147483647
      ∧ -2147483648 ≤ (Intuos5.usb_wacom_realize Intuos5.zeroState).pressure - 3 * 128
      ∧ (Intuos5.usb_wacom_realize Intuos5.zeroState).pressure - 3 * 128 ≤ 2147483647)
    ∧ (Intuos5.usb_wacom_event (Intuos5.usb_wacom_realize Intuos5.zeroState)
        1 2 3 1 7).penInProx = true
    ∧ (Intuos5.usb_wacom_event (Intuos5.usb_wacom_realize Intuos5.zeroState)
        1 2 3 1 7).changedProximity = true
    ∧ (Intuos5.usb_wacom_event (Intuos5.usb_wacom_realize Intuos5.zeroState) 1 2 3 1 7).dz
        = (Intuos5.usb_wacom_realize Intuos5.zeroState).dz + 3
    ∧ (Intuos5.usb_wacom_event (Intuos5.usb_wacom_realize Intuos5.zeroState)
        1 2 3 1 7).pressure
        = int_clamp ((Intuos5.usb_wacom_realize Intuos5.zeroState).pressure - 3 * 128) 128 2047 :=
  ⟨by decide,
   ((C22_event_postcondition (Intuos5.usb_wacom_realize Intuos5.zeroState)
      1 2 3 1 7).2.2.2.2.2.2.2.1 rfl).1,
   ((C22_event_postcondition (Intuos5.usb_wacom_realize Intuos5.zeroState)
      1 2 3 1 7).2.2.2.2.2.2.2.1 rfl).2,
   (C22_event_postcondition (Intuos5.usb_wacom_realize Intuos5.zeroState)
      1 2 3 1 7).2.2.1 (by decide) (by decide),
   (C22_event_postcondition (Intuos5.usb_wacom_realize Intuos5.zeroState)
      1 2 3 1 7).2.2.2.1 (by decide) (by decide) (by decide) (by decide)⟩

/-- C23, as stated, fails for LED control: the command `0x20` is accepted and discarded
without touching the flags.  On the zero state, whose flags are clear, it leaves state
and transfer as they were, while `0x04` and `0x0d` set both flags. -/
theorem C23_led_control_sets_no_flag :
    Intuos5.usb_wacom_handle_control Intuos5.zeroState
        { status := USBRet.SUCCESS, actual_length := 0, data := [0x20, 0] } 0x2109 0 0 2 (-1)
      = (Intuos5.zeroState, { status := USBRet.SUCCESS, actual_length := 0, data := [0x20, 0] })
    ∧ Intuos5.zeroState.changedPen = false
    ∧ Intuos5.zeroState.changedProximity = false
    ∧ (Intuos5.usb_wacom_handle_control Intuos5.zeroState
        { status := USBRet.SUCCESS, actual_length := 0, data := [0x04, 1] } 0x2109 0 0 2
        (-1)).1.changedPen = true
    ∧ (Intuos5.usb_wacom_handle_control Intuos5.zeroState
        { status := USBRet.SUCCESS, actual_length := 0, data := [0x0d, 0] } 0x2109 0 0 2
        (-1)).1.changedProximity = true := by
  decide

/-- C23, amended: in the advanced variant a vendor SET_REPORT whose byte 0 is `0x20`
(LED control), `0x04` (set-datarate, set-Bluetooth-address) or `0x0d` (set-scan-mode) is
accepted, the transfer being left as it was with no stall.  For every prior state,
`0x04` and `0x0d` set both `changedPen` and `changedProximity` and change no other field;
`0x20` changes no field at all. -/
theorem C23_vendor_commands (s : Intuos5.USBWacomState) (t : ControlTransfer)
    (value index length desc_ret : Int) (hd : desc_ret < 0) :
    (t.data.getD 0 0 = 0x20 →
      Intuos5.usb_wacom_handle_control s t 0x2109 value index length desc_ret = (s, t))
    ∧ (t.data.getD 0 0 = 0x04 ∨ t.data.getD 0 0 = 0x0d →
      Intuos5.usb_wacom_handle_control s t 0x2109 value index length desc_ret
        = ({ s with changedPen := true, changedProximity := true }, t)) := by
  rw [intuos5_set_report_eq s t value index length desc_ret hd]
  refine ⟨?_, ?_⟩
  · intro h
    rw [h]
    rfl
  · intro h
    rcases h with h | h <;> rw [h] <;> rfl

/-- Witness of `C23_vendor_commands`: the set-scan-mode command on the zero state. -/
theorem C23_vendor_commands_witness :
    ((-1 : Int) < 0 ∧ ([0x0d, 0] : List Nat).getD 0 0 = 0x0d)
    ∧ Intuos5.usb_wacom_handle_control Intuos5.zeroState
        { status := USBRet.SUCCESS, actual_length := 0, data := [0x0d, 0] } 0x2109 0 0 2 (-1)
      = ({ Intuos5.zeroState with changedPen := true, changedProximity := true },
         { status := USBRet.SUCCESS, actual_length := 0, data := [0x0d, 0] }) :=
  ⟨by decide,
   (C23_vendor_commands Intuos5.zeroState
      { status := USBRet.SUCCESS, actual_length := 0, data := [0x0d, 0] } 0 0 2 (-1)
      (by decide)).2 (Or.inr (by decide))⟩

/-- Two stores into a buffer of at least two bytes. -/
theorem store2_eq (buf : List Nat) (h : 2 ≤ buf.length) (v0 v1 : Nat) :
    store (store buf 0 v0) 1 v1 = [toUInt8 v0, toUInt8 v1] ++ buf.drop 2 := by
  rcases buf with _ | ⟨a0, _ | ⟨a1, rest⟩⟩ <;> simp at h
  simp [store, List.set]

/-- The two-byte mode answer, for a stored mode 1 or 2. -/
theorem get_mode_bytes (data : List Nat) (mode : Int) (m : Nat) (hm : m = 1 ∨ m = 2)
    (e : mode = m) (h : 2 ≤ data.length) :
    store (store data 0 0) 1 (bits32 mode) = [0, m] ++ data.drop 2 := by
  rw [store2_eq data h, e]
  rcases hm with rfl | rfl <;> rfl

/-- C24: the mode set/get round trip.  In both variants, for every state and every m in
{1, 2}, after a vendor SET_REPORT whose byte 0 is m the stored mode is m, and the
GET_REPORT whose selector low byte is 2 then answers exactly the two bytes `[0, m]` with
actual length 2 and leaves the state as it was. -/
theorem C24_mode_round_trip (sI : Intuos5.USBWacomState) (sB : Bamboo.USBWacomState)
    (t t2 : ControlTransfer) (m : Nat) (v i l d v2 i2 l2 d2 : Int)
    (hm : m = 1 ∨ m = 2) (hb0 : t.data.getD 0 0 = m) (hd : d < 0) (hd2 : d2 < 0)
    (hsel : bits32 v2 &&& 0xFF = 2) (hbuf : 2 ≤ t2.data.length) :
    Intuos5.usb_wacom_handle_control
        (Intuos5.usb_wacom_handle_control sI t 0x2109 v i l d).1 t2 0xA101 v2 i2 l2 d2
      = ((Intuos5.usb_wacom_handle_control sI t 0x2109 v i l d).1,
          { t2 with data := [0, m] ++ t2.data.drop 2, actual_length := 2 })
    ∧ (Intuos5.usb_wacom_handle_control sI t 0x2109 v i l d).1.mode = m
    ∧ Bamboo.usb_wacom_handle_control
        (Bamboo.usb_wacom_handle_control sB t 0x2109 v i l d).1 t2 0xA101 v2 i2 l2 d2
      = ((Bamboo.usb_wacom_handle_control sB t 0x2109 v i l d).1,
          { t2 with data := [0, m] ++ t2.data.drop 2, actual_length := 2 })
    ∧ (Bamboo.usb_wacom_handle_control sB t 0x2109 v i l d).1.mode = m := by
  have hc : m = 1 ∨ m = 2 := hm
  have mI : (Intuos5.usb_wacom_handle_control sI t 0x2109 v i l d).1.mode = m := by
    rw [intuos5_set_report_eq sI t v i l d hd, hb0]
    show (Intuos5.control_set_report sI m).mode = m
    unfold Intuos5.control_set_report
    rw [if_pos hc]
    exact (set_tablet_mode_effect sI m).2.1
  have mB : (Bamboo.usb_wacom_handle_control sB t 0x2109 v i l d).1.mode = m := by
    rw [bamboo_set_report_eq sB t v i l d hd, hb0]
    show (Bamboo.control_set_report sB m).mode = m
    unfold Bamboo.control_set_report
    rw [if_pos hc]
    exact (bamboo_set_tablet_mode_effect sB m).1
  refine ⟨?_, mI, ?_, mB⟩
  · rw [intuos5_get_report_eq _ t2 v2 i2 l2 d2 hd2]
    unfold Intuos5.control_get_report
    simp only [hsel]
    rw [if_pos (by rfl)]
    unfold Intuos5.control_get_mode
    simp only [get_mode_bytes t2.data _ m hm mI hbuf]
  · rw [bamboo_get_report_eq _ t2 v2 i2 l2 d2 hd2]
    unfold Bamboo.control_get_report
    simp only [hsel]
    rw [if_pos (by rfl)]
    unfold Bamboo.control_get_mode
    simp only [get_mode_bytes t2.data _ m hm mB hbuf]

/-- Witness of `C24_mode_round_trip`: setting mode 2, then reading it back into a
three-byte buffer with selector `0x0302`. -/
theorem C24_mode_round_trip_witness :
    (((2 : Nat) = 1 ∨ (2 : Nat) = 2) ∧ bits32 0x0302 &&& 0xFF = 2)
    ∧ (Intuos5.usb_wacom_handle_control
        (Intuos5.usb_wacom_handle_control Intuos5.zeroState
          { status := USBRet.SUCCESS, actual_length := 0, data := [2] } 0x2109 0 0 1 (-1)).1
        { status := USBRet.SUCCESS, actual_length := 0, data := [9, 9, 9] }
        0xA101 0x0302 0 3 (-1)).2
      = { status := USBRet.SUCCESS, actual_length := 2, data := [0, 2, 9] } :=
  ⟨by decide,
   congrArg Prod.snd
     (C24_mode_round_trip Intuos5.zeroState Bamboo.zeroState
       { status := USBRet.SUCCESS, actual_length := 0, data := [2] }
       { status := USBRet.SUCCESS, actual_length := 0, data := [9, 9, 9] }
       2 0 0 1 (-1) 0x0302 0 3 (-1)
       (Or.inr rfl) (by decide) (by decide) (by decide) (by decide) (by decide)).1⟩

/-- C25, as stated, fails outside Active mode: the default case of GET_REPORT calls the
pen encoder only when `mode == WACOM_MODE_WACOM`.  In Passive mode (mode 1) a GET_REPORT
with the unnamed selector 0 and a ten-byte buffer returns nothing, state and transfer
being left as they were, although the pen encoder would return ten bytes. -/
theorem C25_default_get_report_needs_active_mode :
    Intuos5.usb_wacom_handle_control { Intuos5.zeroState with mode := 1 }
        { status := USBRet.SUCCESS, actual_length := 0,
          data := [0, 0, 0, 0, 0, 0, 0, 0, 0, 0] } 0xA101 0 0 10 (-1)
      = ({ Intuos5.zeroState with mode := 1 },
         { status := USBRet.SUCCESS, actual_length := 0,
           data := [0, 0, 0, 0, 0, 0, 0, 0, 0, 0] })
    ∧ Intuos5.usb_wacom_poll { Intuos5.zeroState with mode := 1 }
        [0, 0, 0, 0, 0, 0, 0, 0, 0, 0] 10
      = ([2, 0xE0, 0, 0, 0, 0, 0, 0x20, 0x40, 40], 10)
    ∧ Bamboo.usb_wacom_handle_control { Bamboo.zeroState with mode := 1 }
        { status := USBRet.SUCCESS, actual_length := 0,
          data := [0, 0, 0, 0, 0, 0, 0, 0, 0, 0] } 0xA101 0 0 10 (-1)
      = ({ Bamboo.zeroState with mode := 1 },
         { status := USBRet.SUCCESS, actual_length := 0,
           data := [0, 0, 0, 0, 0, 0, 0, 0, 0, 0] })
    ∧ Bamboo.usb_wacom_poll { Bamboo.zeroState with mode := 1 }
        [0, 0, 0, 0, 0, 0, 0, 0, 0, 0] 10
      = ([2, 0xE0, 0, 0, 0, 0, 0, 0, 0, 0], 10) := by
  decide

/-- C25, amended: for every state, a vendor GET_REPORT whose selector is none of the
named ones (2, and in the advanced variant 5 and 7) changes no state field; in Active
mode it returns exactly what the pen encoder writes for the current state into the
transfer buffer, with the encoder's length, and in any other mode it returns nothing, the
transfer being left as it was. -/
theorem C25_default_get_report (sI : Intuos5.USBWacomState) (sB : Bamboo.USBWacomState)
    (t : ControlTransfer) (value index length desc_ret : Int) (hd : desc_ret < 0)
    (h2 : bits32 value &&& 0xFF ≠ 2) (h5 : bits32 value &&& 0xFF ≠ 5)
    (h7 : bits32 value &&& 0xFF ≠ 7) :
    (Intuos5.usb_wacom_handle_control sI t 0xA101 value index length desc_ret).1 = sI
    ∧ (sI.mode = Intuos5.WACOM_MODE_WACOM →
        (Intuos5.usb_wacom_handle_control sI t 0xA101 value index length desc_ret).2
          = { t with data := (Intuos5.usb_wacom_poll sI t.data length).1,
                     actual_length := (Intuos5.usb_wacom_poll sI t.data length).2 })
    ∧ (sI.mode ≠ Intuos5.WACOM_MODE_WACOM →
        (Intuos5.usb_wacom_handle_control sI t 0xA101 value index length desc_ret).2 = t)
    ∧ (Bamboo.usb_wacom_handle_control sB t 0xA101 value index length desc_ret).1 = sB
    ∧ (sB.mode = Bamboo.WACOM_MODE_WACOM →
        (Bamboo.usb_wacom_handle_control sB t 0xA101 value index length desc_ret).2
          = { t with data := (Bamboo.usb_wacom_poll sB t.data length).1,
                     actual_length := (Bamboo.usb_wacom_poll sB t.data length).2 })
    ∧ (sB.mode ≠ Bamboo.WACOM_MODE_WACOM →
        (Bamboo.usb_wacom_handle_control sB t 0xA101 value index length desc_ret).2 = t) := by
  rw [intuos5_get_report_eq sI t value index length desc_ret hd,
    bamboo_get_report_eq sB t value index length desc_ret hd]
  have a2 : ¬ bits32 value &&& 0xFF = Intuos5.WACOM_REQUEST_GET_MODE := h2
  have a5 : ¬ bits32 value &&& 0xFF = Intuos5.WACOM_REQUEST_GET_FIRST_TOOL_ID := h5
  have a7 : ¬ bits32 value &&& 0xFF = Intuos5.WACOM_REQUEST_GET_VERSIONS := h7
  have b2 : ¬ bits32 value &&& 0xFF = Bamboo.WACOM_REQUEST_GET_MODE := h2
  refine ⟨rfl, ?_, ?_, rfl, ?_, ?_⟩
  · intro hm
    show Intuos5.control_get_report sI t value length = _
    unfold Intuos5.control_get_report
    simp only [if_neg a2, if_neg a5, if_neg a7, if_pos hm]
  · intro hm
    show Intuos5.control_get_report sI t value length = _
    unfold Intuos5.control_get_report
    simp only [if_neg a2, if_neg a5, if_neg a7, if_neg hm]
  · intro hm
    show Bamboo.control_get_report sB t value length = _
    unfold Bamboo.control_get_report
    simp only [if_neg b2, if_pos hm]
  · intro hm
    show Bamboo.control_get_report sB t value length = _
    unfold Bamboo.control_get_report
    simp only [if_neg b2, if_neg hm]

/-- Witness of `C25_default_get_report`: selector 0 on the zero state of both variants. -/
theorem C25_default_get_report_witness :
    ((-1 : Int) < 0 ∧ bits32 0 &&& 0xFF ≠ 2 ∧ bits32 0 &&& 0xFF ≠ 5 ∧ bits32 0 &&& 0xFF ≠ 7)
    ∧ (Intuos5.usb_wacom_handle_control Intuos5.zeroState
        { status := USBRet.SUCCESS, actual_length := 0, data := [] } 0xA101 0 0 0 (-1)).1
      = Intuos5.zeroState :=
  ⟨by decide,
   (C25_default_get_report Intuos5.zeroState Bamboo.zeroState
     { status := USBRet.SUCCESS, actual_length := 0, data := [] } 0 0 0 (-1)
     (by decide) (by decide) (by decide) (by decide)).1⟩


/-- C26, as stated, fails for two of its three kinds of request: on the zero state of
either variant, a SET_REPORT whose byte 0 is the unknown value 3 and a GET_REPORT with the
unknown selector 0 both leave the transfer status at success (state and transfer are
returned as they were); the source only logs "Ignoring unsupported Wacom command". -/
theorem C26_unknown_selector_and_mode_value_do_not_stall :
    Intuos5.usb_wacom_handle_control Intuos5.zeroState
        { status := USBRet.SUCCESS, actual_length := 0, data := [3, 0] } 0x2109 0 0 2 (-1)
      = (Intuos5.zeroState, { status := USBRet.SUCCESS, actual_length := 0, data := [3, 0] })
    ∧ Intuos5.usb_wacom_handle_control Intuos5.zeroState
        { status := USBRet.SUCCESS, actual_length := 0, data := [3, 0] } 0xA101 0 0 2 (-1)
      = (Intuos5.zeroState, { status := USBRet.SUCCESS, actual_length := 0, data := [3, 0] })
    ∧ Bamboo.usb_wacom_handle_control Bamboo.zeroState
        { status := USBRet.SUCCESS, actual_length := 0, data := [3, 0] } 0x2109 0 0 2 (-1)
      = (Bamboo.zeroState, { status := USBRet.SUCCESS, actual_length := 0, data := [3, 0] })
    ∧ Bamboo.usb_wacom_handle_control Bamboo.zeroState
        { status := USBRet.SUCCESS, actual_length := 0, data := [3, 0] } 0xA101 0 0 2 (-1)
      = (Bamboo.zeroState, { status := USBRet.SUCCESS, actual_length := 0, data := [3, 0] }) := by
  decide

/-- C26, amended: in both variants, for every state, none of the three requests changes
the tablet state, and only the report-descriptor request with an index other than 0 and 1
stalls (the transfer is returned with status stall and otherwise as it was).  A
GET_REPORT with an unknown selector leaves the transfer status as it was, and a
SET_REPORT whose byte 0 is an unknown value (not 1 or 2, nor, in the advanced variant,
0x20, 0x04 or 0x0d) leaves the whole transfer as it was. -/
theorem C26_rejections (sI : Intuos5.USBWacomState) (sB : Bamboo.USBWacomState)
    (t : ControlTransfer) (value index length desc_ret : Int) (hd : desc_ret < 0) :
    (index ≠ 0 → index ≠ 1 →
        Intuos5.usb_wacom_handle_control sI t 0x8106 value index length desc_ret
          = (sI, { t with status := USBRet.STALL })
        ∧ Bamboo.usb_wacom_handle_control sB t 0x8106 value index length desc_ret
          = (sB, { t with status := USBRet.STALL }))
    ∧ (bits32 value &&& 0xFF ≠ 2 →
        (Bamboo.usb_wacom_handle_control sB t 0xA101 value index length desc_ret).1 = sB
        ∧ (Bamboo.usb_wacom_handle_control sB t 0xA101 value index length desc_ret).2.status
            = t.status)
    ∧ (bits32 value &&& 0xFF ≠ 2 → bits32 value &&& 0xFF ≠ 5 → bits32 value &&& 0xFF ≠ 7 →
        (Intuos5.usb_wacom_handle_control sI t 0xA101 value index length desc_ret).1 = sI
        ∧ (Intuos5.usb_wacom_handle_control sI t 0xA101 value index length desc_ret).2.status
            = t.status)
    ∧ (t.data.getD 0 0 ≠ 1 → t.data.getD 0 0 ≠ 2 →
        Bamboo.usb_wacom_handle_control sB t 0x2109 value index length desc_ret = (sB, t))
    ∧ (t.data.getD 0 0 ≠ 1 → t.data.getD 0 0 ≠ 2 → t.data.getD 0 0 ≠ 0x20 →
        t.data.getD 0 0 ≠ 0x04 → t.data.getD 0 0 ≠ 0x0d →
        Intuos5.usb_wacom_handle_control sI t 0x2109 value index length desc_ret = (sI, t)) := by
  refine ⟨?_, ?_, ?_, ?_, ?_⟩
  · intro h0 h1
    rw [intuos5_get_descriptor_eq sI t value index length desc_ret hd,
      bamboo_get_descriptor_eq sB t value index length desc_ret hd]
    unfold Intuos5.control_get_report_descriptor Bamboo.control_get_report_descriptor
      Intuos5.stall Bamboo.stall
    simp only [if_neg h0, if_neg h1, ite_self, and_self]
  · intro h2
    have b2 : ¬ bits32 value &&& 0xFF = Bamboo.WACOM_REQUEST_GET_MODE := h2
    rw [bamboo_get_report_eq sB t value index length desc_ret hd]
    refine ⟨rfl, ?_⟩
    show (Bamboo.control_get_report sB t value length).status = _
    unfold Bamboo.control_get_report
    simp only [if_neg b2]
    by_cases hm : sB.mode = Bamboo.WACOM_MODE_WACOM
    · rw [if_pos hm]
    · rw [if_neg hm]
  · intro h2 h5 h7
    have a2 : ¬ bits32 value &&& 0xFF = Intuos5.WACOM_REQUEST_GET_MODE := h2
    have a5 : ¬ bits32 value &&& 0xFF = Intuos5.WACOM_REQUEST_GET_FIRST_TOOL_ID := h5
    have a7 : ¬ bits32 value &&& 0xFF = Intuos5.WACOM_REQUEST_GET_VERSIONS := h7
    rw [intuos5_get_report_eq sI t value index length desc_ret hd]
    refine ⟨rfl, ?_⟩
    show (Intuos5.control_get_report sI t value length).status = _
    unfold Intuos5.control_get_report
    simp only [if_neg a2, if_neg a5, if_neg a7]
    by_cases hm : sI.mode = Intuos5.WACOM_MODE_WACOM
    · rw [if_pos hm]
    · rw [if_neg hm]
  · intro h1 h2
    rw [bamboo_set_report_eq sB t value index length desc_ret hd]
    unfold Bamboo.control_set_report
    rw [if_neg (by rintro (h | h); exact h1 h; exact h2 h)]
  · intro h1 h2 h20 h4 hd0
    have c20 : ¬ t.data.getD 0 0 = Intuos5.WAC_CMD_LED_CONTROL := h20
    have cd : ¬ t.data.getD 0 0 = Intuos5.WAC_CMD_SET_SCANMODE_PENTOUCH := hd0
    rw [intuos5_set_report_eq sI t value index length desc_ret hd]
    unfold Intuos5.control_set_report
    rw [if_neg (by rintro (h | h); exact h1 h; exact h2 h), if_neg c20, if_neg h4, if_neg cd]

/-- Witness of `C26_rejections`: report-descriptor index 2 on the zero states. -/
theorem C26_rejections_witness :
    ((-1 : Int) < 0 ∧ (2 : Int) ≠ 0 ∧ (2 : Int) ≠ 1)
    ∧ Intuos5.usb_wacom_handle_control Intuos5.zeroState
        { status := USBRet.SUCCESS, actual_length := 0, data := [7] } 0x8106 0x2200 2 1 (-1)
      = (Intuos5.zeroState, { status := USBRet.STALL, actual_length := 0, data := [7] }) :=
  ⟨by decide,
   ((C26_rejections Intuos5.zeroState Bamboo.zeroState
     { status := USBRet.SUCCESS, actual_length := 0, data := [7] } 0x2200 2 1 (-1)
     (by decide)).1 (by decide) (by decide)).1⟩

/-- C27: any unrecognized request yields a protocol stall.  In both variants, for every
state, a control request that the host's descriptor handler did not serve and whose code
is none of the nine the device handles returns the state as it was and the transfer with
status stall; and a data transfer whose token is not IN, or whose token is IN on an
endpoint other than the two defined ones (2 and 3 in the advanced variant, 2 and 1 in the
simple one), returns the state as it was and the packet with status stall. -/
theorem C27_unrecognized_requests_stall (sI : Intuos5.USBWacomState)
    (sB : Bamboo.USBWacomState) (t : ControlTransfer)
    (request value index length desc_ret : Int) (p : USBPacket) (buf : List Nat) (now : Int)
    (hd : desc_ret < 0)
    (hreq : ∀ c ∈ [(0x2109 : Int), 0x2101, 0x210b, 0x8106, 0x8006, 0x0201, 0xA101, 0xA102, 0x210a],
      request ≠ c) :
    Intuos5.usb_wacom_handle_control sI t request value index length desc_ret
      = (sI, { t with status := USBRet.STALL })
    ∧ Bamboo.usb_wacom_handle_control sB t request value index length desc_ret
      = (sB, { t with status := USBRet.STALL })
    ∧ (p.pid ≠ USBToken.IN ∨ (p.ep ≠ 2 ∧ p.ep ≠ 3) →
        Intuos5.usb_wacom_handle_data sI p buf now = (sI, { p with status := USBRet.STALL }))
    ∧ (p.pid ≠ USBToken.IN ∨ (p.ep ≠ 2 ∧ p.ep ≠ 1) →
        Bamboo.usb_wacom_handle_data sB p buf now = (sB, { p with status := USBRet.STALL })) := by
  refine ⟨intuos5_default_eq sI t request value index length desc_ret hd hreq,
    bamboo_default_eq sB t request value index length desc_ret hd hreq, ?_, ?_⟩
  · obtain ⟨ppid, pep, pst, pdata⟩ := p
    rintro (h | ⟨h2, h3⟩)
    · cases ppid
      · exact absurd rfl h
      · rfl
      · rfl
    · cases ppid
      · show (if pep = 2 then _ else if pep = 3 then _ else _) = _
        have e2 : ¬ pep = 2 := h2
        have e3 : ¬ pep = 3 := h3
        rw [if_neg e2, if_neg e3]
      · rfl
      · rfl
  · obtain ⟨ppid, pep, pst, pdata⟩ := p
    rintro (h | ⟨h2, h1⟩)
    · cases ppid
      · exact absurd rfl h
      · rfl
      · rfl
    · cases ppid
      · show (if pep = 2 then _ else if pep = 1 then _ else _) = _
        have e2 : ¬ pep = 2 := h2
        have e1 : ¬ pep = 1 := h1
        rw [if_neg e2, if_neg e1]
      · rfl
      · rfl

/-- Witness of `C27_unrecognized_requests_stall`: the request code 0x2103 on the zero
states. -/
theorem C27_unrecognized_requests_stall_witness :
    ((-1 : Int) < 0
      ∧ ∀ c ∈ [(0x2109 : Int), 0x2101, 0x210b, 0x8106, 0x8006, 0x0201, 0xA101, 0xA102, 0x210a],
          (0x2103 : Int) ≠ c)
    ∧ Intuos5.usb_wacom_handle_control Intuos5.zeroState
        { status := USBRet.SUCCESS, actual_length := 0, data := [7] } 0x2103 0 0 1 (-1)
      = (Intuos5.zeroState, { status := USBRet.STALL, actual_length := 0, data := [7] }) :=
  ⟨by decide,
   (C27_unrecognized_requests_stall Intuos5.zeroState Bamboo.zeroState
     { status := USBRet.SUCCESS, actual_length := 0, data := [7] } 0x2103 0 0 1 (-1)
     { pid := USBToken.OUT, ep := 3, status := USBRet.SUCCESS, data := [] } [] 0
     (by decide) (by decide)).1⟩


/-! ## Reset, the version report and the subscription (claims C28 to C30) -/

/-- C28, as stated, fails for the dirty flags: after a reset of the zero state the
advanced variant has `changedProximity` set and the simple variant has `changedPen`
set, since the mode switch that ends the reset marks the state for resending. -/
theorem C28_reset_leaves_a_dirty_flag_set :
    (Intuos5.usb_wacom_handle_reset Intuos5.zeroState).changedProximity = true
    ∧ (Bamboo.usb_wacom_handle_reset Bamboo.zeroState).changedPen = true := by
  decide

/-- C28, amended: in both variants, for every prior state, after device reset the mode is
Passive (1), x = y = 0, the wheel accumulator is 0, the buttons are 0 and the state is
not subscribed; in the advanced variant proximity is false, `changedPen` is false and
`changedProximity` is true, and in the simple variant `changedPen` is true. -/
theorem C28_reset_lifecycle (sI : Intuos5.USBWacomState) (sB : Bamboo.USBWacomState) :
    ((Intuos5.usb_wacom_handle_reset sI).mode = 1
      ∧ (Intuos5.usb_wacom_handle_reset sI).x = 0
      ∧ (Intuos5.usb_wacom_handle_reset sI).y = 0
      ∧ (Intuos5.usb_wacom_handle_reset sI).dz = 0
      ∧ (Intuos5.usb_wacom_handle_reset sI).buttons_state = 0
      ∧ (Intuos5.usb_wacom_handle_reset sI).eh_entry = false
      ∧ (Intuos5.usb_wacom_handle_reset sI).penInProx = false
      ∧ (Intuos5.usb_wacom_handle_reset sI).changedPen = false
      ∧ (Intuos5.usb_wacom_handle_reset sI).changedProximity = true)
    ∧ ((Bamboo.usb_wacom_handle_reset sB).mode = 1
      ∧ (Bamboo.usb_wacom_handle_reset sB).x = 0
      ∧ (Bamboo.usb_wacom_handle_reset sB).y = 0
      ∧ (Bamboo.usb_wacom_handle_reset sB).dz = 0
      ∧ (Bamboo.usb_wacom_handle_reset sB).buttons_state = 0
      ∧ (Bamboo.usb_wacom_handle_reset sB).eh_entry = false
      ∧ (Bamboo.usb_wacom_handle_reset sB).changedPen = true) :=
  ⟨⟨rfl, rfl, rfl, rfl, rfl, rfl, rfl, rfl, rfl⟩, ⟨rfl, rfl, rfl, rfl, rfl, rfl, rfl⟩⟩

/-- The bytes a proximity report hands to the transport are none, or start with the
pen-report id 2. -/
theorem prox_emitted_head (s : Intuos5.USBWacomState) (buf : List Nat) (b : Bool) :
    (Intuos5.usb_wacom_prox_event s buf buf.length b).1.take
        (Intuos5.usb_wacom_prox_event s buf buf.length b).2.toNat = []
    ∨ ((Intuos5.usb_wacom_prox_event s buf buf.length b).1.take
        (Intuos5.usb_wacom_prox_event s buf buf.length b).2.toNat).head? = some 2 := by
  by_cases hb : 9 ≤ buf.length
  · right
    rw [prox_event_eq s buf b hb]
    have h0 : buf.length ≠ 0 := by omega
    simp [List.head?_take, h0]
  · left
    have hlen : (buf.length : Int) < 9 := by omega
    unfold Intuos5.usb_wacom_prox_event
    rw [if_pos hlen]
    rfl

/-- The bytes a pen report hands to the transport are none, or start with the pen-report
id 2. -/
theorem poll_emitted_head (s : Intuos5.USBWacomState) (buf : List Nat) :
    (Intuos5.usb_wacom_poll s buf buf.length).1.take
        (Intuos5.usb_wacom_poll s buf buf.length).2.toNat = []
    ∨ ((Intuos5.usb_wacom_poll s buf buf.length).1.take
        (Intuos5.usb_wacom_poll s buf buf.length).2.toNat).head? = some 2 := by
  by_cases hb : 10 ≤ buf.length
  · right
    have hlen : ¬ ((buf.length : Int) < 10) := by omega
    unfold Intuos5.usb_wacom_poll
    rw [if_neg hlen]
    simp only []
    rw [store10_eq buf hb]
    rfl
  · left
    have hlen : (buf.length : Int) < 10 := by omega
    unfold Intuos5.usb_wacom_poll
    rw [if_pos hlen]
    rfl

/-- A property of the packet a data transfer leaves holds once it holds for each way the
handler ends: a changed status, the copy of a proximity report, or the copy of a pen
report. -/
theorem handle_data_packet_ind (Q : USBPacket → Prop) (s : Intuos5.USBWacomState)
    (p : USBPacket) (buf : List Nat) (now : Int)
    (hnak : Q { p with status := USBRet.NAK })
    (hstall : Q { p with status := USBRet.STALL })
    (hprox : ∀ s1 b, Q (usb_packet_copy p (Intuos5.usb_wacom_prox_event s1 buf buf.length b).1
        (Intuos5.usb_wacom_prox_event s1 buf buf.length b).2))
    (hpoll : ∀ s1, Q (usb_packet_copy p (Intuos5.usb_wacom_poll s1 buf buf.length).1
        (Intuos5.usb_wacom_poll s1 buf buf.length).2)) :
    Q (Intuos5.usb_wacom_handle_data s p buf now).2 := by
  obtain ⟨ppid, pep, pst, pdata⟩ := p
  cases ppid
  · by_cases h2 : pep = 2
    · subst h2
      exact hnak
    · by_cases h3 : pep = 3
      · subst h3
        by_cases hm : s.mode = Intuos5.WACOM_MODE_WACOM
        · have hm2 : ¬ s.mode ≠ Intuos5.WACOM_MODE_WACOM := fun h => h hm
          unfold Intuos5.usb_wacom_handle_data
          simp -zeta only [if_neg h2, if_neg hm2, if_true]
          lift_lets
          intro s1 s2
          clear_value s2
          clear s1
          obtain ⟨eh, dx, dy, dz, bs, x, y, pr, mode, idle, pid, vid, lpt, liet, prox, cpen,
            cprox⟩ := s2
          cases cpen <;> cases cprox
          · exact hnak
          · exact hprox _ _
          · exact hpoll _
          · exact hprox _ _
        · have e : Intuos5.usb_wacom_handle_data s
              { pid := USBToken.IN, ep := 3, status := pst, data := pdata } buf now
              = (s, { pid := USBToken.IN, ep := 3, status := USBRet.NAK, data := pdata }) := by
            unfold Intuos5.usb_wacom_handle_data
            simp only [if_neg h2, if_pos hm, if_true]
          rw [e]
          exact hnak
      · have e : Intuos5.usb_wacom_handle_data s
            { pid := USBToken.IN, ep := pep, status := pst, data := pdata } buf now
            = (s, { pid := USBToken.IN, ep := pep, status := USBRet.STALL, data := pdata }) := by
          unfold Intuos5.usb_wacom_handle_data
          simp only [if_neg h2, if_neg h3]
        rw [e]
        exact hstall
  · exact hstall
  · exact hstall

/-- C29: the version report of the advanced variant.  For every state, every buffer of at
least ten bytes and every length of at least 10, `usb_wacom_version_report` writes the
fixed bytes `[10, 0, 0, 0x12, 0x11, 0x12, 0x12, 0x11, 0, 0]` at the start of the buffer,
leaves the rest of the buffer as it was and returns the length, whatever the tablet state;
and the interrupt poll path never emits this report: what a data transfer appends to the
packet is nothing or starts with the report id 2. -/
theorem C29_version_report (s s1 : Intuos5.USBWacomState) (buf : List Nat) (len : Int)
    (p : USBPacket) (pbuf : List Nat) (now : Int)
    (hb : 10 ≤ buf.length) (hl : 10 ≤ len) :
    Intuos5.usb_wacom_version_report s buf len
      = ([10, 0, 0, 0x12, 0x11, 0x12, 0x12, 0x11, 0, 0] ++ buf.drop 10, len)
    ∧ Intuos5.usb_wacom_version_report s1 buf len = Intuos5.usb_wacom_version_report s buf len
    ∧ (∃ out, (Intuos5.usb_wacom_handle_data s p pbuf now).2.data = p.data ++ out
        ∧ (out = [] ∨ out.head? = some 2))
    ∧ (Intuos5.usb_wacom_handle_data s p pbuf now).2.data
        ≠ p.data ++ [10, 0, 0, 0x12, 0x11, 0x12, 0x12, 0x11, 0, 0] := by
  have hlen : ¬ len < 8 := by omega
  have hout : ∃ out, (Intuos5.usb_wacom_handle_data s p pbuf now).2.data = p.data ++ out
      ∧ (out = [] ∨ out.head? = some 2) := by
    apply handle_data_packet_ind
      (fun q => ∃ out, q.data = p.data ++ out ∧ (out = [] ∨ out.head? = some 2))
    · exact ⟨[], (List.append_nil _).symm, Or.inl rfl⟩
    · exact ⟨[], (List.append_nil _).symm, Or.inl rfl⟩
    · intro s2 b
      exact ⟨_, rfl, prox_emitted_head s2 pbuf b⟩
    · intro s2
      exact ⟨_, rfl, poll_emitted_head s2 pbuf⟩
  refine ⟨?_, rfl, hout, ?_⟩
  · unfold Intuos5.usb_wacom_version_report
    rw [if_neg hlen]
    simp only []
    rw [store10_eq buf hb]
    rfl
  · obtain ⟨out, e, h⟩ := hout
    rw [e]
    intro h2
    have e2 := List.append_cancel_left h2
    rcases h with h | h
    · rw [h] at e2
      exact absurd e2 (by decide)
    · rw [e2] at h
      exact absurd h (by decide)

/-- Witness of `C29_version_report`: a ten-byte buffer and length 10 on the zero state. -/
theorem C29_version_report_witness :
    ((10 : Nat) ≤ [7, 7, 7, 7, 7, 7, 7, 7, 7, 7].length ∧ (10 : Int) ≤ 10)
    ∧ Intuos5.usb_wacom_version_report Intuos5.zeroState [7, 7, 7, 7, 7, 7, 7, 7, 7, 7] 10
      = ([10, 0, 0, 0x12, 0x11, 0x12, 0x12, 0x11, 0, 0], 10) :=
  ⟨by decide,
   (C29_version_report Intuos5.zeroState Intuos5.zeroState [7, 7, 7, 7, 7, 7, 7, 7, 7, 7] 10
     { pid := USBToken.IN, ep := 3, status := USBRet.SUCCESS, data := [] } [] 0
     (by decide) (by decide)).1⟩


/-- After a mode switch of the advanced variant the handle is non-null exactly when the
stored mode is the tablet mode. -/
theorem set_mode_subscribed_iff (q : Intuos5.USBWacomState) (m : Int) :
    (Intuos5.usb_wacom_set_tablet_mode q m).eh_entry = true
      ↔ (Intuos5.usb_wacom_set_tablet_mode q m).mode = 2 := by
  have e := set_tablet_mode_effect q m
  rw [e.2.1]
  exact e.2.2.1

/-- After a mode switch of the simple variant the handle is non-null exactly when the
stored mode is the tablet mode. -/
theorem bamboo_set_mode_subscribed_iff (q : Bamboo.USBWacomState) (m : Int) :
    (Bamboo.usb_wacom_set_tablet_mode q m).eh_entry = true
      ↔ (Bamboo.usb_wacom_set_tablet_mode q m).mode = 2 := by
  have e := bamboo_set_tablet_mode_effect q m
  rw [e.1]
  exact e.2.1

/-- In the advanced variant no call breaks the link between the handle and the mode. -/
theorem step_subscribed_iff (s : Intuos5.USBWacomState) (a : Intuos5.Action)
    (hi : s.eh_entry = true ↔ s.mode = 2) :
    (Intuos5.step s a).eh_entry = true ↔ (Intuos5.step s a).mode = 2 := by
  have hset := set_mode_subscribed_iff
  cases a with
  | reset => exact hset _ _
  | setMode mode => exact hset _ _
  | event x y dz b now =>
    have e1 : (Intuos5.step s (Intuos5.Action.event x y dz b now)).eh_entry = s.eh_entry :=
      event_keeps_handle s x y dz b now
    have e2 : (Intuos5.step s (Intuos5.Action.event x y dz b now)).mode = s.mode :=
      (event_effect s x y dz b now).2.1
    rw [e1, e2]
    exact hi
  | poll p buf now =>
    have f := handle_data_frame s p buf now
    have e1 : (Intuos5.step s (Intuos5.Action.poll p buf now)).eh_entry = s.eh_entry := f.2.2.1
    have e2 : (Intuos5.step s (Intuos5.Action.poll p buf now)).mode = s.mode := f.2.1
    rw [e1, e2]
    exact hi
  | control t request value index length desc_ret =>
    exact handle_control_ind (fun q => q.eh_entry = true ↔ q.mode = 2)
      s t request value index length desc_ret hi (fun m => hset s m) hi (fun _ => hi)

/-- In every reachable state of the advanced variant the handle is non-null exactly in
the tablet mode. -/
theorem reachable_subscribed_iff (s : Intuos5.USBWacomState)
    (h : Intuos5.ReachableFromReset s) : s.eh_entry = true ↔ s.mode = 2 := by
  induction h with
  | reset s0 =>
    exact set_mode_subscribed_iff _ _
  | step a _ _ ih => exact step_subscribed_iff _ a ih

/-- What a data transfer of the simple variant leaves alone: the mode and the handle. -/
theorem bamboo_handle_data_frame (s : Bamboo.USBWacomState) (p : USBPacket) (buf : List Nat)
    (now : Int) :
    (Bamboo.usb_wacom_handle_data s p buf now).1.mode = s.mode
    ∧ (Bamboo.usb_wacom_handle_data s p buf now).1.eh_entry = s.eh_entry := by
  obtain ⟨eh, dx, dy, dz, bs, x, y, mode, idle, lpt, cpen⟩ := s
  obtain ⟨ppid, pep, pst, pdata⟩ := p
  unfold Bamboo.usb_wacom_handle_data
  simp only [Bamboo.WACOM_MODE_WACOM]
  cases ppid
  · by_cases h2 : pep = 2
    · simp [h2]
    · by_cases h1 : pep = 1
      · subst h1
        by_cases hm : mode = 2
        · subst hm
          by_cases hq : now - lpt > 100 <;> cases cpen <;> simp [hq]
        · simp [hm]
      · simp [h2, h1]
  · simp
  · simp

/-- Case analysis of the state left by a control request of the simple variant: it is the
state itself, a mode switch of it, or the state with another idle rate. -/
theorem bamboo_handle_control_ind (Q : Bamboo.USBWacomState → Prop) (s : Bamboo.USBWacomState)
    (t : ControlTransfer) (request value index length desc_ret : Int)
    (h1 : Q s) (h2 : ∀ m : Int, Q (Bamboo.usb_wacom_set_tablet_mode s m))
    (h4 : ∀ i : Nat, Q { s with idle := i }) :
    Q (Bamboo.usb_wacom_handle_control s t request value index length desc_ret).1 := by
  have hs : Q (Bamboo.control_set_report s (t.data.getD 0 0)) := by
    unfold Bamboo.control_set_report
    by_cases c : t.data.getD 0 0 = 1 ∨ t.data.getD 0 0 = 2
    · rw [if_pos c]; exact h2 _
    · rw [if_neg c]; exact h1
  unfold Bamboo.usb_wacom_handle_control
  by_cases c0 : desc_ret ≥ 0
  · rw [if_pos c0]; exact h1
  rw [if_neg c0]
  by_cases c : Bamboo.isCase request ClassInterfaceOutRequest Bamboo.WACOM_SET_REPORT = true
  · rw [if_pos c]; exact hs
  rw [if_neg c]
  clear c
  by_cases c : Bamboo.isCase request ClassInterfaceOutRequest Bamboo.WACOM_GET_REPORT = true
  · rw [if_pos c]; exact h1
  rw [if_neg c]
  clear c
  by_cases c : Bamboo.isCase request ClassInterfaceOutRequest Bamboo.HID_SET_PROTOCOL = true
  · rw [if_pos c]; exact h1
  rw [if_neg c]
  clear c
  by_cases c : Bamboo.isCase request InterfaceRequest USB_REQ_GET_DESCRIPTOR = true
  · rw [if_pos c]; exact h1
  rw [if_neg c]
  clear c
  by_cases c : Bamboo.isCase request DeviceRequest USB_REQ_GET_DESCRIPTOR = true
  · rw [if_pos c]; exact h1
  rw [if_neg c]
  clear c
  by_cases c : Bamboo.isCase request EndpointOutRequest USB_REQ_CLEAR_FEATURE = true
  · rw [if_pos c]; exact h1
  rw [if_neg c]
  clear c
  by_cases c : Bamboo.isCase request ClassInterfaceRequest Bamboo.HID_GET_REPORT = true
  · rw [if_pos c]; exact h1
  rw [if_neg c]
  clear c
  by_cases c : Bamboo.isCase request ClassInterfaceRequest Bamboo.HID_GET_IDLE = true
  · rw [if_pos c]; exact h1
  rw [if_neg c]
  clear c
  by_cases c : Bamboo.isCase request ClassInterfaceOutRequest Bamboo.HID_SET_IDLE = true
  · rw [if_pos c]; exact h4 _
  rw [if_neg c]
  clear c
  exact h1

/-- In the simple variant no call breaks the link between the handle and the mode. -/
theorem bamboo_step_subscribed_iff (s : Bamboo.USBWacomState) (a : Bamboo.Action)
    (hi : s.eh_entry = true ↔ s.mode = 2) :
    (Bamboo.step s a).eh_entry = true ↔ (Bamboo.step s a).mode = 2 := by
  have hset := bamboo_set_mode_subscribed_iff
  cases a with
  | reset => exact hset _ _
  | setMode mode => exact hset _ _
  | event x y dz b => exact hi
  | poll p buf now =>
    have f := bamboo_handle_data_frame s p buf now
    have e1 : (Bamboo.step s (Bamboo.Action.poll p buf now)).eh_entry = s.eh_entry := f.2
    have e2 : (Bamboo.step s (Bamboo.Action.poll p buf now)).mode = s.mode := f.1
    rw [e1, e2]
    exact hi
  | control t request value index length desc_ret =>
    exact bamboo_handle_control_ind (fun q => q.eh_entry = true ↔ q.mode = 2)
      s t request value index length desc_ret hi (fun m => hset s m) (fun _ => hi)

/-- In every reachable state of the simple variant the handle is non-null exactly in the
tablet mode. -/
theorem bamboo_reachable_subscribed_iff (s : Bamboo.USBWacomState)
    (h : Bamboo.ReachableFromReset s) : s.eh_entry = true ↔ s.mode = 2 := by
  induction h with
  | reset s0 =>
    exact bamboo_set_mode_subscribed_iff _ _
  | step a _ _ ih => exact bamboo_step_subscribed_iff _ a ih

/-- C30: the subscription tracks the mode.  In both variants, with the handler
registration succeeding, after `usb_wacom_set_tablet_mode(s, m)` the state is subscribed
(the handle is non-null) if and only if m is Active (2), whatever the prior state was;
hence in every state reachable from a reset the state is subscribed if and only if its
mode is Active; and the teardown `usb_wacom_unrealize` always leaves the state
unsubscribed and is idempotent. -/
theorem C30_subscription_tracks_mode (sI qI : Intuos5.USBWacomState)
    (sB qB : Bamboo.USBWacomState) (m : Int)
    (hI : Intuos5.ReachableFromReset sI) (hB : Bamboo.ReachableFromReset sB) :
    (((Intuos5.usb_wacom_set_tablet_mode qI m).eh_entry = true ↔ m = 2)
      ∧ ((Bamboo.usb_wacom_set_tablet_mode qB m).eh_entry = true ↔ m = 2))
    ∧ ((sI.eh_entry = true ↔ sI.mode = 2) ∧ (sB.eh_entry = true ↔ sB.mode = 2))
    ∧ ((Intuos5.usb_wacom_unrealize qI).eh_entry = false
      ∧ Intuos5.usb_wacom_unrealize (Intuos5.usb_wacom_unrealize qI)
          = Intuos5.usb_wacom_unrealize qI
      ∧ (Bamboo.usb_wacom_unrealize qB).eh_entry = false
      ∧ Bamboo.usb_wacom_unrealize (Bamboo.usb_wacom_unrealize qB)
          = Bamboo.usb_wacom_unrealize qB) := by
  refine ⟨⟨(set_tablet_mode_effect qI m).2.2.1, (bamboo_set_tablet_mode_effect qB m).2.1⟩,
    ⟨reachable_subscribed_iff sI hI, bamboo_reachable_subscribed_iff sB hB⟩, ?_, ?_, ?_, ?_⟩
  · unfold Intuos5.usb_wacom_unrealize
    cases h : qI.eh_entry <;> simp [h]
  · unfold Intuos5.usb_wacom_unrealize
    cases h : qI.eh_entry <;> simp [h]
  · unfold Bamboo.usb_wacom_unrealize
    cases h : qB.eh_entry <;> simp [h]
  · unfold Bamboo.usb_wacom_unrealize
    cases h : qB.eh_entry <;> simp [h]

/-- Witness of `C30_subscription_tracks_mode`: the states reached from a reset of the zero
state by a vendor SET_REPORT that selects mode 2 are subscribed. -/
theorem C30_subscription_tracks_mode_witness :
    (Intuos5.ReachableFromReset
        (Intuos5.step (Intuos5.usb_wacom_handle_reset Intuos5.zeroState)
          (Intuos5.Action.control
            { status := USBRet.SUCCESS, actual_length := 0, data := [2] } 0x2109 0 0 1 (-1)))
      ∧ Bamboo.ReachableFromReset
        (Bamboo.step (Bamboo.usb_wacom_handle_reset Bamboo.zeroState)
          (Bamboo.Action.control
            { status := USBRet.SUCCESS, actual_length := 0, data := [2] } 0x2109 0 0 1 (-1))))
    ∧ (Intuos5.step (Intuos5.usb_wacom_handle_reset Intuos5.zeroState)
          (Intuos5.Action.control
            { status := USBRet.SUCCESS, actual_length := 0, data := [2] } 0x2109 0 0 1 (-1))).eh_entry
        = true
    ∧ (Bamboo.step (Bamboo.usb_wacom_handle_reset Bamboo.zeroState)
          (Bamboo.Action.control
            { status := USBRet.SUCCESS, actual_length := 0, data := [2] } 0x2109 0 0 1 (-1))).eh_entry
        = true :=
  have rI := Intuos5.ReachableFromReset.step
    (Intuos5.Action.control
      { status := USBRet.SUCCESS, actual_length := 0, data := [2] } 0x2109 0 0 1 (-1))
    (Intuos5.ReachableFromReset.reset Intuos5.zeroState) trivial
  have rB := Bamboo.ReachableFromReset.step
    (Bamboo.Action.control
      { status := USBRet.SUCCESS, actual_length := 0, data := [2] } 0x2109 0 0 1 (-1))
    (Bamboo.ReachableFromReset.reset Bamboo.zeroState) trivial
  have c := C30_subscription_tracks_mode _ Intuos5.zeroState _ Bamboo.zeroState 2 rI rB
  ⟨⟨rI, rB⟩, c.2.1.1.mpr (by decide), c.2.1.2.mpr (by decide)⟩


/-! ## The tool query, the announcements and the encoders' bounds (claims C31 to C38) -/

/-- C31, as stated, fails while the pen is out of proximity: the tool-id query does not
call the proximity encoder then.  On the zero state (out of proximity), a GET_REPORT with
selector 5 and a nine-byte buffer answers with length 0 and leaves the buffer as it was,
although the proximity encoder for the current proximity state would write the nine-byte
out-of-proximity report. -/
theorem C31_tool_query_out_of_proximity_returns_nothing :
    Intuos5.zeroState.penInProx = false
    ∧ Intuos5.usb_wacom_handle_control Intuos5.zeroState
        { status := USBRet.SUCCESS, actual_length := 7,
          data := [0, 0, 0, 0, 0, 0, 0, 0, 0] } 0xA101 0x0305 0 9 (-1)
      = (Intuos5.zeroState,
         { status := USBRet.SUCCESS, actual_length := 0,
           data := [0, 0, 0, 0, 0, 0, 0, 0, 0] })
    ∧ Intuos5.usb_wacom_prox_event Intuos5.zeroState [0, 0, 0, 0, 0, 0, 0, 0, 0] 9
        Intuos5.zeroState.penInProx
      = ([2, 0x80, 0x80, 0x2F, 0xEE, 0xDC, 0x0D, 0xE0, 0], 9) := by
  decide

/-- C31, amended: in the advanced variant, for every state, a vendor GET_REPORT with
selector 5 changes no state field; while the pen is in proximity it returns what the
proximity encoder writes for the in-proximity state into the transfer buffer, with the
encoder's length, and while the pen is out of proximity it returns length 0 and leaves
the buffer as it was. -/
theorem C31_tool_query (s : Intuos5.USBWacomState) (t : ControlTransfer)
    (value index length desc_ret : Int) (hd : desc_ret < 0)
    (hsel : bits32 value &&& 0xFF = 5) :
    (Intuos5.usb_wacom_handle_control s t 0xA101 value index length desc_ret).1 = s
    ∧ (s.penInProx = true →
        (Intuos5.usb_wacom_handle_control s t 0xA101 value index length desc_ret).2
          = { t with data := (Intuos5.usb_wacom_prox_event s t.data length true).1,
                     actual_length := (Intuos5.usb_wacom_prox_event s t.data length true).2 })
    ∧ (s.penInProx = false →
        (Intuos5.usb_wacom_handle_control s t 0xA101 value index length desc_ret).2
          = { t with actual_length := 0 }) := by
  rw [intuos5_get_report_eq s t value index length desc_ret hd]
  have a2 : ¬ bits32 value &&& 0xFF = Intuos5.WACOM_REQUEST_GET_MODE := by
    rw [hsel]; decide
  have a5 : bits32 value &&& 0xFF = Intuos5.WACOM_REQUEST_GET_FIRST_TOOL_ID := hsel
  refine ⟨rfl, ?_, ?_⟩
  · intro hp
    show Intuos5.control_get_report s t value length = _
    unfold Intuos5.control_get_report
    simp only [if_neg a2, if_pos a5, hp, if_true]
  · intro hp
    show Intuos5.control_get_report s t value length = _
    unfold Intuos5.control_get_report
    simp only [if_neg a2, if_pos a5, hp]
    rfl

/-- Witness of `C31_tool_query`: selector 5 on an in-proximity state with a nine-byte
buffer. -/
theorem C31_tool_query_witness :
    ((-1 : Int) < 0 ∧ bits32 0x0305 &&& 0xFF = 5)
    ∧ ({ Intuos5.zeroState with penInProx := true } : Intuos5.USBWacomState).penInProx = true
    ∧ (Intuos5.usb_wacom_handle_control { Intuos5.zeroState with penInProx := true }
        { status := USBRet.SUCCESS, actual_length := 0,
          data := [0, 0, 0, 0, 0, 0, 0, 0, 0] } 0xA101 0x0305 0 9 (-1)).2
      = { status := USBRet.SUCCESS, actual_length := 9,
          data := [2, 0xC2, 0x80, 0x2F, 0xEE, 0xDC, 0x0D, 0xE0, 0] } :=
  ⟨by decide, rfl,
   ((C31_tool_query { Intuos5.zeroState with penInProx := true }
      { status := USBRet.SUCCESS, actual_length := 0,
        data := [0, 0, 0, 0, 0, 0, 0, 0, 0] } 0x0305 0 9 (-1)
      (by decide) (by decide)).2.1 rfl).trans (by decide)⟩


/-- The data transfer on the pen endpoint in the tablet mode, by what is pending after the
leave-timeout and ping steps: the proximity report, else the pen report, else no data. -/
theorem handle_data_active (s : Intuos5.USBWacomState) (p : USBPacket) (buf : List Nat)
    (now : Int) (hpid : p.pid = USBToken.IN) (hep : p.ep = 3) (hm : s.mode = 2) :
    Intuos5.usb_wacom_handle_data s p buf now
      = (if (Intuos5.specPingStep (Intuos5.specLeaveStep s now) now).changedProximity = true then
          ({ Intuos5.specPingStep (Intuos5.specLeaveStep s now) now with
              lastPacketTime := now, changedProximity := false },
            usb_packet_copy p
              (Intuos5.usb_wacom_prox_event s buf buf.length
                (Intuos5.specPingStep (Intuos5.specLeaveStep s now) now).penInProx).1
              (Intuos5.usb_wacom_prox_event s buf buf.length
                (Intuos5.specPingStep (Intuos5.specLeaveStep s now) now).penInProx).2)
        else if (Intuos5.specPingStep (Intuos5.specLeaveStep s now) now).changedPen = true then
          ({ Intuos5.specPingStep (Intuos5.specLeaveStep s now) now with
              lastPacketTime := now, changedPen := false },
            usb_packet_copy p
              (Intuos5.usb_wacom_poll
                { Intuos5.specPingStep (Intuos5.specLeaveStep s now) now with
                  lastPacketTime := now, changedPen := false } buf buf.length).1
              (Intuos5.usb_wacom_poll
                { Intuos5.specPingStep (Intuos5.specLeaveStep s now) now with
                  lastPacketTime := now, changedPen := false } buf buf.length).2)
        else
          (Intuos5.specPingStep (Intuos5.specLeaveStep s now) now,
            { p with status := USBRet.NAK })) := by
  obtain ⟨eh, dx, dy, dz, bs, x, y, pr, mode, idle, pid, vid, lpt, liet, prox, cpen, cprox⟩ := s
  obtain ⟨ppid, pep, pst, pdata⟩ := p
  simp only at hpid hep hm
  subst hpid hep hm
  unfold Intuos5.usb_wacom_handle_data Intuos5.specLeaveStep Intuos5.specPingStep
  simp only [Intuos5.WACOM_MODE_WACOM, Intuos5.PEN_LEAVE_TIMEOUT, Intuos5.PEN_PING_INTERVAL]
  by_cases hl : now - liet > 5000 <;> by_cases hq : now - lpt > 200 <;>
    cases prox <;> cases cpen <;> cases cprox <;>
    simp [hl, hq, Intuos5.usb_wacom_prox_event]

/-- The data transfer outside the pen endpoint's tablet-mode path changes no state and
hands over no bytes. -/
theorem handle_data_inactive (s : Intuos5.USBWacomState) (p : USBPacket) (buf : List Nat)
    (now : Int) (h : ¬ (p.pid = USBToken.IN ∧ p.ep = 3 ∧ s.mode = 2)) :
    (Intuos5.usb_wacom_handle_data s p buf now).1 = s
    ∧ (Intuos5.usb_wacom_handle_data s p buf now).2.data = p.data := by
  obtain ⟨ppid, pep, pst, pdata⟩ := p
  unfold Intuos5.usb_wacom_handle_data
  simp only [Intuos5.WACOM_MODE_WACOM]
  cases ppid
  · by_cases h2 : pep = 2
    · simp [h2]
    · by_cases h3 : pep = 3
      · have hm : ¬ s.mode = 2 := fun e => h ⟨rfl, h3, e⟩
        simp [h3, hm]
      · simp [h2, h3]
  · simp
  · simp

/-- What the leave-timeout and ping steps can do to the proximity flags: they never raise
the proximity, and while the pen stays in proximity they do not touch
`changedProximity`. -/
theorem steps_flags (s : Intuos5.USBWacomState) (now : Int) :
    ((Intuos5.specPingStep (Intuos5.specLeaveStep s now) now).penInProx = true →
      s.penInProx = true
      ∧ (Intuos5.specPingStep (Intuos5.specLeaveStep s now) now).changedProximity
          = s.changedProximity)
    ∧ (Intuos5.specPingStep (Intuos5.specLeaveStep s now) now).mode = s.mode := by
  obtain ⟨eh, dx, dy, dz, bs, x, y, pr, mode, idle, pid, vid, lpt, liet, prox, cpen, cprox⟩ := s
  unfold Intuos5.specLeaveStep Intuos5.specPingStep
  by_cases hl : now - liet > 5000 <;> by_cases hq : now - lpt > 200 <;>
    cases prox <;> cases cpen <;> cases cprox <;> simp [hl, hq]

/-- The status byte of the advanced pen report carries the in-range bit `0x20`, whatever
the side buttons and the low pressure bit; so it is not `0xC2`. -/
theorem pen_status_byte (r m : Bool) (q : Nat) :
    toUInt8 (0x80 ||| 0x40 ||| 0x20 ||| ((if r = true then 2 else 0) ||| (if m = true then 4 else 0))
      ||| (q &&& 1)) &&& 0x20 = 0x20 := by
  have hq : q &&& 1 = 0 ∨ q &&& 1 = 1 := by
    rw [Nat.and_one_is_mod]
    omega
  rcases hq with h | h <;> rw [h] <;> cases r <;> cases m <;> decide

/-- With a buffer too short for the pen report the encoder hands over nothing. -/
theorem pen_emitted_short (s : Intuos5.USBWacomState) (buf : List Nat)
    (hb : buf.length < 10) :
    Intuos5.usb_wacom_poll s buf buf.length = (buf, 0) := by
  have hlen : (buf.length : Int) < 10 := by omega
  unfold Intuos5.usb_wacom_poll
  rw [if_pos hlen]

/-- With a buffer too short for the proximity report the encoder hands over nothing. -/
theorem prox_emitted_short (s : Intuos5.USBWacomState) (buf : List Nat) (b : Bool)
    (hb : buf.length < 9) :
    Intuos5.usb_wacom_prox_event s buf buf.length b = (buf, 0) := by
  have hlen : (buf.length : Int) < 9 := by omega
  unfold Intuos5.usb_wacom_prox_event
  rw [if_pos hlen]

/-- The bytes of a pen report that is handed over count as a pen report and not as a tool
report. -/
theorem pen_emitted_class (s : Intuos5.USBWacomState) (buf : List Nat)
    (hb : 10 ≤ buf.length) :
    Intuos5.isPenReport ((Intuos5.usb_wacom_poll s buf buf.length).1.take
        (Intuos5.usb_wacom_poll s buf buf.length).2.toNat) = true
    ∧ Intuos5.isToolReport ((Intuos5.usb_wacom_poll s buf buf.length).1.take
        (Intuos5.usb_wacom_poll s buf buf.length).2.toNat) = false := by
  have hlen : (10 : Int) ≤ (buf.length : Int) := by omega
  have h2 : (Intuos5.usb_wacom_poll s buf buf.length).2 = 10 := by
    unfold Intuos5.usb_wacom_poll
    rw [if_neg (by omega)]
  have ht := intuos_poll_take s buf buf.length hlen hb
  rw [h2]
  have e10 : (10 : Int).toNat = 10 := rfl
  rw [e10, ht]
  have hbit := pen_status_byte (buttonDown s.buttons_state MOUSE_EVENT_RBUTTON)
    (buttonDown s.buttons_state MOUSE_EVENT_MBUTTON)
    (if buttonDown s.buttons_state MOUSE_EVENT_LBUTTON then toUInt16 s.pressure else 0)
  constructor
  · unfold Intuos5.isPenReport
    simp only [hbit]
    decide
  · unfold Intuos5.isToolReport
    simp only [List.take]
    cases hx : ([toUInt8 2, toUInt8 (0x80 ||| 0x40 ||| 0x20
          ||| ((if buttonDown s.buttons_state MOUSE_EVENT_RBUTTON then 2 else 0)
                ||| (if buttonDown s.buttons_state MOUSE_EVENT_MBUTTON then 4 else 0))
          ||| ((if buttonDown s.buttons_state MOUSE_EVENT_LBUTTON
                  then toUInt16 s.pressure else 0) &&& 1))] == [2, 0xC2])
    · rfl
    · exfalso
      have e := eq_of_beq hx
      have e1 : toUInt8 (0x80 ||| 0x40 ||| 0x20
          ||| ((if buttonDown s.buttons_state MOUSE_EVENT_RBUTTON then 2 else 0)
                ||| (if buttonDown s.buttons_state MOUSE_EVENT_MBUTTON then 4 else 0))
          ||| ((if buttonDown s.buttons_state MOUSE_EVENT_LBUTTON
                  then toUInt16 s.pressure else 0) &&& 1)) = 0xC2 := by
        injection e with _ e
        injection e
      rw [e1] at hbit
      exact absurd hbit (by decide)

/-- The bytes of a proximity report that is handed over count as a tool report exactly
when the report is for a pen in proximity, and never as a pen report. -/
theorem prox_emitted_class (s : Intuos5.USBWacomState) (buf : List Nat) (b : Bool)
    (hb : 9 ≤ buf.length) :
    Intuos5.isToolReport ((Intuos5.usb_wacom_prox_event s buf buf.length b).1.take
        (Intuos5.usb_wacom_prox_event s buf buf.length b).2.toNat) = b
    ∧ Intuos5.isPenReport ((Intuos5.usb_wacom_prox_event s buf buf.length b).1.take
        (Intuos5.usb_wacom_prox_event s buf buf.length b).2.toNat) = false := by
  rw [prox_event_eq s buf b hb]
  obtain ⟨k, hk⟩ : ∃ k, buf.length = k + 9 := ⟨buf.length - 9, by omega⟩
  simp only [Int.toNat_ofNat, hk]
  cases b
  · constructor <;> rfl
  · constructor <;> rfl

/-- What a data transfer does to the proximity flags and what it hands over: it never
raises the proximity; it leaves the state alone and hands over nothing, or it leaves
`changedProximity` clear; and it hands over a tool report only from a state in
proximity with `changedProximity` set. -/
theorem poll_tool_step (s : Intuos5.USBWacomState) (p : USBPacket) (buf : List Nat)
    (now : Int) :
    ((Intuos5.usb_wacom_handle_data s p buf now).1.penInProx = true → s.penInProx = true)
    ∧ (((Intuos5.usb_wacom_handle_data s p buf now).1 = s ∧ Intuos5.emitted s p buf now = [])
        ∨ (Intuos5.usb_wacom_handle_data s p buf now).1.changedProximity = false)
    ∧ (Intuos5.isToolReport (Intuos5.emitted s p buf now) = true →
        s.penInProx = true ∧ s.changedProximity = true) := by
  refine ⟨(handle_data_frame s p buf now).2.2.2, ?_⟩
  unfold Intuos5.emitted
  by_cases hact : p.pid = USBToken.IN ∧ p.ep = 3 ∧ s.mode = 2
  · obtain ⟨hpid, hep, hm⟩ := hact
    have hs := steps_flags s now
    rw [handle_data_active s p buf now hpid hep hm]
    by_cases c1 : (Intuos5.specPingStep (Intuos5.specLeaveStep s now) now).changedProximity = true
    · rw [if_pos c1]
      refine ⟨Or.inr rfl, ?_⟩
      simp only [usb_packet_copy, List.drop_left]
      intro ht
      by_cases hb : 9 ≤ buf.length
      · rw [(prox_emitted_class s buf _ hb).1] at ht
        have h := hs.1 ht
        exact ⟨h.1, by rw [← h.2]; exact c1⟩
      · rw [prox_emitted_short s buf _ (by omega)] at ht
        exact absurd ht (Bool.false_ne_true)
    · rw [if_neg c1]
      have c1f : (Intuos5.specPingStep (Intuos5.specLeaveStep s now) now).changedProximity
          = false := by
        cases h : (Intuos5.specPingStep (Intuos5.specLeaveStep s now) now).changedProximity
        · rfl
        · exact absurd h c1
      by_cases c2 : (Intuos5.specPingStep (Intuos5.specLeaveStep s now) now).changedPen = true
      · rw [if_pos c2]
        refine ⟨Or.inr c1f, ?_⟩
        simp only [usb_packet_copy, List.drop_left]
        intro ht
        by_cases hb : 10 ≤ buf.length
        · rw [(pen_emitted_class _ buf hb).2] at ht
          exact absurd ht (by decide)
        · rw [pen_emitted_short _ buf (by omega)] at ht
          exact absurd ht (Bool.false_ne_true)
      · rw [if_neg c2]
        refine ⟨Or.inr c1f, ?_⟩
        simp only [List.drop_length]
        intro ht
        exact absurd ht (by decide)
  · have h := handle_data_inactive s p buf now hact
    rw [h.2, List.drop_length]
    exact ⟨Or.inl ⟨h.1, rfl⟩, fun ht => absurd ht (by decide)⟩


/-- A pointer event leaves the pen in proximity; it sets `changedProximity` on entry and
leaves it alone otherwise. -/
theorem event_proximity (s : Intuos5.USBWacomState) (x y dz b now : Int) :
    (Intuos5.usb_wacom_event s x y dz b now).penInProx = true
    ∧ (s.penInProx = true →
        (Intuos5.usb_wacom_event s x y dz b now).changedProximity = s.changedProximity) := by
  unfold Intuos5.usb_wacom_event
  cases h : s.penInProx <;> simp [h]

/-- The observer's invariant is kept by every pointer event and data transfer: all tool
reports so far were in order, at most one came since the last entry, and while an entry
is still to be announced nothing has been reported since it. -/
theorem observe_step_inv (s : Intuos5.USBWacomState) (m : Intuos5.ToolMonitor)
    (a : Intuos5.Action) (ha : Intuos5.isEventOrPoll a = true)
    (h : m.ok = true ∧ m.toolReports ≤ 1
      ∧ (s.penInProx = true → s.changedProximity = true →
          m.entered = true ∧ m.toolReports = 0 ∧ m.penReports = 0)) :
    (Intuos5.observe s m a).ok = true ∧ (Intuos5.observe s m a).toolReports ≤ 1
    ∧ ((Intuos5.step s a).penInProx = true → (Intuos5.step s a).changedProximity = true →
        (Intuos5.observe s m a).entered = true ∧ (Intuos5.observe s m a).toolReports = 0
        ∧ (Intuos5.observe s m a).penReports = 0) := by
  obtain ⟨hok, hle, hpend⟩ := h
  cases a with
  | reset => exact absurd ha Bool.false_ne_true
  | setMode mode => exact absurd ha Bool.false_ne_true
  | control t request value index length desc_ret => exact absurd ha Bool.false_ne_true
  | event x y dz b now =>
    have e := event_proximity s x y dz b now
    have e1 : (Intuos5.step s (Intuos5.Action.event x y dz b now)).penInProx = true := e.1
    cases hp : s.penInProx
    · have eo : Intuos5.observe s m (Intuos5.Action.event x y dz b now)
          = { m with entered := true, toolReports := 0, penReports := 0 } := by
        unfold Intuos5.observe
        simp only [hp, e1]
        rfl
      rw [eo]
      exact ⟨hok, Nat.zero_le 1, fun _ _ => ⟨rfl, rfl, rfl⟩⟩
    · have eo : Intuos5.observe s m (Intuos5.Action.event x y dz b now) = m := by
        unfold Intuos5.observe
        simp only [hp]
        rfl
      have e2 : (Intuos5.step s (Intuos5.Action.event x y dz b now)).changedProximity
          = s.changedProximity := e.2 hp
      rw [eo, e2]
      exact ⟨hok, hle, fun _ hc => hpend hp hc⟩
  | poll p buf now =>
    obtain ⟨f1, f2, f3⟩ := poll_tool_step s p buf now
    have hno : (!s.penInProx && (Intuos5.step s (Intuos5.Action.poll p buf now)).penInProx)
        = false := by
      cases hp : s.penInProx
      · cases hq : (Intuos5.step s (Intuos5.Action.poll p buf now)).penInProx
        · rfl
        · have := f1 hq
          rw [hp] at this
          exact absurd this (by decide)
      · rfl
    show (Intuos5.observe s m (Intuos5.Action.poll p buf now)).ok = true
      ∧ (Intuos5.observe s m (Intuos5.Action.poll p buf now)).toolReports ≤ 1
      ∧ ((Intuos5.usb_wacom_handle_data s p buf now).1.penInProx = true →
          (Intuos5.usb_wacom_handle_data s p buf now).1.changedProximity = true →
          (Intuos5.observe s m (Intuos5.Action.poll p buf now)).entered = true
          ∧ (Intuos5.observe s m (Intuos5.Action.poll p buf now)).toolReports = 0
          ∧ (Intuos5.observe s m (Intuos5.Action.poll p buf now)).penReports = 0)
    cases ht : Intuos5.isToolReport (Intuos5.emitted s p buf now)
    · cases hq : Intuos5.isPenReport (Intuos5.emitted s p buf now)
      · have eo : Intuos5.observe s m (Intuos5.Action.poll p buf now) = m := by
          unfold Intuos5.observe
          simp only [hno, ht, hq]
          rfl
        rw [eo]
        refine ⟨hok, hle, fun hp hc => ?_⟩
        rcases f2 with ⟨es, _⟩ | hcf
        · rw [es] at hp hc
          exact hpend hp hc
        · rw [hcf] at hc
          exact absurd hc (by decide)
      · have eo : Intuos5.observe s m (Intuos5.Action.poll p buf now)
            = { m with penReports := m.penReports + 1 } := by
          unfold Intuos5.observe
          simp only [hno, ht, hq]
          rfl
        rw [eo]
        refine ⟨hok, hle, fun hp hc => ?_⟩
        rcases f2 with ⟨_, eout⟩ | hcf
        · rw [eout] at hq
          exact absurd hq (by decide)
        · rw [hcf] at hc
          exact absurd hc (by decide)
    · have eo : Intuos5.observe s m (Intuos5.Action.poll p buf now)
          = { m with toolReports := m.toolReports + 1
                     ok := m.ok && m.entered && m.toolReports == 0 && m.penReports == 0 } := by
        unfold Intuos5.observe
        simp only [hno, ht]
        rfl
      obtain ⟨hp0, hc0⟩ := f3 ht
      obtain ⟨he, ht0, hp1⟩ := hpend hp0 hc0
      rw [eo]
      refine ⟨?_, ?_, fun hp hc => ?_⟩
      · show (m.ok && m.entered && m.toolReports == 0 && m.penReports == 0) = true
        rw [hok, he, ht0, hp1]
        rfl
      · show m.toolReports + 1 ≤ 1
        omega
      · rcases f2 with ⟨_, eout⟩ | hcf
        · rw [eout] at ht
          exact absurd ht (by decide)
        · rw [hcf] at hc
          exact absurd hc (by decide)

/-- The observer's invariant holds along every run of pointer events and data
transfers. -/
theorem observed_run_inv (acts : List Intuos5.Action) :
    ∀ (s : Intuos5.USBWacomState) (m : Intuos5.ToolMonitor),
      (∀ a ∈ acts, Intuos5.isEventOrPoll a = true) →
      (m.ok = true ∧ m.toolReports ≤ 1
        ∧ (s.penInProx = true → s.changedProximity = true →
            m.entered = true ∧ m.toolReports = 0 ∧ m.penReports = 0)) →
      (Intuos5.observedRun s m acts).2.ok = true
      ∧ (Intuos5.observedRun s m acts).2.toolReports ≤ 1
      ∧ (Intuos5.observedRun s m acts).1 = Intuos5.run s acts := by
  induction acts with
  | nil =>
    intro s m _ h
    exact ⟨h.1, h.2.1, rfl⟩
  | cons a rest ih =>
    intro s m hacts h
    have ha := hacts a (List.mem_cons_self a rest)
    have hrest : ∀ b ∈ rest, Intuos5.isEventOrPoll b = true :=
      fun b hb => hacts b (List.mem_cons_of_mem a hb)
    exact ih (Intuos5.step s a) (Intuos5.observe s m a) hrest (observe_step_inv s m a ha h)

/-- The observer does flag a repeated tool report: when a set-scan-mode command comes in
after the tool report and a pen report of a proximity period, the next data transfer
hands over a second tool report in the same period. -/
theorem tool_monitor_flags_repeat :
    (Intuos5.observedRun (Intuos5.usb_wacom_set_tablet_mode Intuos5.zeroState 2)
      Intuos5.ToolMonitor.start
      [Intuos5.Action.event 0 0 0 0 0,
       Intuos5.Action.poll { pid := USBToken.IN, ep := 3, status := USBRet.SUCCESS, data := [] }
         [0, 0, 0, 0, 0, 0, 0, 0, 0, 0] 0,
       Intuos5.Action.poll { pid := USBToken.IN, ep := 3, status := USBRet.SUCCESS, data := [] }
         [0, 0, 0, 0, 0, 0, 0, 0, 0, 0] 0,
       Intuos5.Action.control { status := USBRet.SUCCESS, actual_length := 0, data := [0x0d] }
         0x2109 0 0 1 (-1),
       Intuos5.Action.poll { pid := USBToken.IN, ep := 3, status := USBRet.SUCCESS, data := [] }
         [0, 0, 0, 0, 0, 0, 0, 0, 0, 0] 0]).2
      = { entered := true, toolReports := 2, penReports := 1, ok := false } := by
  decide

/-- C32: the tool id and serial are sent once per proximity entry.  In the advanced
variant, along every run of pointer events and data transfers that follows the switch to
the tablet mode, every proximity report with `byte1 = 0xC2` that a data transfer hands
over comes after a false-to-true transition of proximity, is the only such report since
that transition and comes before any pen report since that transition (the observer's
flag stays set and its count of tool reports since the last transition is at most one).
The observer reads the reports rightly: a pen report that is handed over counts as a pen
report and not as a tool report, and a proximity report that is handed over counts as a
tool report exactly when it is for a pen in proximity. -/
theorem C32_tool_report_once_per_entry (s0 : Intuos5.USBWacomState)
    (acts : List Intuos5.Action) (hacts : ∀ a ∈ acts, Intuos5.isEventOrPoll a = true) :
    ((Intuos5.observedRun (Intuos5.usb_wacom_set_tablet_mode s0 2)
        Intuos5.ToolMonitor.start acts).2.ok = true
      ∧ (Intuos5.observedRun (Intuos5.usb_wacom_set_tablet_mode s0 2)
          Intuos5.ToolMonitor.start acts).2.toolReports ≤ 1
      ∧ (Intuos5.observedRun (Intuos5.usb_wacom_set_tablet_mode s0 2)
          Intuos5.ToolMonitor.start acts).1
        = Intuos5.run (Intuos5.usb_wacom_set_tablet_mode s0 2) acts)
    ∧ (∀ (s : Intuos5.USBWacomState) (buf : List Nat), 10 ≤ buf.length →
        Intuos5.isPenReport ((Intuos5.usb_wacom_poll s buf buf.length).1.take
            (Intuos5.usb_wacom_poll s buf buf.length).2.toNat) = true
        ∧ Intuos5.isToolReport ((Intuos5.usb_wacom_poll s buf buf.length).1.take
            (Intuos5.usb_wacom_poll s buf buf.length).2.toNat) = false)
    ∧ (∀ (s : Intuos5.USBWacomState) (buf : List Nat) (b : Bool), 9 ≤ buf.length →
        Intuos5.isToolReport ((Intuos5.usb_wacom_prox_event s buf buf.length b).1.take
            (Intuos5.usb_wacom_prox_event s buf buf.length b).2.toNat) = b
        ∧ Intuos5.isPenReport ((Intuos5.usb_wacom_prox_event s buf buf.length b).1.take
            (Intuos5.usb_wacom_prox_event s buf buf.length b).2.toNat) = false) := by
  refine ⟨?_, fun s buf hb => pen_emitted_class s buf hb,
    fun s buf b hb => prox_emitted_class s buf b hb⟩
  apply observed_run_inv acts _ _ hacts
  refine ⟨rfl, Nat.zero_le 1, fun hp _ => ?_⟩
  rw [(set_tablet_mode_effect s0 2).2.2.2] at hp
  exact absurd hp (by decide)

/-- Witness of `C32_tool_report_once_per_entry`: an event and two data transfers after
the switch to the tablet mode; the first transfer hands over the tool report, the second
the pen report. -/
theorem C32_tool_report_once_per_entry_witness :
    (∀ a ∈ [Intuos5.Action.event 0 0 0 0 0,
        Intuos5.Action.poll { pid := USBToken.IN, ep := 3, status := USBRet.SUCCESS, data := [] }
          [0, 0, 0, 0, 0, 0, 0, 0, 0, 0] 0,
        Intuos5.Action.poll { pid := USBToken.IN, ep := 3, status := USBRet.SUCCESS, data := [] }
          [0, 0, 0, 0, 0, 0, 0, 0, 0, 0] 0], Intuos5.isEventOrPoll a = true)
    ∧ (Intuos5.observedRun (Intuos5.usb_wacom_set_tablet_mode Intuos5.zeroState 2)
        Intuos5.ToolMonitor.start
        [Intuos5.Action.event 0 0 0 0 0,
         Intuos5.Action.poll { pid := USBToken.IN, ep := 3, status := USBRet.SUCCESS, data := [] }
           [0, 0, 0, 0, 0, 0, 0, 0, 0, 0] 0,
         Intuos5.Action.poll { pid := USBToken.IN, ep := 3, status := USBRet.SUCCESS, data := [] }
           [0, 0, 0, 0, 0, 0, 0, 0, 0, 0] 0]).2
      = { entered := true, toolReports := 1, penReports := 1, ok := true }
    ∧ (Intuos5.observedRun (Intuos5.usb_wacom_set_tablet_mode Intuos5.zeroState 2)
        Intuos5.ToolMonitor.start
        [Intuos5.Action.event 0 0 0 0 0,
         Intuos5.Action.poll { pid := USBToken.IN, ep := 3, status := USBRet.SUCCESS, data := [] }
           [0, 0, 0, 0, 0, 0, 0, 0, 0, 0] 0,
         Intuos5.Action.poll { pid := USBToken.IN, ep := 3, status := USBRet.SUCCESS, data := [] }
           [0, 0, 0, 0, 0, 0, 0, 0, 0, 0] 0]).2.ok = true :=
  ⟨by decide, by decide,
   (C32_tool_report_once_per_entry Intuos5.zeroState
     [Intuos5.Action.event 0 0 0 0 0,
      Intuos5.Action.poll { pid := USBToken.IN, ep := 3, status := USBRet.SUCCESS, data := [] }
        [0, 0, 0, 0, 0, 0, 0, 0, 0, 0] 0,
      Intuos5.Action.poll { pid := USBToken.IN, ep := 3, status := USBRet.SUCCESS, data := [] }
        [0, 0, 0, 0, 0, 0, 0, 0, 0, 0] 0] (by decide)).1.1⟩


/-- Away from the control requests the pen flag goes with proximity: a reset, a mode
switch, a pointer event and a data transfer each leave `changedPen` set only with the pen
in proximity, when that held before. -/
theorem step_pen_flag_in_proximity (s : Intuos5.USBWacomState) (a : Intuos5.Action)
    (hc : ∀ t request value index length desc_ret,
      a ≠ Intuos5.Action.control t request value index length desc_ret)
    (h : s.changedPen = true → s.penInProx = true) :
    (Intuos5.step s a).changedPen = true → (Intuos5.step s a).penInProx = true := by
  cases a with
  | reset =>
    intro hp
    have e : (Intuos5.step s Intuos5.Action.reset).changedPen = false := rfl
    rw [e] at hp
    exact absurd hp (by decide)
  | setMode mode =>
    intro hp
    have e : (Intuos5.usb_wacom_set_tablet_mode s mode).changedPen = false := by
      unfold Intuos5.usb_wacom_set_tablet_mode
      rfl
    have e2 : (Intuos5.step s (Intuos5.Action.setMode mode)).changedPen = false := e
    rw [e2] at hp
    exact absurd hp (by decide)
  | event x y dz b now => exact fun _ => (event_effect s x y dz b now).1
  | control t request value index length desc_ret =>
    exact absurd rfl (hc t request value index length desc_ret)
  | poll p buf now =>
    show (Intuos5.usb_wacom_handle_data s p buf now).1.changedPen = true →
      (Intuos5.usb_wacom_handle_data s p buf now).1.penInProx = true
    obtain ⟨eh, dx, dy, dz, bs, x, y, pr, mode, idle, pid, vid, lpt, liet, prox, cpen, cprox⟩ := s
    obtain ⟨ppid, pep, pst, pdata⟩ := p
    simp only at h
    unfold Intuos5.usb_wacom_handle_data
    simp only [Intuos5.WACOM_MODE_WACOM, Intuos5.PEN_LEAVE_TIMEOUT, Intuos5.PEN_PING_INTERVAL]
    cases ppid
    · by_cases h2 : pep = 2
      · simpa [h2] using h
      · by_cases h3 : pep = 3
        · subst h3
          by_cases hm : mode = 2
          · subst hm
            by_cases hl : now - liet > 5000 <;> by_cases hq : now - lpt > 200 <;>
              cases prox <;> cases cpen <;> cases cprox <;> simp [hq, hl] at h ⊢
          · simpa [hm] using h
        · simpa [h2, h3] using h
    · simpa using h
    · simpa using h

/-- C33 fails through the vendor commands: after a reset of the zero state, the switch to
the tablet mode and a set-scan-mode command (SET_REPORT with byte 0 `0x0d`), the state is
reachable, has `changedPen` set and the pen out of proximity; a first data transfer hands
over the out-of-proximity report and a second one, at the same time, hands over a pen
report (status byte `0xE0`: proximity, ready, in range) while `penInProx` is false. -/
theorem C33_pen_report_out_of_proximity :
    Intuos5.ReachableFromReset
      (Intuos5.run (Intuos5.usb_wacom_handle_reset Intuos5.zeroState)
        [Intuos5.Action.control { status := USBRet.SUCCESS, actual_length := 0, data := [2] }
           0x2109 0 0 1 (-1),
         Intuos5.Action.control { status := USBRet.SUCCESS, actual_length := 0, data := [0x0d] }
           0x2109 0 0 1 (-1)])
    ∧ (Intuos5.run (Intuos5.usb_wacom_handle_reset Intuos5.zeroState)
        [Intuos5.Action.control { status := USBRet.SUCCESS, actual_length := 0, data := [2] }
           0x2109 0 0 1 (-1),
         Intuos5.Action.control { status := USBRet.SUCCESS, actual_length := 0, data := [0x0d] }
           0x2109 0 0 1 (-1)])
      = { Intuos5.zeroState with
          mode := 2, eh_entry := true, changedPen := true, changedProximity := true,
          penInProx := false }
    ∧ Intuos5.usb_wacom_handle_data
        { Intuos5.zeroState with
          mode := 2, eh_entry := true, changedPen := true, changedProximity := true,
          penInProx := false }
        { pid := USBToken.IN, ep := 3, status := USBRet.SUCCESS, data := [] }
        [0, 0, 0, 0, 0, 0, 0, 0, 0, 0] 0
      = ({ Intuos5.zeroState with
            mode := 2, eh_entry := true, changedPen := true, changedProximity := false,
            penInProx := false },
         { pid := USBToken.IN, ep := 3, status := USBRet.SUCCESS,
           data := [2, 0x80, 0x80, 0x2F, 0xEE, 0xDC, 0x0D, 0xE0, 0, 0] })
    ∧ Intuos5.usb_wacom_handle_data
        { Intuos5.zeroState with
          mode := 2, eh_entry := true, changedPen := true, changedProximity := false,
          penInProx := false }
        { pid := USBToken.IN, ep := 3, status := USBRet.SUCCESS, data := [] }
        [0, 0, 0, 0, 0, 0, 0, 0, 0, 0] 0
      = ({ Intuos5.zeroState with
            mode := 2, eh_entry := true, changedPen := false, changedProximity := false,
            penInProx := false },
         { pid := USBToken.IN, ep := 3, status := USBRet.SUCCESS,
           data := [2, 0xE0, 0, 0, 0, 0, 0, 0x20, 0x40, 40] }) :=
  ⟨Intuos5.ReachableFromReset.step
     (Intuos5.Action.control { status := USBRet.SUCCESS, actual_length := 0, data := [0x0d] }
       0x2109 0 0 1 (-1))
     (Intuos5.ReachableFromReset.step
       (Intuos5.Action.control { status := USBRet.SUCCESS, actual_length := 0, data := [2] }
         0x2109 0 0 1 (-1))
       (Intuos5.ReachableFromReset.reset Intuos5.zeroState) trivial) trivial,
   by decide, by decide, by decide⟩

/-- C34 fails for the lengths 8 and 9: the size check of `usb_wacom_version_report` lets
them pass, and the encoder still stores to `buf[8]` and `buf[9]`.  With length 8 and a
ten-byte buffer filled with 7, the bytes at the indices 8 and 9, which are not below the
length, are overwritten with 0; the same through a GET_REPORT with selector 7 and
length 8. -/
theorem C34_version_report_writes_past_length :
    Intuos5.usb_wacom_version_report Intuos5.zeroState [7, 7, 7, 7, 7, 7, 7, 7, 7, 7] 8
      = ([10, 0, 0, 0x12, 0x11, 0x12, 0x12, 0x11, 0, 0], 8)
    ∧ Intuos5.usb_wacom_version_report Intuos5.zeroState [7, 7, 7, 7, 7, 7, 7, 7, 7, 7] 9
      = ([10, 0, 0, 0x12, 0x11, 0x12, 0x12, 0x11, 0, 0], 9)
    ∧ Intuos5.usb_wacom_handle_control Intuos5.zeroState
        { status := USBRet.SUCCESS, actual_length := 0,
          data := [7, 7, 7, 7, 7, 7, 7, 7, 7, 7] } 0xA101 0x0307 0 8 (-1)
      = (Intuos5.zeroState,
         { status := USBRet.SUCCESS, actual_length := 8,
           data := [10, 0, 0, 0x12, 0x11, 0x12, 0x12, 0x11, 0, 0] }) := by
  decide

/-- C35 fails for three of the four encoders: the simple pen encoder, the proximity
encoder and the version encoder return the length they were given, not the count of bytes
they stored (9, 9 and 10), so the bytes past the report come from what the buffer held
before.  With a sixteen-byte buffer filled with `0xAA`, the proximity report handed to the
transport ends in seven bytes `0xAA`, and with the buffer filled with `0xBB` the same
state hands over other bytes; likewise the simple pen report for a ten-byte buffer and
the version report for length 12.  The advanced pen encoder returns 10, the count it
stored. -/
theorem C35_reported_bytes_include_prior_buffer :
    (Intuos5.usb_wacom_handle_data
        { Intuos5.zeroState with mode := 2, changedProximity := true }
        { pid := USBToken.IN, ep := 3, status := USBRet.SUCCESS, data := [] }
        (List.replicate 16 0xAA) 0).2.data
      = [2, 0x80, 0x80, 0x2F, 0xEE, 0xDC, 0x0D, 0xE0, 0,
          0xAA, 0xAA, 0xAA, 0xAA, 0xAA, 0xAA, 0xAA]
    ∧ (Intuos5.usb_wacom_handle_data
        { Intuos5.zeroState with mode := 2, changedProximity := true }
        { pid := USBToken.IN, ep := 3, status := USBRet.SUCCESS, data := [] }
        (List.replicate 16 0xBB) 0).2.data
      = [2, 0x80, 0x80, 0x2F, 0xEE, 0xDC, 0x0D, 0xE0, 0,
          0xBB, 0xBB, 0xBB, 0xBB, 0xBB, 0xBB, 0xBB]
    ∧ (Bamboo.usb_wacom_handle_data
        { Bamboo.zeroState with mode := 2, changedPen := true }
        { pid := USBToken.IN, ep := 1, status := USBRet.SUCCESS, data := [] }
        (List.replicate 10 0xAA) 0).2.data
      = [2, 0xE0, 0, 0, 0, 0, 0, 0, 0, 0xAA]
    ∧ (Intuos5.usb_wacom_handle_control Intuos5.zeroState
        { status := USBRet.SUCCESS, actual_length := 0, data := List.replicate 12 0xAA }
        0xA101 0x0307 0 12 (-1)).2
      = { status := USBRet.SUCCESS, actual_length := 12,
          data := [10, 0, 0, 0x12, 0x11, 0x12, 0x12, 0x11, 0, 0, 0xAA, 0xAA] }
    ∧ (Intuos5.usb_wacom_handle_data
        { Intuos5.zeroState with mode := 2, changedPen := true, penInProx := true }
        { pid := USBToken.IN, ep := 3, status := USBRet.SUCCESS, data := [] }
        (List.replicate 16 0xAA) 0).2.data
      = [2, 0xE0, 0, 0, 0, 0, 0, 0x20, 0x40, 40] := by
  decide


/-- The leave-timeout and ping steps never clear a pending flag. -/
theorem steps_keep_pending (s : Intuos5.USBWacomState) (now : Int)
    (h : s.changedPen = true ∨ s.changedProximity = true) :
    (Intuos5.specPingStep (Intuos5.specLeaveStep s now) now).changedPen = true
    ∨ (Intuos5.specPingStep (Intuos5.specLeaveStep s now) now).changedProximity = true := by
  obtain ⟨eh, dx, dy, dz, bs, x, y, pr, mode, idle, pid, vid, lpt, liet, prox, cpen, cprox⟩ := s
  simp only at h
  unfold Intuos5.specLeaveStep Intuos5.specPingStep
  by_cases hl : now - liet > 5000 <;> by_cases hq : now - lpt > 200 <;>
    cases prox <;> cases cpen <;> cases cprox <;> simp [hl, hq] at h ⊢

/-- Copying zero bytes leaves the packet as it was. -/
theorem packet_copy_zero (p : USBPacket) (buf : List Nat) : usb_packet_copy p buf 0 = p := by
  obtain ⟨ppid, pep, pst, pdata⟩ := p
  simp [usb_packet_copy]

/-- C36: a poll that the buffer is too small for still consumes the pending announcement.
In the advanced variant, for every state in the tablet mode with a flag set, the data
transfer on the pen endpoint at time `now` selects the proximity report when
`changedProximity` is set after the leave-timeout and ping steps and the pen report
otherwise; with a buffer shorter than the selected report (9 and 10 bytes) it hands over
no byte and leaves the packet as it was, yet clears the selected flag and sets
`lastPacketTime = now`.  In the simple variant, for every state in the tablet mode with
`changedPen` set and every buffer shorter than 9 bytes, the data transfer on the pen
endpoint hands over no byte, clears `changedPen` and sets `lastPacketTime = now`. -/
theorem C36_short_buffer_consumes_announcement (sI : Intuos5.USBWacomState)
    (sB : Bamboo.USBWacomState) (pI pB : USBPacket) (buf : List Nat) (now : Int)
    (hpidI : pI.pid = USBToken.IN) (hepI : pI.ep = 3) (hmI : sI.mode = 2)
    (hdI : sI.changedPen = true ∨ sI.changedProximity = true)
    (hpidB : pB.pid = USBToken.IN) (hepB : pB.ep = 1) (hmB : sB.mode = 2)
    (hdB : sB.changedPen = true) :
    ((Intuos5.specPingStep (Intuos5.specLeaveStep sI now) now).changedProximity = true →
      buf.length < 9 →
      Intuos5.usb_wacom_handle_data sI pI buf now
        = ({ Intuos5.specPingStep (Intuos5.specLeaveStep sI now) now with
              lastPacketTime := now, changedProximity := false }, pI))
    ∧ ((Intuos5.specPingStep (Intuos5.specLeaveStep sI now) now).changedProximity = false →
      buf.length < 10 →
      (Intuos5.specPingStep (Intuos5.specLeaveStep sI now) now).changedPen = true
      ∧ Intuos5.usb_wacom_handle_data sI pI buf now
        = ({ Intuos5.specPingStep (Intuos5.specLeaveStep sI now) now with
              lastPacketTime := now, changedPen := false }, pI))
    ∧ (buf.length < 9 →
      (Intuos5.usb_wacom_handle_data sI pI buf now).2 = pI
      ∧ (Intuos5.usb_wacom_handle_data sI pI buf now).1.lastPacketTime = now
      ∧ (Intuos5.usb_wacom_handle_data sI pI buf now).1.changedProximity = false)
    ∧ (buf.length < 9 →
      Bamboo.usb_wacom_handle_data sB pB buf now
        = ({ sB with lastPacketTime := now, changedPen := false }, pB)) := by
  have hact := handle_data_active sI pI buf now hpidI hepI hmI
  have hpend := steps_keep_pending sI now hdI
  have hprox : (Intuos5.specPingStep (Intuos5.specLeaveStep sI now) now).changedProximity = true →
      buf.length < 9 →
      Intuos5.usb_wacom_handle_data sI pI buf now
        = ({ Intuos5.specPingStep (Intuos5.specLeaveStep sI now) now with
              lastPacketTime := now, changedProximity := false }, pI) := by
    intro hc hb
    rw [hact, if_pos hc, prox_emitted_short sI buf _ hb, packet_copy_zero]
  have hpen : (Intuos5.specPingStep (Intuos5.specLeaveStep sI now) now).changedProximity = false →
      buf.length < 10 →
      (Intuos5.specPingStep (Intuos5.specLeaveStep sI now) now).changedPen = true
      ∧ Intuos5.usb_wacom_handle_data sI pI buf now
        = ({ Intuos5.specPingStep (Intuos5.specLeaveStep sI now) now with
              lastPacketTime := now, changedPen := false }, pI) := by
    intro hc hb
    have hcp : (Intuos5.specPingStep (Intuos5.specLeaveStep sI now) now).changedPen = true := by
      rcases hpend with h | h
      · exact h
      · rw [hc] at h
        exact absurd h (by decide)
    refine ⟨hcp, ?_⟩
    rw [hact, if_neg (by rw [hc]; decide), if_pos hcp, pen_emitted_short _ buf hb,
      packet_copy_zero]
  refine ⟨hprox, hpen, ?_, ?_⟩
  · intro hb
    cases hc : (Intuos5.specPingStep (Intuos5.specLeaveStep sI now) now).changedProximity
    · rw [(hpen hc (by omega)).2]
      exact ⟨rfl, rfl, hc⟩
    · rw [hprox hc hb]
      exact ⟨rfl, rfl, rfl⟩
  · intro hb
    obtain ⟨eh, dx, dy, dz, bs, x, y, mode, idle, lpt, cpen⟩ := sB
    obtain ⟨ppid, pep, pst, pdata⟩ := pB
    simp only at hpidB hepB hmB hdB
    subst hpidB hepB hmB hdB
    have hlen : (buf.length : Int) < 9 := by omega
    unfold Bamboo.usb_wacom_handle_data Bamboo.usb_wacom_poll
    simp [Bamboo.WACOM_MODE_WACOM, hlen, usb_packet_copy]

/-- Witness of `C36_short_buffer_consumes_announcement`: a three-byte buffer right after
the switch to the tablet mode. -/
theorem C36_short_buffer_consumes_announcement_witness :
    ((Intuos5.usb_wacom_set_tablet_mode Intuos5.zeroState 2).mode = 2
      ∧ ((Intuos5.usb_wacom_set_tablet_mode Intuos5.zeroState 2).changedPen = true
          ∨ (Intuos5.usb_wacom_set_tablet_mode Intuos5.zeroState 2).changedProximity = true)
      ∧ (Bamboo.usb_wacom_set_tablet_mode Bamboo.zeroState 2).mode = 2
      ∧ (Bamboo.usb_wacom_set_tablet_mode Bamboo.zeroState 2).changedPen = true
      ∧ ([0, 0, 0] : List Nat).length < 9)
    ∧ (Intuos5.usb_wacom_handle_data (Intuos5.usb_wacom_set_tablet_mode Intuos5.zeroState 2)
          { pid := USBToken.IN, ep := 3, status := USBRet.SUCCESS, data := [] } [0, 0, 0] 7).2
        = { pid := USBToken.IN, ep := 3, status := USBRet.SUCCESS, data := [] }
    ∧ (Intuos5.usb_wacom_handle_data (Intuos5.usb_wacom_set_tablet_mode Intuos5.zeroState 2)
          { pid := USBToken.IN, ep := 3, status := USBRet.SUCCESS, data := [] } [0, 0, 0]
          7).1.lastPacketTime = 7
    ∧ (Intuos5.usb_wacom_handle_data (Intuos5.usb_wacom_set_tablet_mode Intuos5.zeroState 2)
          { pid := USBToken.IN, ep := 3, status := USBRet.SUCCESS, data := [] } [0, 0, 0]
          7).1.changedProximity = false :=
  ⟨by decide,
   (C36_short_buffer_consumes_announcement
     (Intuos5.usb_wacom_set_tablet_mode Intuos5.zeroState 2)
     (Bamboo.usb_wacom_set_tablet_mode Bamboo.zeroState 2)
     { pid := USBToken.IN, ep := 3, status := USBRet.SUCCESS, data := [] }
     { pid := USBToken.IN, ep := 1, status := USBRet.SUCCESS, data := [] }
     [0, 0, 0] 7 rfl rfl rfl (Or.inr rfl) rfl rfl rfl rfl).2.2.1 (by decide)⟩

/-- C37: pen and proximity reports of the advanced variant are always distinguishable.
For every state, every proximity flag and all buffers long enough for the reports, both
reports carry the tag byte 2; byte 1 of the pen report has the in-range bit `0x20` set;
byte 1 of the proximity report is `0x80` or `0xC2` and has that bit clear; so the first
two bytes of a pen report never equal the first two bytes of a proximity report. -/
theorem C37_reports_distinguishable (sPen sProx : Intuos5.USBWacomState)
    (bufPen bufProx : List Nat) (inProx : Bool)
    (hPen : 10 ≤ bufPen.length) (hProx : 9 ≤ bufProx.length) :
    (Intuos5.usb_wacom_poll sPen bufPen bufPen.length).1.getD 0 0 = 2
    ∧ (Intuos5.usb_wacom_poll sPen bufPen bufPen.length).1.getD 1 0 &&& 0x20 = 0x20
    ∧ (Intuos5.usb_wacom_prox_event sProx bufProx bufProx.length inProx).1.getD 0 0 = 2
    ∧ (Intuos5.usb_wacom_prox_event sProx bufProx bufProx.length inProx).1.getD 1 0
        = (if inProx then 0xC2 else 0x80)
    ∧ (Intuos5.usb_wacom_prox_event sProx bufProx bufProx.length inProx).1.getD 1 0 &&& 0x20
        = 0
    ∧ (Intuos5.usb_wacom_poll sPen bufPen bufPen.length).1.take 2
        ≠ (Intuos5.usb_wacom_prox_event sProx bufProx bufProx.length inProx).1.take 2 := by
  have hlen : (10 : Int) ≤ (bufPen.length : Int) := by omega
  have ht := intuos_poll_take sPen bufPen bufPen.length hlen hPen
  have hbit := pen_status_byte (buttonDown sPen.buttons_state MOUSE_EVENT_RBUTTON)
    (buttonDown sPen.buttons_state MOUSE_EVENT_MBUTTON)
    (if buttonDown sPen.buttons_state MOUSE_EVENT_LBUTTON then toUInt16 sPen.pressure else 0)
  obtain ⟨rest, hrest⟩ : ∃ rest, (Intuos5.usb_wacom_poll sPen bufPen bufPen.length).1
      = (Intuos5.usb_wacom_poll sPen bufPen bufPen.length).1.take 10 ++ rest :=
    ⟨_, (List.take_append_drop 10 _).symm⟩
  rw [ht] at hrest
  rw [hrest, prox_event_eq sProx bufProx inProx hProx]
  refine ⟨rfl, hbit, rfl, rfl, ?_, ?_⟩
  · have hb1 : (([2, if inProx then 0xC2 else 0x80, 0x80, 0x2F, 0xEE, 0xDC, 0x0D, 0xE0, 0x00]
        ++ bufProx.drop 9, (bufProx.length : Int)) : List Nat × Int).1.getD 1 0
        = (if inProx then 0xC2 else 0x80) := rfl
    rw [hb1]
    cases inProx <;> decide
  · intro h
    have e1 : toUInt8 (0x80 ||| 0x40 ||| 0x20
        ||| ((if buttonDown sPen.buttons_state MOUSE_EVENT_RBUTTON then 2 else 0)
              ||| (if buttonDown sPen.buttons_state MOUSE_EVENT_MBUTTON then 4 else 0))
        ||| ((if buttonDown sPen.buttons_state MOUSE_EVENT_LBUTTON
                then toUInt16 sPen.pressure else 0) &&& 1))
        = (if inProx then 0xC2 else 0x80) := by
      simp only [List.cons_append, List.take_succ_cons, List.take_zero] at h
      injection h with _ h
      injection h
    rw [e1] at hbit
    cases inProx
    · exact absurd hbit (by decide)
    · exact absurd hbit (by decide)

/-- Witness of `C37_reports_distinguishable`: the reports of the zero state into zeroed
buffers, the proximity report being for a pen in proximity. -/
theorem C37_reports_distinguishable_witness :
    ((10 : Nat) ≤ [0, 0, 0, 0, 0, 0, 0, 0, 0, 0].length
      ∧ (9 : Nat) ≤ [0, 0, 0, 0, 0, 0, 0, 0, 0].length)
    ∧ (Intuos5.usb_wacom_poll Intuos5.zeroState [0, 0, 0, 0, 0, 0, 0, 0, 0, 0]
          ([0, 0, 0, 0, 0, 0, 0, 0, 0, 0] : List Nat).length).1.take 2
        ≠ (Intuos5.usb_wacom_prox_event Intuos5.zeroState [0, 0, 0, 0, 0, 0, 0, 0, 0]
          ([0, 0, 0, 0, 0, 0, 0, 0, 0] : List Nat).length true).1.take 2 :=
  ⟨by decide,
   (C37_reports_distinguishable Intuos5.zeroState Intuos5.zeroState
     [0, 0, 0, 0, 0, 0, 0, 0, 0, 0] [0, 0, 0, 0, 0, 0, 0, 0, 0] true
     (by decide) (by decide)).2.2.2.2.2⟩

/-- C38: the coordinate scaling never overflows 32-bit signed arithmetic.  For every raw
x and y in `[-32768, 32767]` and the resolutions of both variants (14720 by 9200 and
44704 by 27940), the products `x * TABLET_RESOLUTION_X` and `y * TABLET_RESOLUTION_Y` lie
within `[-2^31, 2^31 - 1]`, so the coordinates stored by `usb_wacom_event` are the exact
integer quotients by `0x7FFF`, truncated toward zero. -/
theorem C38_scaling_no_overflow (sI : Intuos5.USBWacomState) (sB : Bamboo.USBWacomState)
    (x y dz b now : Int)
    (hx1 : -32768 ≤ x) (hx2 : x ≤ 32767) (hy1 : -32768 ≤ y) (hy2 : y ≤ 32767) :
    ((-2147483648 ≤ x * Bamboo.TABLET_RESOLUTION_X ∧ x * Bamboo.TABLET_RESOLUTION_X ≤ 2147483647)
      ∧ (-2147483648 ≤ y * Bamboo.TABLET_RESOLUTION_Y
          ∧ y * Bamboo.TABLET_RESOLUTION_Y ≤ 2147483647)
      ∧ (-2147483648 ≤ x * Intuos5.TABLET_RESOLUTION_X
          ∧ x * Intuos5.TABLET_RESOLUTION_X ≤ 2147483647)
      ∧ (-2147483648 ≤ y * Intuos5.TABLET_RESOLUTION_Y
          ∧ y * Intuos5.TABLET_RESOLUTION_Y ≤ 2147483647))
    ∧ (wrap32 (x * Bamboo.TABLET_RESOLUTION_X) = x * Bamboo.TABLET_RESOLUTION_X
      ∧ wrap32 (y * Bamboo.TABLET_RESOLUTION_Y) = y * Bamboo.TABLET_RESOLUTION_Y
      ∧ wrap32 (x * Intuos5.TABLET_RESOLUTION_X) = x * Intuos5.TABLET_RESOLUTION_X
      ∧ wrap32 (y * Intuos5.TABLET_RESOLUTION_Y) = y * Intuos5.TABLET_RESOLUTION_Y)
    ∧ ((Bamboo.usb_wacom_event sB x y dz b).x = Int.tdiv (x * 14720) 0x7FFF
      ∧ (Bamboo.usb_wacom_event sB x y dz b).y = Int.tdiv (y * 9200) 0x7FFF
      ∧ (Intuos5.usb_wacom_event sI x y dz b now).x = Int.tdiv (x * 44704) 0x7FFF
      ∧ (Intuos5.usb_wacom_event sI x y dz b now).y = Int.tdiv (y * 27940) 0x7FFF) := by
  have b1 : -2147483648 ≤ x * 14720 ∧ x * 14720 ≤ 2147483647 := by omega
  have b2 : -2147483648 ≤ y * 9200 ∧ y * 9200 ≤ 2147483647 := by omega
  have b3 : -2147483648 ≤ x * 44704 ∧ x * 44704 ≤ 2147483647 := by omega
  have b4 : -2147483648 ≤ y * 27940 ∧ y * 27940 ≤ 2147483647 := by omega
  refine ⟨⟨b1, b2, b3, b4⟩, ⟨?_, ?_, ?_, ?_⟩,
    ⟨bamboo_event_x sB x y dz b hx1 hx2, bamboo_event_y sB x y dz b hy1 hy2,
      intuos_event_x sI x y dz b now hx1 hx2, intuos_event_y sI x y dz b now hy1 hy2⟩⟩
  · exact wrap32_of_inRange _ b1.1 (by have := b1.2; show x * 14720 < 2147483648; omega)
  · exact wrap32_of_inRange _ b2.1 (by have := b2.2; show y * 9200 < 2147483648; omega)
  · exact wrap32_of_inRange _ b3.1 (by have := b3.2; show x * 44704 < 2147483648; omega)
  · exact wrap32_of_inRange _ b4.1 (by have := b4.2; show y * 27940 < 2147483648; omega)

/-- Witness of `C38_scaling_no_overflow`: the extreme raw values -32768 and 32767. -/
theorem C38_scaling_no_overflow_witness :
    ((-32768 : Int) ≤ -32768 ∧ (-32768 : Int) ≤ 32767 ∧ (-32768 : Int) ≤ 32767
      ∧ (32767 : Int) ≤ 32767)
    ∧ (Intuos5.usb_wacom_event Intuos5.zeroState (-32768) 32767 0 0 0).x
        = Int.tdiv (-32768 * 44704) 0x7FFF
    ∧ (Intuos5.usb_wacom_event Intuos5.zeroState (-32768) 32767 0 0 0).y
        = Int.tdiv (32767 * 27940) 0x7FFF :=
  ⟨by decide,
   (C38_scaling_no_overflow Intuos5.zeroState Bamboo.zeroState (-32768) 32767 0 0 0
     (by decide) (by decide) (by decide) (by decide)).2.2.2.2.1,
   (C38_scaling_no_overflow Intuos5.zeroState Bamboo.zeroState (-32768) 32767 0 0 0
     (by decide) (by decide) (by decide) (by decide)).2.2.2.2.2⟩

end Wacom
